import Mathlib

/-!
Verification of the homiletic_xray pipeline scripts
(`02__json_to_tsv_converter.py`, `precompute_statistics.py`,
`violin_data_precompute.py`, `02b__check_complete_cases.py`) against their
natural-language specification.

The Python values decoded from JSON are modelled by `JValue`; Python floats
are modelled by the rational value of their shortest decimal representation.
Operations that can raise a Python exception (attribute access on a non-dict,
unhashable keys, ...) return `Option`, with `none` standing for a raised
exception; total Python functions are total Lean functions.
-/

namespace HomileticXray

/-- Python/JSON numbers: an int or a float.  A float is modelled by the exact
rational value it denotes (floats are dyadic rationals; shortest-repr decimal
values round-trip). -/
inductive JNum where
  | int (n : ℤ)
  | float (q : ℚ)
deriving DecidableEq, Repr

/-- JSON values as decoded by Python `json.load`: `None`, `bool`, numbers,
`str`, `list`, and `dict` (an insertion-ordered association list; `json.load`
produces unique keys). -/
inductive JValue where
  | null
  | bool (b : Bool)
  | num (n : JNum)
  | str (s : String)
  | arr (xs : List JValue)
  | obj (fs : List (String × JValue))
deriving Repr

/-- The numeric value of a Python object under arithmetic, if it has one:
ints and floats directly, and bools as 0/1 (Python `bool` is a subclass of
`int`, so `isinstance(True, int)` holds and `True == 1`). -/
def jNumVal : JValue → Option ℚ
  | .num (.int n) => some (n : ℚ)
  | .num (.float q) => some q
  | .bool b => some (if b then 1 else 0)
  | _ => none

/-- Python truthiness of a JSON value: `None`, `False`, numeric zero, the
empty string, the empty list and the empty dict are falsy. -/
def pyTruthy : JValue → Bool
  | .null => false
  | .bool b => b
  | .num (.int n) => !(n == 0)
  | .num (.float q) => !(q == 0)
  | .str s => !(s == "")
  | .arr xs => !xs.isEmpty
  | .obj fs => !fs.isEmpty

/-- Whether a value is a Python dict. -/
def JValue.isObjB : JValue → Bool
  | .obj _ => true
  | _ => false

/-- First binding of a key in a dict's association list (keys produced by
`json.load` are unique, so first = last). -/
def lookupField : List (String × JValue) → String → Option JValue
  | [], _ => none
  | (k, v) :: rest, key => if k = key then some v else lookupField rest key

/-- Python `s.replace('\n', ' ')` at the character level. -/
def pyReplaceNl (s : List Char) : List Char :=
  s.map (fun c => if c = '\n' then ' ' else c)

/-- Python `s.replace('\r', '')` at the character level. -/
def pyDropCr (s : List Char) : List Char :=
  s.filter (fun c => !(c == '\r'))

/-- A lower-case hexadecimal digit. -/
def hexDigit (n : ℕ) : Char :=
  if n < 10 then Char.ofNat (48 + n) else Char.ofNat (87 + n)

/-- JSON string escaping as `json.dumps(..., ensure_ascii=False)` performs
it: quote, backslash and control characters are escaped, everything else is
passed through. -/
def jsonEscapeChar (c : Char) : List Char :=
  if c = '"' then ['\\', '"']
  else if c = '\\' then ['\\', '\\']
  else if c = '\n' then ['\\', 'n']
  else if c = '\r' then ['\\', 'r']
  else if c = '\t' then ['\\', 't']
  else if c = '\x08' then ['\\', 'b']
  else if c = '\x0c' then ['\\', 'f']
  else if c.toNat < 32 then
    ['\\', 'u', '0', '0', hexDigit (c.toNat / 16), hexDigit (c.toNat % 16)]
  else [c]

/-- A JSON string literal: quotes around the escaped characters. -/
def jsonQuote (s : String) : String :=
  "\"" ++ String.mk ((s.data.map jsonEscapeChar).flatten) ++ "\""

/-- Decimal digits of the fractional part of a nonnegative rational, at most
`fuel` digits, stopping when the remainder hits zero.  Every float's shortest
decimal representation terminates within 17 digits. -/
def fracDigits : ℕ → ℚ → List Char
  | 0, _ => []
  | fuel + 1, f =>
    if f = 0 then []
    else
      let d : ℤ := Int.floor (f * 10)
      Char.ofNat (48 + d.toNat) :: fracDigits fuel (f * 10 - (d : ℚ))

/-- Python `str()` of a float, for floats whose value has a finite decimal
expansion (every shortest float representation does): integer part, a dot,
and at least one fractional digit. -/
def floatRepr (q : ℚ) : String :=
  let sign := if q < 0 then "-" else ""
  let a := |q|
  let ip : ℤ := Int.floor a
  let ds := fracDigits 17 (a - (ip : ℚ))
  sign ++ toString ip ++ "." ++ (if ds = [] then "0" else String.mk ds)

/-- Python `str()` of an int or a float. -/
def pyNumStr : JNum → String
  | .int n => toString n
  | .float q => floatRepr q

/-- Comma-space join, the default item separator of `json.dumps`. -/
def commaJoin : List String → String
  | [] => ""
  | [s] => s
  | s :: rest => s ++ ", " ++ commaJoin rest

/-- `json.dumps(value, ensure_ascii=False)` with the default separators. -/
def dumps : JValue → String
  | .null => "null"
  | .bool b => if b then "true" else "false"
  | .num n => pyNumStr n
  | .str s => jsonQuote s
  | .arr xs => "[" ++ commaJoin (xs.attach.map (fun v => dumps v.1)) ++ "]"
  | .obj fs =>
      "\x7b" ++
        commaJoin (fs.attach.map (fun kv => jsonQuote kv.1.1 ++ ": " ++ dumps kv.1.2)) ++
        "\x7d"
decreasing_by
  · have h := List.sizeOf_lt_of_mem v.2
    simp only [JValue.arr.sizeOf_spec]
    omega
  · obtain ⟨⟨k, w⟩, hmem⟩ := kv
    have h := List.sizeOf_lt_of_mem hmem
    simp only [Prod.mk.sizeOf_spec] at h
    simp only [JValue.obj.sizeOf_spec]
    omega

theorem dumps_arr (xs : List JValue) :
    dumps (.arr xs) = "[" ++ commaJoin (xs.map dumps) ++ "]" := by
  rw [dumps]
  congr 1
  congr 1
  exact congrArg commaJoin (List.attach_map_val xs dumps)

theorem dumps_obj (fs : List (String × JValue)) :
    dumps (.obj fs) =
      "\x7b" ++ commaJoin (fs.map (fun kv => jsonQuote kv.1 ++ ": " ++ dumps kv.2)) ++ "\x7d" := by
  rw [dumps]
  congr 2
  exact congrArg commaJoin (List.attach_map_val fs (fun kv => jsonQuote kv.1 ++ ": " ++ dumps kv.2))

/-- `serialize_value` from `02__json_to_tsv_converter.py` lines 84-102: `None`
to the empty string; list/dict to JSON text with `'\n'` replaced by a space
and `'\r'` removed; bools to `"TRUE"`/`"FALSE"` (checked before int because
Python bool is an int subclass); numbers to `str()`; strings with the same
newline scrubbing as JSON text. -/
def serialize_value : JValue → String
  | .null => ""
  | .arr xs => String.mk (pyDropCr (pyReplaceNl (dumps (.arr xs)).data))
  | .obj fs => String.mk (pyDropCr (pyReplaceNl (dumps (.obj fs)).data))
  | .bool b => if b then "TRUE" else "FALSE"
  | .num n => pyNumStr n
  | .str s => String.mk (pyDropCr (pyReplaceNl s.data))

/-- The scrub claimed by the spec sentence for C2: newline AND carriage-return
characters each replaced by a single space. -/
def claimScrub (s : String) : String :=
  String.mk (s.data.map (fun c => if c = '\n' ∨ c = '\r' then ' ' else c))

/-- The scrub the code actually applies (the amended claim): newlines become
single spaces, carriage returns are removed. -/
def amendedScrub (s : String) : String :=
  String.mk (s.data.filterMap
    (fun c => if c = '\r' then none else if c = '\n' then some ' ' else some c))

theorem pyDropCr_pyReplaceNl_eq_filterMap (l : List Char) :
    pyDropCr (pyReplaceNl l) =
      l.filterMap (fun c => if c = '\r' then none else if c = '\n' then some ' ' else some c) := by
  induction l with
  | nil => rfl
  | cons c rest ih =>
    simp only [pyReplaceNl, pyDropCr, List.map_cons, List.filter_cons, List.filterMap_cons] at *
    by_cases h1 : c = '\n'
    · subst h1
      simp [ih, pyReplaceNl, pyDropCr]
    · by_cases h2 : c = '\r'
      · subst h2
        simp [h1, ih, pyReplaceNl, pyDropCr]
      · simp [h1, h2, ih, pyReplaceNl, pyDropCr]

theorem nl_not_mem_scrub (l : List Char) : '\n' ∉ pyDropCr (pyReplaceNl l) := by
  intro hmem
  have h1 : '\n' ∈ pyReplaceNl l := List.mem_of_mem_filter hmem
  rcases List.mem_map.mp h1 with ⟨c, _, hc⟩
  by_cases h : c = '\n' <;> simp [h] at hc

/-- C2, counterexample: the claim says carriage-return characters are replaced
by single spaces, but `serialize_value` deletes them: on the string `"a\rb"`
the code returns `"ab"` while the claimed rule predicts `"a b"`. -/
theorem C2_counterexample :
    serialize_value (.str "a\rb") = "ab" ∧
    claimScrub "a\rb" = "a b" ∧
    ("ab" : String) ≠ "a b" := by
  refine ⟨rfl, rfl, by decide⟩

/-- C2 (amended): `serialize_value` is total and obeys: null maps to the empty
string; booleans to `"TRUE"`/`"FALSE"`; the list `[1, 2]` to `"[1, 2]"`;
integers to their decimal form; strings to the string with newlines replaced
by single spaces and carriage returns removed; and no output for a string,
list or object input ever contains an embedded newline. -/
theorem C2_serialize_value_spec :
    serialize_value .null = "" ∧
    (∀ b : Bool, serialize_value (.bool b) = if b then "TRUE" else "FALSE") ∧
    serialize_value (.arr [.num (.int 1), .num (.int 2)]) = "[1, 2]" ∧
    (∀ n : ℤ, serialize_value (.num (.int n)) = toString n) ∧
    (∀ s : String, serialize_value (.str s) = amendedScrub s) ∧
    (∀ s : String, '\n' ∉ (serialize_value (.str s)).data) ∧
    (∀ xs : List JValue, '\n' ∉ (serialize_value (.arr xs)).data) ∧
    (∀ fs : List (String × JValue), '\n' ∉ (serialize_value (.obj fs)).data) := by
  refine ⟨rfl, fun b => rfl, ?_, fun n => rfl, fun s => ?_, fun s => ?_, fun xs => ?_, fun fs => ?_⟩
  · have h12 : dumps (.arr [.num (.int 1), .num (.int 2)]) = "[1, 2]" := by
      rw [dumps_arr]
      simp only [List.map_cons, List.map_nil]
      rw [dumps, dumps]
      rfl
    show String.mk (pyDropCr (pyReplaceNl (dumps (.arr [.num (.int 1), .num (.int 2)])).data)) = _
    rw [h12]
    rfl
  · simp [serialize_value, amendedScrub, pyDropCr_pyReplaceNl_eq_filterMap]
  · exact nl_not_mem_scrub _
  · exact nl_not_mem_scrub _
  · exact nl_not_mem_scrub _

/-! ### Filename parsing (KeyParser): the three parse_filename functions -/

/-- Python `str.split('_')`: split on every underscore, keeping empty pieces. -/
def splitUnd : List Char → List (List Char)
  | [] => [[]]
  | c :: rest =>
    match splitUnd rest with
    | [] => [[]]
    | t :: ts => if c = '_' then [] :: t :: ts else (c :: t) :: ts

/-- Python `'_'.join`. -/
def joinUnd : List (List Char) → List Char
  | [] => []
  | [t] => t
  | t :: rest => t ++ '_' :: joinUnd rest

/-- Prefix test on character lists (Python startswith / slice equality). -/
def isPrefixL : List Char → List Char → Bool
  | [], _ => true
  | _ :: _, [] => false
  | a :: as, b :: bs => a == b && isPrefixL as bs

/-- Python substring test (`needle in hay`). -/
def isSubL (needle : List Char) : List Char → Bool
  | [] => needle.isEmpty
  | c :: rest => isPrefixL needle (c :: rest) || isSubL needle rest

/-- Python `str.endswith`. -/
def endsWithL (tail s : List Char) : Bool := isPrefixL tail.reverse s.reverse

/-- Python `str.replace(old, new)` with nonempty old: scan left to right
replacing non-overlapping occurrences; the fuel (the wrapper passes the
string's length) bounds the scan, each step consuming at least one
character. -/
def replaceAllAux (old new : List Char) : ℕ → List Char → List Char
  | 0, hay => hay
  | _ + 1, [] => []
  | fuel + 1, c :: rest =>
      if isPrefixL old (c :: rest) then
        new ++ replaceAllAux old new fuel (List.drop (old.length - 1) rest)
      else
        c :: replaceAllAux old new fuel rest

/-- Python `hay.replace(old, new)`. -/
def replaceAll (hay old new : List Char) : List Char := replaceAllAux old new hay.length hay

/-- Python `s.replace(old, new)` on strings. -/
def pyReplaceStr (s old new : String) : String := String.mk (replaceAll s.data old.data new.data)

/-- Python `needle in hay` on strings. -/
def pyInStr (needle hay : String) : Bool := isSubL needle.data hay.data

/-- Python `s.endswith(t)`. -/
def pyEndsWith (s t : String) : Bool := endsWithL t.data s.data

/-- Python `s.startswith(t)`. -/
def pyStartsWith (s t : String) : Bool := isPrefixL t.data s.data

/-- The nine known analysis types of the converter and the checker. -/
def ANALYSIS_TYPES : List String :=
  ["aristoteles", "dekker", "kolb", "schulz_von_thun", "esthetiek",
   "transactional", "metaphor", "speech_act", "narrative"]

/-- The six known analysis types of violin_data_precompute.py (it lacks
metaphor, speech_act and narrative). -/
def VIOLIN_ANALYSIS_TYPES : List String :=
  ["aristoteles", "dekker", "kolb", "schulz_von_thun", "esthetiek", "transactional"]

/-- Whether the token sequence starting at index i equals the (possibly
multi-token) analysis-type name: `'_'.join(parts[i : i + len]) == ty` where
len is the token count of the name. -/
def typeMatchesAt (parts : List (List Char)) (i : ℕ) (ty : String) : Bool :=
  joinUnd ((parts.drop i).take (splitUnd ty.data).length) == ty.data

/-- Whether any declared analysis type matches at index i (the inner loop of
the scan; only the index matters downstream, so the declaration-order tie
break has no observable effect). -/
def anyTypeAt (types : List String) (parts : List (List Char)) (i : ℕ) : Bool :=
  types.any (typeMatchesAt parts i)

/-- The scan loop of parse_filename: `for i in range(1, len(parts))`, return
the first index at which some analysis type matches. -/
def findStartAux (types : List String) (parts : List (List Char)) : ℕ → ℕ → Option ℕ
  | 0, _ => none
  | fuel + 1, i =>
      if anyTypeAt types parts i then some i else findStartAux types parts fuel (i + 1)

/-- Where the analysis type begins in the token list, or none. -/
def findStart (types : List String) (parts : List (List Char)) : Option ℕ :=
  findStartAux types parts (parts.length - 1) 1

namespace Conv

/-- The converter's skip patterns (substring match on the whole filename). -/
def skip_patterns : List String := ["statistics", "violin_data", "file_index", ".raw"]

/-- parse_filename from 02__json_to_tsv_converter.py lines 36-81: skip
non-.json files, auxiliary artifacts and `_B_` repeat runs; strip every
occurrence of ".json"; split on underscores; scan for a known analysis type
from index 1; fall back to token 1 / tokens 2.. when no match lands at index
at least 2. -/
def parse_filename (filename : String) : Option (String × String × String) :=
  if !(pyEndsWith filename ".json") then none
  else if skip_patterns.any (fun p => pyInStr p filename) then none
  else if pyInStr "_B_" filename then none
  else
    let parts := splitUnd (pyReplaceStr filename ".json" "").data
    if parts.length < 3 then none
    else
      let theologian := String.mk (parts.headD [])
      match findStart ANALYSIS_TYPES parts with
      | none =>
          some (theologian, String.mk (parts.getD 1 []), String.mk (joinUnd (parts.drop 2)))
      | some idx =>
          if idx < 2 then
            some (theologian, String.mk (parts.getD 1 []), String.mk (joinUnd (parts.drop 2)))
          else
            some (theologian, String.mk (joinUnd ((parts.drop 1).take (idx - 1))),
                  String.mk (joinUnd (parts.drop idx)))

end Conv

namespace Stats

/-- parse_filename from precompute_statistics.py lines 25-44: no analysis-type
scan at all — token 1 is always the sermon and tokens 2.. always the
analysis. -/
def parse_filename (filename : String) : Option (String × String × String) :=
  if !(pyEndsWith filename ".json") || pyEndsWith filename ".raw" ||
      pyStartsWith filename "file_index" || pyStartsWith filename "statistics" then none
  else
    let parts := splitUnd (pyReplaceStr filename ".json" "").data
    if parts.length < 3 then none
    else
      some (String.mk (parts.headD []), String.mk (parts.getD 1 []),
            String.mk (joinUnd (parts.drop 2)))

end Stats

namespace Violin

/-- parse_filename from violin_data_precompute.py lines 24-66: same scan as
the converter but over only six known analysis types, and with
startswith-based skip rules. -/
def parse_filename (filename : String) : Option (String × String × String) :=
  if !(pyEndsWith filename ".json") || pyEndsWith filename ".raw" ||
      pyStartsWith filename "file_index" || pyStartsWith filename "statistics" ||
      pyStartsWith filename "violin_data" then none
  else
    let parts := splitUnd (pyReplaceStr filename ".json" "").data
    if parts.length < 3 then none
    else
      let theologian := String.mk (parts.headD [])
      match findStart VIOLIN_ANALYSIS_TYPES parts with
      | none =>
          some (theologian, String.mk (parts.getD 1 []), String.mk (joinUnd (parts.drop 2)))
      | some idx =>
          if idx < 2 then
            some (theologian, String.mk (parts.getD 1 []), String.mk (joinUnd (parts.drop 2)))
          else
            some (theologian, String.mk (joinUnd ((parts.drop 1).take (idx - 1))),
                  String.mk (joinUnd (parts.drop idx)))

end Violin

/-- The claim's scan, phrased over the explicit index list `[1, ..., n-1]`:
the first index at or after 1 at which any declared analysis type matches. -/
def specFindStart (types : List String) (parts : List (List Char)) : Option ℕ :=
  (List.range' 1 (parts.length - 1)).find? (anyTypeAt types parts)

/-- KeyParser behaviour exactly as claim C3 words it, applied to the filename
STEM (the filename minus its final ".json"): token 0 is the subject; the
domain starts at the first index at or after 1 where a declared domain name
matches; no match, or a match at index below 2, falls back to token 1 /
tokens 2 onward. -/
def specStemParse (stem : String) : Option (String × String × String) :=
  let parts := splitUnd stem.data
  if parts.length < 3 then none
  else
    let theologian := String.mk (parts.headD [])
    match specFindStart ANALYSIS_TYPES parts with
    | none =>
        some (theologian, String.mk (parts.getD 1 []), String.mk (joinUnd (parts.drop 2)))
    | some idx =>
        if idx < 2 then
          some (theologian, String.mk (parts.getD 1 []), String.mk (joinUnd (parts.drop 2)))
        else
          some (theologian, String.mk (joinUnd ((parts.drop 1).take (idx - 1))),
                String.mk (joinUnd (parts.drop idx)))

theorem findStartAux_eq_find (types : List String) (parts : List (List Char)) :
    ∀ fuel i, findStartAux types parts fuel i =
      (List.range' i fuel).find? (anyTypeAt types parts) := by
  intro fuel
  induction fuel with
  | zero => intro i; rfl
  | succ n ih =>
    intro i
    rw [findStartAux, List.range'_succ]
    by_cases h : anyTypeAt types parts i
    · simp [h, List.find?_cons_of_pos]
    · rw [if_neg h, ih (i + 1), List.find?_cons_of_neg _ h]

theorem findStart_eq_spec (types : List String) (parts : List (List Char)) :
    findStart types parts = specFindStart types parts := by
  rw [findStart, specFindStart, findStartAux_eq_find]

theorem isPrefixL_append_self (l x : List Char) : isPrefixL l (l ++ x) = true := by
  induction l with
  | nil => rfl
  | cons c rest ih => simp [isPrefixL, ih]

theorem isSubL_of_isPrefixL {p s : List Char} (h : isPrefixL p s = true) :
    isSubL p s = true := by
  cases s with
  | nil =>
    cases p with
    | nil => rfl
    | cons a as => simp [isPrefixL] at h
  | cons c rest => simp [isSubL, h]

theorem endsWithL_append (s t : List Char) : endsWithL t (s ++ t) = true := by
  rw [endsWithL, List.reverse_append]
  exact isPrefixL_append_self _ _

/-- The only occurrence of ".json" in `stem ++ ".json"` is the final one,
because ".json" has no nontrivial self-overlap; so if the stem itself
contains no ".json", the leading prefix test always fails while inside the
stem. -/
theorem not_isPrefix_json_of_not_sub (c : Char) (s : List Char)
    (h : isSubL ".json".data (c :: s) = false) :
    isPrefixL ".json".data (c :: s ++ ".json".data) = false := by
  by_contra hcontra
  rw [Bool.not_eq_false] at hcontra
  rcases s with _ | ⟨a, _ | ⟨b, _ | ⟨d, _ | ⟨e, s2⟩⟩⟩⟩
  · simp [isPrefixL] at hcontra
  · simp [isPrefixL] at hcontra
  · simp [isPrefixL] at hcontra
  · simp [isPrefixL] at hcontra
  · simp only [isSubL, isPrefixL, Bool.or_eq_false_iff] at h
    simp only [List.cons_append, isPrefixL, isPrefixL_append_self,
      Bool.and_eq_true, beq_iff_eq] at hcontra
    obtain ⟨h1, h2, h3, h4, h5, _⟩ := hcontra
    subst h1; subst h2; subst h3; subst h4; subst h5
    simp [isPrefixL, isPrefixL_append_self] at h

theorem replaceAllAux_nil (old new : List Char) (fuel : ℕ) :
    replaceAllAux old new fuel [] = [] := by
  cases fuel with
  | zero => rfl
  | succ n => rfl

/-- Stripping ".json" from `stem ++ ".json"` returns exactly the stem when the
stem itself contains no ".json". -/
theorem replaceAll_strip_json (stem : List Char)
    (h : isSubL ".json".data stem = false) :
    replaceAll (stem ++ ".json".data) ".json".data [] = stem := by
  have key : ∀ fuel s, isSubL ".json".data s = false →
      s.length + 5 ≤ fuel →
      replaceAllAux ".json".data [] fuel (s ++ ".json".data) = s := by
    intro fuel
    induction fuel with
    | zero => intro s _ hle; omega
    | succ n ih =>
      intro s hs hle
      cases s with
      | nil =>
        show replaceAllAux ".json".data [] (n + 1) ('.' :: "json".data) = []
        rw [replaceAllAux]
        have hp : isPrefixL ".json".data ('.' :: "json".data) = true := by decide
        rw [hp]
        simp only [if_true, List.nil_append]
        show replaceAllAux ".json".data [] n (List.drop 4 "json".data) = []
        exact replaceAllAux_nil _ _ _
      | cons c rest =>
        have hpre := not_isPrefix_json_of_not_sub c rest hs
        rw [List.cons_append] at hpre
        have hsub : isSubL ".json".data rest = false := by
          simp only [isSubL, Bool.or_eq_false_iff] at hs
          exact hs.2
        have hrec := ih rest hsub (by simp only [List.length_cons] at hle; omega)
        show replaceAllAux ".json".data [] (n + 1) (c :: (rest ++ ".json".data)) = c :: rest
        rw [replaceAllAux, hpre]
        simp only [Bool.false_eq_true, if_false]
        exact congrArg (c :: ·) hrec
  rw [replaceAll]
  exact key _ stem h (by simp)

theorem string_append_data (l : List Char) (t : String) :
    (String.mk l ++ t).data = l ++ t.data := rfl

theorem pyEndsWith_append_json (l : List Char) :
    pyEndsWith (String.mk l ++ ".json") ".json" = true := by
  rw [pyEndsWith, string_append_data]
  exact endsWithL_append _ _

theorem pyEndsWith_append_json_raw (l : List Char) :
    pyEndsWith (String.mk l ++ ".json") ".raw" = false := by
  rw [pyEndsWith, string_append_data, endsWithL, List.reverse_append]
  rfl

theorem pyStartsWith_false_of_not_in {p f : String} (h : pyInStr p f = false) :
    pyStartsWith f p = false := by
  rw [pyStartsWith]
  by_contra hcontra
  rw [Bool.not_eq_false] at hcontra
  rw [pyInStr, isSubL_of_isPrefixL hcontra] at h
  simp at h

theorem drop_one_take_one (parts : List (List Char)) (hlen : 2 ≤ parts.length) :
    (parts.drop 1).take 1 = [parts.getD 1 []] := by
  rcases parts with _ | ⟨a, _ | ⟨b, rest⟩⟩
  · simp at hlen
  · simp at hlen
  · rfl

/-- C3 (amended): for every filename `stem ++ ".json"` whose stem does not
itself contain ".json" and that matches no skip rule (no auxiliary-file
fragment, no `_B_` repeat marker), the converter's parse_filename agrees
exactly with the claim's stem-token description `specStemParse` (subject is
token 0; the domain starts at the first index at or after 1 where any
declared domain name matches; no match or a match before index 2 falls back
to token 1 / tokens 2 onward; fewer than 3 tokens is unparseable). -/
theorem C3_parse_filename_matches_spec (stem : String)
    (hclean : isSubL ".json".data stem.data = false)
    (hskip : (Conv.skip_patterns.any fun p => pyInStr p (stem ++ ".json")) = false)
    (hB : pyInStr "_B_" (stem ++ ".json") = false) :
    Conv.parse_filename (stem ++ ".json") = specStemParse stem := by
  obtain ⟨l⟩ := stem
  rw [Conv.parse_filename, pyEndsWith_append_json, hskip, hB]
  simp only [Bool.not_true, Bool.false_eq_true, if_false]
  have hbase : pyReplaceStr (String.mk l ++ ".json") ".json" "" = String.mk l := by
    rw [pyReplaceStr, string_append_data]
    exact congrArg String.mk (replaceAll_strip_json l hclean)
  rw [hbase, specStemParse, findStart_eq_spec]

/-- C3, counterexample: the claim quantifies over every filename whose STEM
splits into at least 3 tokens and matches no skip rule, but the code strips
every ".json" occurrence, not just the final extension, so for
"x.json_y_z_aristoteles.json" the stem-based prediction keeps the subject
"x.json" while the code returns subject "x". -/
theorem C3_counterexample :
    Conv.parse_filename "x.json_y_z_aristoteles.json" = some ("x", "y_z", "aristoteles") ∧
    specStemParse "x.json_y_z_aristoteles" = some ("x.json", "y_z", "aristoteles") ∧
    (some ("x", "y_z", "aristoteles") : Option (String × String × String)) ≠
      some ("x.json", "y_z", "aristoteles") := by
  refine ⟨rfl, rfl, by decide⟩

/-- C3, witness: the amended theorem applied to the single-token known-domain
filename of the spec's own example. -/
theorem C3_witness :
    isSubL ".json".data "augustine_01_aristoteles".data = false ∧
    (Conv.skip_patterns.any fun p => pyInStr p "augustine_01_aristoteles.json") = false ∧
    pyInStr "_B_" "augustine_01_aristoteles.json" = false ∧
    Conv.parse_filename "augustine_01_aristoteles.json" = specStemParse "augustine_01_aristoteles" ∧
    specStemParse "augustine_01_aristoteles" = some ("augustine", "01", "aristoteles") := by
  refine ⟨by decide, by decide, by decide, ?_, rfl⟩
  exact C3_parse_filename_matches_spec "augustine_01_aristoteles" (by decide) (by decide) (by decide)

/-- C10 (amended): the three parsers agree, and return
`(token 0, token 1, join of tokens 2..)`, on every clean filename whose
domain-type scan (in both the converter's nine-name vocabulary and the violin
script's six-name vocabulary) finds no match after token index 2 — in
particular on every `subject_case_domain.json` with single-token case id.
For a case id spanning several tokens the statistics parser disagrees
(see the counterexample). -/
theorem C10_parsers_agree_amended (stem : String)
    (hclean : isSubL ".json".data stem.data = false)
    (h1 : pyInStr "statistics" (stem ++ ".json") = false)
    (h2 : pyInStr "violin_data" (stem ++ ".json") = false)
    (h3 : pyInStr "file_index" (stem ++ ".json") = false)
    (h4 : pyInStr ".raw" (stem ++ ".json") = false)
    (hB : pyInStr "_B_" (stem ++ ".json") = false)
    (hlen : 3 ≤ (splitUnd stem.data).length)
    (hc : (findStart ANALYSIS_TYPES (splitUnd stem.data)).getD 2 ≤ 2)
    (hv : (findStart VIOLIN_ANALYSIS_TYPES (splitUnd stem.data)).getD 2 ≤ 2) :
    Conv.parse_filename (stem ++ ".json") = Stats.parse_filename (stem ++ ".json") ∧
    Violin.parse_filename (stem ++ ".json") = Stats.parse_filename (stem ++ ".json") ∧
    Stats.parse_filename (stem ++ ".json") =
      some (String.mk ((splitUnd stem.data).headD []),
            String.mk ((splitUnd stem.data).getD 1 []),
            String.mk (joinUnd ((splitUnd stem.data).drop 2))) := by
  obtain ⟨l⟩ := stem
  have hlen2 : 3 ≤ (splitUnd l).length := hlen
  have hc2 : (findStart ANALYSIS_TYPES (splitUnd l)).getD 2 ≤ 2 := hc
  have hv2 : (findStart VIOLIN_ANALYSIS_TYPES (splitUnd l)).getD 2 ≤ 2 := hv
  have hbase : pyReplaceStr (String.mk l ++ ".json") ".json" "" = String.mk l := by
    rw [pyReplaceStr, string_append_data]
    exact congrArg String.mk (replaceAll_strip_json l hclean)
  have hskipConv : (Conv.skip_patterns.any fun p => pyInStr p (String.mk l ++ ".json")) = false := by
    simp [Conv.skip_patterns, h1, h2, h3, h4]
  have hnot3 : ¬ (splitUnd l).length < 3 := by omega
  have hstats : Stats.parse_filename (String.mk l ++ ".json") =
      some (String.mk ((splitUnd l).headD []), String.mk ((splitUnd l).getD 1 []),
            String.mk (joinUnd ((splitUnd l).drop 2))) := by
    rw [Stats.parse_filename, pyEndsWith_append_json, pyEndsWith_append_json_raw,
      pyStartsWith_false_of_not_in h3, pyStartsWith_false_of_not_in h1]
    simp only [Bool.not_true, Bool.or_false, Bool.false_eq_true, if_false]
    rw [hbase]
    simp only [hnot3, if_false]
  have htake : ((splitUnd l).drop 1).take 1 = [(splitUnd l).getD 1 []] :=
    drop_one_take_one _ (by omega)
  refine ⟨?_, ?_, hstats⟩
  · rw [Conv.parse_filename, pyEndsWith_append_json, hskipConv, hB, hstats]
    simp only [Bool.not_true, Bool.false_eq_true, if_false]
    rw [hbase]
    simp only [hnot3, if_false]
    cases hfs : findStart ANALYSIS_TYPES (splitUnd l) with
    | none => rfl
    | some idx =>
      rw [hfs] at hc2
      simp only [Option.getD_some] at hc2
      by_cases hidx : idx < 2
      · simp only [hidx, if_true]
      · have hidx2 : idx = 2 := by omega
        subst hidx2
        simp only [hidx, if_false, htake]
        rfl
  · rw [Violin.parse_filename, pyEndsWith_append_json, pyEndsWith_append_json_raw,
      pyStartsWith_false_of_not_in h3, pyStartsWith_false_of_not_in h1,
      pyStartsWith_false_of_not_in h2, hstats]
    simp only [Bool.not_true, Bool.or_false, Bool.false_eq_true, if_false]
    rw [hbase]
    simp only [hnot3, if_false]
    cases hfs : findStart VIOLIN_ANALYSIS_TYPES (splitUnd l) with
    | none => rfl
    | some idx =>
      rw [hfs] at hv2
      simp only [Option.getD_some] at hv2
      by_cases hidx : idx < 2
      · simp only [hidx, if_true]
      · have hidx2 : idx = 2 := by omega
        subst hidx2
        simp only [hidx, if_false, htake]
        rfl

/-- C10, counterexample: on "hervormd_11jan2026_01_aristoteles.json" (the very
format the violin script's docstring advertises) the converter finds the
domain at token index 3 and returns case id "11jan2026_01", while the
statistics parser blindly takes token 1 and returns
("hervormd", "11jan2026", "01_aristoteles"): the parsers are not equal. -/
theorem C10_counterexample :
    Conv.parse_filename "hervormd_11jan2026_01_aristoteles.json" =
      some ("hervormd", "11jan2026_01", "aristoteles") ∧
    Stats.parse_filename "hervormd_11jan2026_01_aristoteles.json" =
      some ("hervormd", "11jan2026", "01_aristoteles") ∧
    (some ("hervormd", "11jan2026_01", "aristoteles") : Option (String × String × String)) ≠
      some ("hervormd", "11jan2026", "01_aristoteles") := by
  refine ⟨rfl, rfl, by decide⟩

/-- C10, witness: the amended agreement theorem applied to
"augustine_01_aristoteles.json". -/
theorem C10_witness :
    Conv.parse_filename "augustine_01_aristoteles.json" =
      Stats.parse_filename "augustine_01_aristoteles.json" ∧
    Violin.parse_filename "augustine_01_aristoteles.json" =
      Stats.parse_filename "augustine_01_aristoteles.json" ∧
    Stats.parse_filename "augustine_01_aristoteles.json" =
      some ("augustine", "01", "aristoteles") := by
  have h := C10_parsers_agree_amended "augustine_01_aristoteles" (by decide) (by decide)
    (by decide) (by decide) (by decide) (by decide) (by decide) (by decide) (by decide)
  exact ⟨h.1, h.2.1, h.2.2⟩

/-! ### Aggregation numerics: calculate_stats and calculate_violin_data -/

/-- Round half to even at integer precision: Python `round()`'s tie rule,
applied to the exact rational value of the float. -/
def roundHalfEven (x : ℚ) : ℤ :=
  let f := Int.floor x
  let r := x - (f : ℚ)
  if r < 1/2 then f
  else if 1/2 < r then f + 1
  else if f % 2 = 0 then f else f + 1

/-- Python `round(x, 2)` on the exact value. -/
def round2 (x : ℚ) : ℚ := (roundHalfEven (x * 100) : ℚ) / 100

/-- The arithmetic mean, as the claims word it. -/
def specMean (values : List ℚ) : ℚ := values.sum / (values.length : ℚ)

/-- The population variance — sum of squared deviations divided by count, not
count minus one — as the claims word it. -/
def specPopVariance (values : List ℚ) : ℚ :=
  (values.map (fun x => (x - specMean values) ^ 2)).sum / (values.length : ℚ)

/-- The dictionary returned by calculate_stats.  The Python code returns
`stdDev = round(sqrt(variance), 2)`; to keep the development executable the
field `stdDevSq` holds the pre-root variance (exactly 0 in the count = 1
branch), and theorems relate its square root to the claimed stdDev. -/
structure StatSummary where
  mean : ℚ
  stdDevSq : ℚ
  count : ℕ
deriving DecidableEq, Repr

/-- calculate_stats from precompute_statistics.py lines 186-204: `None` on an
empty list; otherwise the mean (rounded to two decimals), the population
variance when n exceeds 1 and 0 otherwise (whose root, rounded, the code
emits as stdDev), and the count. -/
def calculate_stats (values : List ℚ) : Option StatSummary :=
  if values.isEmpty then none
  else
    let n : ℚ := (values.length : ℚ)
    let mean := values.sum / n
    let variance :=
      if 1 < values.length then (values.map (fun x => (x - mean) ^ 2)).sum / n else 0
    some ⟨round2 mean, variance, values.length⟩

/-- Python `sorted()` on the modelled float values. -/
def pySorted (values : List ℚ) : List ℚ := List.insertionSort (· ≤ ·) values

/-- statistics.median: middle element of the sorted data for odd length, the
average of the two middle elements for even length (never called on empty
data here). -/
def pyMedian (values : List ℚ) : ℚ :=
  let s := pySorted values
  let n := s.length
  if n % 2 = 1 then s.getD (n / 2) 0
  else (s.getD (n / 2 - 1) 0 + s.getD (n / 2) 0) / 2

/-- statistics.quantiles(data, n=4) with the default exclusive method on
already-sorted data: for i = 1, 2, 3, position j = i*(ld+1)//4 clamped into
[1, ld-1] and linear interpolation with weight delta = i*(ld+1) - 4*j. -/
def quantilesExclusive4 (data : List ℚ) : List ℚ :=
  let ld := data.length
  let m := ld + 1
  (List.range' 1 3).map (fun i =>
    let j := min (max ((i * m) / 4) 1) (ld - 1)
    let delta : ℤ := (i * m : ℤ) - ((j : ℤ) * 4)
    (data.getD (j - 1) 0 * ((4 : ℚ) - (delta : ℚ)) + data.getD j 0 * (delta : ℚ)) / 4)

/-- The box-plot numbers inside a violin entry. -/
structure DistSummary where
  min : ℚ
  max : ℚ
  median : ℚ
  q1 : ℚ
  q3 : ℚ
  mean : ℚ
deriving DecidableEq, Repr

/-- One violin entry: all (rounded) sorted raw values, the summary, and the
count. -/
structure ViolinData where
  values : List ℚ
  summary : DistSummary
  count : ℕ
deriving DecidableEq, Repr

/-- calculate_violin_data from violin_data_precompute.py lines 239-281:
`None` on an empty list; otherwise sorted values, min/max/median/q1/q3/mean
each rounded to two decimals, and the count.  Quartiles: statistics.quantiles
for n at least 4; nearest-rank indices n//4 and (3n)//4 for n = 2 or 3 (the
inner n > 1 guards are vacuous there and kept as in the source); the single
point for n = 1. -/
def calculate_violin_data (values : List ℚ) : Option ViolinData :=
  if values.isEmpty then none
  else
    let n := values.length
    let sorted_vals := pySorted values
    let mean_val := values.sum / (n : ℚ)
    let min_val := sorted_vals.getD 0 0
    let max_val := sorted_vals.getD (n - 1) 0
    let median_val := pyMedian sorted_vals
    let q1q3 : ℚ × ℚ :=
      if 4 ≤ n then
        let q := quantilesExclusive4 sorted_vals
        (q.getD 0 0, q.getD 2 0)
      else if 2 ≤ n then
        (if 1 < n then sorted_vals.getD (n / 4) 0 else sorted_vals.getD 0 0,
         if 1 < n then sorted_vals.getD ((3 * n) / 4) 0 else sorted_vals.getD (n - 1) 0)
      else (sorted_vals.getD 0 0, sorted_vals.getD 0 0)
    some ⟨sorted_vals.map round2,
          ⟨round2 min_val, round2 max_val, round2 median_val,
           round2 q1q3.1, round2 q1q3.2, round2 mean_val⟩,
          n⟩

/-- The claim's quartile rule for q1, applied to the sorted sample:
quantiles for n at least 4; index n//4 for n = 2 or 3; the point for n = 1. -/
def specQ1 (values : List ℚ) : ℚ :=
  let s := pySorted values
  let n := s.length
  if 4 ≤ n then (quantilesExclusive4 s).getD 0 0
  else if 2 ≤ n then s.getD (n / 4) 0
  else s.getD 0 0

/-- The claim's quartile rule for q3: quantiles for n at least 4; index
(3n)//4 for n = 2 or 3; the point for n = 1. -/
def specQ3 (values : List ℚ) : ℚ :=
  let s := pySorted values
  let n := s.length
  if 4 ≤ n then (quantilesExclusive4 s).getD 2 0
  else if 2 ≤ n then s.getD ((3 * n) / 4) 0
  else s.getD 0 0

theorem pySorted_length (values : List ℚ) : (pySorted values).length = values.length := by
  rw [pySorted]
  exact List.length_insertionSort _ _

/-- C5, counterexample: the claim says calculate_stats returns THE arithmetic
mean, but the code rounds it to two decimals: for [0, 0, 1] the mean is 1/3
while the returned mean field is 0.33. -/
theorem C5_counterexample :
    (calculate_stats [0, 0, 1]).map StatSummary.mean = some (33/100) ∧
    specMean [0, 0, 1] = 1/3 ∧
    (33/100 : ℚ) ≠ 1/3 := by
  refine ⟨?_, by norm_num [specMean], by norm_num⟩
  norm_num [calculate_stats, round2, roundHalfEven]

/-- C5 (amended): for every non-empty list, calculate_stats returns the
arithmetic mean rounded to two decimals, the population variance (sum of
squared deviations over count, not count minus one; exactly 0 when
count = 1, so the emitted stdDev is exactly 0 there), and the count; the
emitted stdDev is the rounded square root of the stored variance.  In
particular for [2,4,4,4,5,5,7,9]: mean 5.0, count 8, variance 4, and
stdDev = round(sqrt 4, 2) = 2.0 — the population standard deviation. -/
theorem C5_calculate_stats_population :
    (∀ values : List ℚ, values ≠ [] →
      calculate_stats values =
        some ⟨round2 (specMean values), specPopVariance values, values.length⟩) ∧
    calculate_stats [2, 4, 4, 4, 5, 5, 7, 9] = some ⟨5, 4, 8⟩ ∧
    Real.sqrt ((4 : ℚ) : ℝ) = 2 ∧ round2 2 = 2 := by
  refine ⟨?_, by norm_num [calculate_stats, round2, roundHalfEven], ?_,
    by norm_num [round2, roundHalfEven]⟩
  · intro values hne
    rw [calculate_stats]
    simp only [List.isEmpty_eq_true, hne, if_false]
    by_cases h : 1 < values.length
    · simp only [h, if_true]
      rfl
    · have h1 : values.length = 1 := by
        rcases values with _ | ⟨x, _ | ⟨y, rest⟩⟩
        · exact absurd rfl hne
        · rfl
        · simp at h
      simp only [h, if_false]
      rcases values with _ | ⟨x, rest⟩
      · exact absurd rfl hne
      · rcases rest with _ | ⟨y, rest2⟩
        · have hpv : specPopVariance [x] = 0 := by
            rw [specPopVariance, specMean]
            norm_num
          rw [hpv]
          rfl
        · simp at h1
  · rw [show ((4 : ℚ) : ℝ) = 2 ^ 2 by norm_num]
    rw [Real.sqrt_sq]
    norm_num

/-- C5, witness: the amended theorem applied to the spec's own sample. -/
theorem C5_witness :
    ([2, 4, 4, 4, 5, 5, 7, 9] : List ℚ) ≠ [] ∧
    calculate_stats [2, 4, 4, 4, 5, 5, 7, 9] =
      some ⟨round2 (specMean [2, 4, 4, 4, 5, 5, 7, 9]),
            specPopVariance [2, 4, 4, 4, 5, 5, 7, 9], 8⟩ :=
  ⟨by simp, C5_calculate_stats_population.1 _ (by simp)⟩

/-- C4, counterexample: the emitted quartiles are rounded to two decimals
(Python round, half to even), so for the two-point sample [1/8, 1/8] (0.125
is an exact float) the claimed q1 = sorted[2//4] = 0.125 while the code
returns 0.12. -/
theorem C4_counterexample :
    (calculate_violin_data [1/8, 1/8]).map (fun d => d.summary.q1) = some (12/100) ∧
    specQ1 [1/8, 1/8] = 1/8 ∧
    (12/100 : ℚ) ≠ 1/8 := by
  refine ⟨?_, ?_, by norm_num⟩
  · norm_num [calculate_violin_data, pySorted, List.insertionSort, List.orderedInsert,
      pyMedian, round2, roundHalfEven]
  · norm_num [specQ1, pySorted, List.insertionSort, List.orderedInsert]

/-- C4 (amended): for every non-empty list of scores the quartiles are
computed exactly as the claim's case analysis states — statistics.quantiles
(n=4, exclusive) on the sorted sample for n at least 4, sorted[n//4] and
sorted[(3n)//4] for n = 2 or 3, the single point for n = 1 — and then
rounded to two decimals in the emitted summary; and for the single-element
series [7] the whole summary is min = max = median = q1 = q3 = mean = 7 with
count 1. -/
theorem C4_violin_quartiles :
    (∀ values : List ℚ, values ≠ [] →
      ∃ d, calculate_violin_data values = some d ∧
        d.summary.q1 = round2 (specQ1 values) ∧
        d.summary.q3 = round2 (specQ3 values) ∧
        d.count = values.length) ∧
    calculate_violin_data [7] = some ⟨[7], ⟨7, 7, 7, 7, 7, 7⟩, 1⟩ := by
  refine ⟨?_, by norm_num [calculate_violin_data, pySorted, List.insertionSort,
    pyMedian, round2, roundHalfEven]⟩
  intro values hne
  rw [calculate_violin_data]
  simp only [List.isEmpty_eq_true, hne, if_false]
  refine ⟨_, rfl, ?_, ?_, rfl⟩
  · simp only [specQ1, pySorted_length]
    by_cases h4 : 4 ≤ values.length
    · simp only [h4, if_true]
    · by_cases h2 : 2 ≤ values.length
      · have h1 : 1 < values.length := h2
        simp only [h4, h2, h1, if_true, if_false]
      · have h1 : values.length = 1 := by
          cases values with
          | nil => exact absurd rfl hne
          | cons x rest => simp only [List.length_cons] at h2 ⊢; omega
        rw [h1]
        norm_num
  · simp only [specQ3, pySorted_length]
    by_cases h4 : 4 ≤ values.length
    · simp only [h4, if_true]
    · by_cases h2 : 2 ≤ values.length
      · have h1 : 1 < values.length := h2
        simp only [h4, h2, h1, if_true, if_false]
      · have h1 : values.length = 1 := by
          cases values with
          | nil => exact absurd rfl hne
          | cons x rest => simp only [List.length_cons] at h2 ⊢; omega
        rw [h1]
        norm_num

/-- C4, witness: the amended theorem applied to the singleton series [7]. -/
theorem C4_witness :
    ([7] : List ℚ) ≠ [] ∧
    (∃ d, calculate_violin_data [7] = some d ∧
      d.summary.q1 = round2 (specQ1 [7]) ∧
      d.summary.q3 = round2 (specQ3 [7]) ∧
      d.count = 1) :=
  ⟨by simp, C4_violin_quartiles.1 [7] (by simp)⟩

/-! ### Record loading: the legacy one-element-array unwrapping (C6) -/

/-- The post-parse decode step of load_all_sermons
(02__json_to_tsv_converter.py lines 678-690): a non-empty array whose first
element is an object is unwrapped to that element, other arrays are skipped,
then anything that is not a dict is skipped. -/
def decodeRecordConverter : JValue → Option JValue
  | .arr ((.obj fs) :: _) => some (.obj fs)
  | .arr _ => none
  | .obj fs => some (.obj fs)
  | _ => none

/-- The decode step of load_all_data in precompute_statistics.py lines
265-268: anything that is not a dict — one-element arrays included — is
skipped with a warning. -/
def decodeRecordStats : JValue → Option JValue
  | .obj fs => some (.obj fs)
  | _ => none

/-- The decode step of load_all_data in violin_data_precompute.py lines
342-345: identical to the statistics loader, non-dicts are skipped. -/
def decodeRecordViolin : JValue → Option JValue
  | .obj fs => some (.obj fs)
  | _ => none

/-- The decode step of 02b__check_complete_cases.py lines 195-199: any
non-empty array is replaced by its first element, then non-dicts are
skipped. -/
def decodeRecordChecker : JValue → Option JValue
  | .arr ((.obj fs) :: _) => some (.obj fs)
  | .arr _ => none
  | .obj fs => some (.obj fs)
  | _ => none

/-- C6, counterexample: the one-element-array legacy shape decodes to the
wrapped object in the TSV converter's loader but is skipped (not unwrapped)
by the statistics precomputer's loader, so the unwrapping is NOT uniform
across the components that load records. -/
theorem C6_counterexample :
    decodeRecordConverter (.arr [.obj [("a", .null)]]) = some (.obj [("a", .null)]) ∧
    decodeRecordStats (.arr [.obj [("a", .null)]]) = none ∧
    decodeRecordStats (.obj [("a", .null)]) = some (.obj [("a", .null)]) ∧
    decodeRecordConverter (.arr [.obj [("a", .null)]]) ≠
      decodeRecordStats (.arr [.obj [("a", .null)]]) := by
  refine ⟨rfl, rfl, rfl, ?_⟩
  simp [decodeRecordConverter, decodeRecordStats]

/-- C6 (amended): the TSV converter's loader and the completeness checker
decode a one-element array wrapping an object to the same record as the bare
object, but the statistics and violin loaders skip that legacy shape
entirely. -/
theorem C6_legacy_unwrap_not_uniform :
    ∀ fs : List (String × JValue),
      decodeRecordConverter (.arr [.obj fs]) = some (.obj fs) ∧
      decodeRecordConverter (.obj fs) = some (.obj fs) ∧
      decodeRecordChecker (.arr [.obj fs]) = some (.obj fs) ∧
      decodeRecordChecker (.obj fs) = some (.obj fs) ∧
      decodeRecordStats (.arr [.obj fs]) = none ∧
      decodeRecordViolin (.arr [.obj fs]) = none :=
  fun _ => ⟨rfl, rfl, rfl, rfl, rfl, rfl⟩

/-! ### Score extraction (MetricAggregator): extract_scores and add_score -/

/-- The empty dict, the default of the `.get(key, \x7b\x7d)` idiom. -/
def jEmptyObj : JValue := .obj []

/-- Python `v.get(k, d)`: dict lookup with a default; AttributeError (none)
on a non-dict. -/
def pyGetD (v : JValue) (k : String) (d : JValue) : Option JValue :=
  match v with
  | .obj fs => some ((lookupField fs k).getD d)
  | _ => none

/-- Python `v[k]` with a string key: dict indexing; KeyError on a missing
key and TypeError on a non-dict, both modelled as none. -/
def pyIndex (v : JValue) (k : String) : Option JValue :=
  match v with
  | .obj fs => lookupField fs k
  | _ => none

/-- Python `.items()`: the field list of a dict; AttributeError otherwise. -/
def pyItems (v : JValue) : Option (List (String × JValue)) :=
  match v with
  | .obj fs => some fs
  | _ => none

/-- Python dict assignment `d[k] = v`: overwrite in place when the key
exists, append otherwise. -/
def setKey (fs : List (String × JValue)) (k : String) (v : JValue) :
    List (String × JValue) :=
  if fs.any (fun kv => kv.1 == k) then
    fs.map (fun kv => if kv.1 == k then (kv.1, v) else kv)
  else fs ++ [(k, v)]

/-- add_score from precompute_statistics.py lines 58-62 (textually identical
in violin_data_precompute.py lines 80-84): record the value under
`analysis_type ++ "_" ++ category` iff `isinstance(value, (int, float))`
holds (Python bools are ints, valued 0/1) and the value lies in [0, 10];
everything else is dropped, not clamped. -/
def add_score (ty cat : String) (v : JValue) (scores : List (String × JValue)) :
    List (String × JValue) :=
  match jNumVal v with
  | some q => if 0 ≤ q ∧ q ≤ 10 then setKey scores (ty ++ "_" ++ cat) v else scores
  | none => scores

/-- Feed the gathered (category, value) pairs through add_score in source
order, starting from the empty scores dict. -/
def foldAddScore (ty : String) (gates : List (String × JValue)) :
    List (String × JValue) :=
  gates.foldl (fun s kv => add_score ty kv.1 kv.2 s) []

/-- The recurring idiom `if c.get(k1, \x7b\x7d).get(k2): use c[k1][k2]`:
some (some v) when the truthiness gate passes, some none when it does not,
none when an intermediate access raises. -/
def gated2 (c : JValue) (k1 k2 : String) : Option (Option JValue) := do
  let sub ← pyGetD c k1 jEmptyObj
  let sc ← pyGetD sub k2 .null
  if pyTruthy sc then do
    let s1 ← pyIndex c k1
    let v ← pyIndex s1 k2
    pure (some v)
  else pure none

/-- The idiom `if c.get(k): use c[k]`. -/
def gated1 (c : JValue) (k : String) : Option (Option JValue) := do
  let sc ← pyGetD c k .null
  if pyTruthy sc then do
    let v ← pyIndex c k
    pure (some v)
  else pure none

/-- A passed gate contributes its (category, value) pair; a failed gate
contributes nothing. -/
def optGate (cat : String) (g : Option JValue) : List (String × JValue) :=
  match g with
  | some v => [(cat, v)]
  | none => []

/-- Sequence a list of gate computations (category, computation) in source
order: fail if any gate computation raises, otherwise concatenate the passed
gates.  Gathering the gate values and then folding them through add_score is
observationally identical to the source's interleaved adds, since add_score
only touches the local scores dict. -/
def runGates (gs : List (String × Option (Option JValue))) :
    Option (List (String × JValue)) :=
  (gs.mapM (fun (p : String × Option (Option JValue)) => p.2.map (optGate p.1))).map
    List.flatten

/-- The aristoteles branch of extract_scores (precompute_statistics.py lines
64-75; identical in violin_data_precompute.py lines 86-97): logos, pathos,
ethos, overall, and — in detailed mode — the balance score. -/
def aristotelesScoreGates (data : JValue) (detailed : Bool) :
    Option (List (String × JValue)) := do
  let modes ← pyGetD data "aristotelian_modes_analysis" jEmptyObj
  let main ← runGates
    [("Logos", gated2 modes "logos" "score"),
     ("Pathos", gated2 modes "pathos" "score"),
     ("Ethos", gated2 modes "ethos" "score"),
     ("Overall", gated2 data "overall_picture" "overall_rhetorical_score")]
  let bal ← if detailed then
      runGates [("Balance Score", gated2 data "rhetorical_balance_analysis" "balance_score")]
    else pure []
  pure (main ++ bal)

/-- Python `parts[0].isdigit()`. -/
def pyIsDigit (s : List Char) : Bool := !s.isEmpty && s.all Char.isDigit

/-- Python `name.split(' ', 1)`: the part before the first space, and the
rest when a space exists. -/
def splitOnceSpaceAux : List Char → List Char × Option (List Char)
  | [] => ([], none)
  | c :: rest =>
    if c = ' ' then ([], some rest)
    else
      let r := splitOnceSpaceAux rest
      (c :: r.1, r.2)

/-- The metric-name normalization of the dekker branch of extract_scores
(precompute_statistics.py lines 81-87):
"criterion_1_specific_bible_passage" becomes "#1 specific bible passage". -/
def dekkerMetricName (key : String) : String :=
  let name := pyReplaceStr (pyReplaceStr key "criterion_" "") "_" " "
  let p := splitOnceSpaceAux name.data
  if pyIsDigit p.1 then
    match p.2 with
    | some rest2 => "#" ++ String.mk p.1 ++ " " ++ String.mk rest2
    | none => "#" ++ String.mk p.1
  else name

/-- The violin variant first collapses the "concrete_concrete" typo
(violin_data_precompute.py lines 103-111). -/
def dekkerMetricNameViolin (key : String) : String :=
  dekkerMetricName (pyReplaceStr key "concrete_concrete" "concrete")

/-- The dekker criterion loop of extract_scores: every dict-valued criterion
whose score_1_to_10 is truthy contributes (normalized name, score). -/
def dekkerScoreGatesOf (nameFn : String → String) (items : List (String × JValue)) :
    List (String × JValue) :=
  items.foldl (fun acc kv =>
    match kv.2 with
    | .obj fs =>
        let sc := (lookupField fs "score_1_to_10").getD .null
        if pyTruthy sc then acc ++ [(nameFn kv.1, sc)] else acc
    | _ => acc) []

/-- The dekker branch of extract_scores in precompute_statistics.py lines
77-87. -/
def dekkerScoreGates (data : JValue) : Option (List (String × JValue)) := do
  let criteria ← pyGetD data "analysis_per_criterion" jEmptyObj
  let items ← pyItems criteria
  pure (dekkerScoreGatesOf dekkerMetricName items)

/-- The dekker branch of extract_scores in violin_data_precompute.py lines
99-112 (with the typo normalization). -/
def dekkerScoreGatesViolin (data : JValue) : Option (List (String × JValue)) := do
  let criteria ← pyGetD data "analysis_per_criterion" jEmptyObj
  let items ← pyItems criteria
  pure (dekkerScoreGatesOf dekkerMetricNameViolin items)

/-- The detailed-mode middle of the kolb branch: learning styles (with the
alternative key names) then integrality metrics. -/
def kolbDetailedGates (data : JValue) : Option (List (String × JValue)) := do
  let styles ← pyGetD data "learning_styles_analysis" jEmptyObj
  let sGates ← runGates
    [("Dreamer", gated2 styles "dreamer" "score"),
     ("Thinker", gated2 styles "thinker" "score"),
     ("Doer", gated2 styles "doer" "score"),
     ("Decider", gated2 styles "decider" "score"),
     ("Assimilating", gated2 styles "assimilating_style" "score"),
     ("Converging", gated2 styles "converging_style" "score"),
     ("Accommodating", gated2 styles "accommodating_style" "score"),
     ("Diverging", gated2 styles "diverging_style" "score")]
  let integ ← pyGetD data "integrality_and_cycle" jEmptyObj
  let iGates ← runGates
    [("Cycle Completeness", gated2 integ "cycle_completeness" "score"),
     ("Balance Between Phases", gated2 integ "balance_between_phases" "score"),
     ("Holistic Learning", gated2 integ "holistic_learning" "score")]
  pure (sGates ++ iGates)

/-- The kolb branch of extract_scores (precompute_statistics.py lines
89-132; identical in violin_data_precompute.py lines 114-157): the four
phases, the detailed-mode extras, then the overall score. -/
def kolbScoreGates (data : JValue) (detailed : Bool) :
    Option (List (String × JValue)) := do
  let phases ← pyGetD data "kolb_phases_analysis" jEmptyObj
  let main ← runGates
    [("Concrete Experience", gated2 phases "phase_1_concrete_experience" "score"),
     ("Reflective Observation", gated2 phases "phase_2_reflective_observation" "score"),
     ("Abstract Conceptualization", gated2 phases "phase_3_abstract_conceptualization" "score"),
     ("Active Experimentation", gated2 phases "phase_4_active_experimentation" "score")]
  let detGates ← if detailed then kolbDetailedGates data else pure []
  let overall ← runGates [("Overall", gated2 data "overall_picture" "overall_kolb_score")]
  pure (main ++ detGates ++ overall)

/-- The schulz_von_thun branch of extract_scores (precompute_statistics.py
lines 134-145; identical in violin_data_precompute.py lines 159-170). -/
def schulzScoreGates (data : JValue) : Option (List (String × JValue)) := do
  let analysis ← pyGetD data "schulz_von_thun_analysis" jEmptyObj
  runGates
    [("Factual Content", gated2 analysis "factual_content_blue" "score"),
     ("Self-Revelation", gated2 analysis "self_revelation_green" "score"),
     ("Relational Aspect", gated2 analysis "relational_aspect_yellow" "score"),
     ("Appeal Aspect", gated2 analysis "appeal_aspect_red" "score"),
     ("Overall", gated2 data "overall_picture" "overall_communication_score")]

/-- Match `criterion_<tag><digits>_` at the head of the list, returning the
remainder on success (the regex `criterion_a\d+_` of the esthetiek branch). -/
def matchCriterionTag (tag : Char) (l : List Char) : Option (List Char) :=
  if isPrefixL ("criterion_".data ++ [tag]) l then
    let rest := l.drop 11
    let digits := rest.takeWhile Char.isDigit
    if digits.isEmpty then none
    else
      match rest.drop digits.length with
      | '_' :: tail => some tail
      | _ => none
  else none

/-- `re.sub(r'criterion_<tag>\d+_', '', s)`: remove every occurrence,
scanning left to right (each step consumes at least one character, so the
string's length bounds the fuel). -/
def stripCritAux (tag : Char) : ℕ → List Char → List Char
  | 0, l => l
  | _ + 1, [] => []
  | fuel + 1, c :: rest =>
      match matchCriterionTag tag (c :: rest) with
      | some tail => stripCritAux tag fuel tail
      | none => c :: stripCritAux tag fuel rest

/-- Python str.title(): the first character of each alphabetic run is
uppercased, the rest lowercased (ASCII keys in this corpus). -/
def pyTitleAux : Bool → List Char → List Char
  | _, [] => []
  | prevAlpha, c :: rest =>
      (if c.isAlpha then (if prevAlpha then c.toLower else c.toUpper) else c) ::
        pyTitleAux c.isAlpha rest

/-- Python s.title() on a string. -/
def pyTitle (s : String) : String := String.mk (pyTitleAux false s.data)

/-- The esthetiek criterion-name normalization of extract_scores
(precompute_statistics.py lines 153-156): strip `criterion_<tag><n>_`,
underscores to spaces, then title case. -/
def esthetiekMetricName (tag : Char) (key : String) : String :=
  pyTitle (pyReplaceStr (String.mk (stripCritAux tag key.data.length key.data)) "_" " ")

/-- The esthetiek detailed-mode domain loop: every dict item whose score is
not None (zero included!) contributes (normalized name, score). -/
def esthetiekDomGates (tag : Char) (items : List (String × JValue)) :
    List (String × JValue) :=
  items.foldl (fun acc kv =>
    match kv.2 with
    | .obj fs =>
        match (lookupField fs "score").getD .null with
        | .null => acc
        | sc => acc ++ [(esthetiekMetricName tag kv.1, sc)]
    | _ => acc) []

/-- The detailed mode of the esthetiek branch: both criterion loops, then
the anti-kitsch and space-for-grace gates. -/
def esthetiekDetailedGates (data : JValue) : Option (List (String × JValue)) := do
  let domA ← pyGetD data "domain_a_poetics_of_language" jEmptyObj
  let itemsA ← pyItems domA
  let domB ← pyGetD data "domain_b_dramaturgy_of_structure" jEmptyObj
  let itemsB ← pyItems domB
  let tail ← runGates
    [("Anti-Kitsch", gated2 data "kitsch_diagnosis" "anti_kitsch_score"),
     ("Space for Grace", gated2 data "space_for_grace_analysis" "space_score")]
  pure (esthetiekDomGates 'a' itemsA ++ esthetiekDomGates 'b' itemsB ++ tail)

/-- The esthetiek branch of extract_scores (precompute_statistics.py lines
147-181; identical in violin_data_precompute.py lines 172-206). -/
def esthetiekScoreGates (data : JValue) (detailed : Bool) :
    Option (List (String × JValue)) := do
  let mainGates ←
    if detailed then esthetiekDetailedGates data
    else
      (runGates
        [("Poetics", gated2 data "domain_a_poetics_of_language" "average_score_language"),
         ("Dramaturgy", gated2 data "domain_b_dramaturgy_of_structure" "average_score_structure")])
  let overall ← runGates [("Overall", gated2 data "overall_aesthetics" "overall_aesthetic_score")]
  pure (mainGates ++ overall)

/-- The ego-positions part of the transactional branch
(violin_data_precompute.py lines 209-224). -/
def transactionalEgoGates (data : JValue) : Option (List (String × JValue)) := do
  let ego ← pyGetD data "ego_positions_scan" jEmptyObj
  let parent ← pyGetD ego "parent" jEmptyObj
  let child ← pyGetD ego "child" jEmptyObj
  let adult ← pyGetD ego "adult" jEmptyObj
  runGates
    [("Freedom from Critical Parent", gated2 parent "freedom_from_critical_parent_CP" "score"),
     ("Nurturing Parent", gated2 parent "healthy_care_NP" "score"),
     ("Adult Presence", gated1 adult "score"),
     ("Freedom from Adapted Child", gated2 child "freedom_from_adapted_child_AC" "score"),
     ("Free Child", gated2 child "free_child_FC" "score")]

/-- The transactional branch of extract_scores, present only in
violin_data_precompute.py lines 208-234. -/
def transactionalScoreGates (data : JValue) : Option (List (String × JValue)) := do
  let main ← transactionalEgoGates data
  let trans ← pyGetD data "transaction_analysis" jEmptyObj
  let g6 ← runGates [("Communicative Purity", gated1 trans "communicative_purity_score")]
  let conclusion ← pyGetD data "conclusion_and_recommendation" jEmptyObj
  let g7 ← runGates [("Overall", gated1 conclusion "psychological_health_score")]
  pure (main ++ g6 ++ g7)

/-- The per-type gate dispatch of extract_scores in
precompute_statistics.py (unknown types contribute nothing). -/
def scoreGatesStats (data : JValue) (ty : String) (detailed : Bool) :
    Option (List (String × JValue)) :=
  if ty = "aristoteles" then aristotelesScoreGates data detailed
  else if ty = "dekker" then dekkerScoreGates data
  else if ty = "kolb" then kolbScoreGates data detailed
  else if ty = "schulz_von_thun" then schulzScoreGates data
  else if ty = "esthetiek" then esthetiekScoreGates data detailed
  else some []

/-- extract_scores from precompute_statistics.py lines 47-183: the empty
dict for non-dict payloads; otherwise the gated scores of the branch for the
analysis type, fed through add_score in source order (gathering the gate
values before folding is observationally identical, since add_score only
touches the local scores dict). -/
def extract_scores_stats (data : JValue) (ty : String) (detailed : Bool) :
    Option (List (String × JValue)) :=
  if !data.isObjB then some []
  else (scoreGatesStats data ty detailed).map (foldAddScore ty)

/-- The per-type gate dispatch of extract_scores in
violin_data_precompute.py: the same branches plus transactional, and the
dekker typo normalization. -/
def scoreGatesViolin (data : JValue) (ty : String) (detailed : Bool) :
    Option (List (String × JValue)) :=
  if ty = "aristoteles" then aristotelesScoreGates data detailed
  else if ty = "dekker" then dekkerScoreGatesViolin data
  else if ty = "kolb" then kolbScoreGates data detailed
  else if ty = "schulz_von_thun" then schulzScoreGates data
  else if ty = "esthetiek" then esthetiekScoreGates data detailed
  else if ty = "transactional" then transactionalScoreGates data
  else some []

/-- extract_scores from violin_data_precompute.py lines 69-236. -/
def extract_scores_violin (data : JValue) (ty : String) (detailed : Bool) :
    Option (List (String × JValue)) :=
  if !data.isObjB then some []
  else (scoreGatesViolin data ty detailed).map (foldAddScore ty)

/-- The C8 range invariant for one recorded value: numeric (Python bools
count as 0/1) and within the closed range [0, 10]. -/
def scoreInRange (v : JValue) : Prop := ∃ q, jNumVal v = some q ∧ 0 ≤ q ∧ q ≤ 10

theorem setKey_val_forall {P : JValue → Prop} {fs : List (String × JValue)}
    {k : String} {v : JValue} (hs : ∀ kv ∈ fs, P kv.2) (hv : P v) :
    ∀ kv ∈ setKey fs k v, P kv.2 := by
  intro kv hmem
  rw [setKey] at hmem
  split at hmem
  · rcases List.mem_map.mp hmem with ⟨kv0, h0, heq⟩
    by_cases hk : (kv0.1 == k) = true
    · rw [if_pos hk] at heq
      rw [← heq]
      exact hv
    · rw [if_neg hk] at heq
      rw [← heq]
      exact hs kv0 h0
  · rcases List.mem_append.mp hmem with h | h
    · exact hs kv h
    · rw [List.mem_singleton] at h
      rw [h]
      exact hv

theorem add_score_val_forall (ty cat : String) (v : JValue)
    (s : List (String × JValue)) (hs : ∀ kv ∈ s, scoreInRange kv.2) :
    ∀ kv ∈ add_score ty cat v s, scoreInRange kv.2 := by
  intro kv hmem
  rw [add_score] at hmem
  cases hv : jNumVal v with
  | none => simp only [hv] at hmem; exact hs kv hmem
  | some q =>
    simp only [hv] at hmem
    by_cases hq : 0 ≤ q ∧ q ≤ 10
    · rw [if_pos hq] at hmem
      exact setKey_val_forall hs ⟨q, hv, hq.1, hq.2⟩ kv hmem
    · rw [if_neg hq] at hmem
      exact hs kv hmem

theorem foldAddScore_inv (ty : String) (gates : List (String × JValue)) :
    ∀ kv ∈ foldAddScore ty gates, scoreInRange kv.2 := by
  rw [foldAddScore]
  have key : ∀ (gs : List (String × JValue)) (init : List (String × JValue)),
      (∀ kv ∈ init, scoreInRange kv.2) →
      ∀ kv ∈ gs.foldl (fun s kv => add_score ty kv.1 kv.2 s) init, scoreInRange kv.2 := by
    intro gs
    induction gs with
    | nil => intro init h; simpa using h
    | cons g rest ih =>
      intro init h
      simp only [List.foldl_cons]
      exact ih _ (add_score_val_forall _ _ _ _ h)
  exact key gates [] (by simp)

theorem mapFold_bounded {o : Option (List (String × JValue))} {ty : String}
    {scores : List (String × JValue)} (h : o.map (foldAddScore ty) = some scores) :
    ∀ kv ∈ scores, scoreInRange kv.2 := by
  rcases Option.map_eq_some'.mp h with ⟨g, _, hfg⟩
  rw [← hfg]
  exact foldAddScore_inv ty g

/-- C8 (amended): every value recorded by either script's extract_scores is
numeric (Python bools counting as 0/1) and lies in the closed range [0, 10]
— out-of-range and non-numeric values are dropped at extraction time, not
clamped; zero scores are excluded by the truthiness gates at most call sites,
but NOT in the esthetiek detailed criterion loop (see the counterexample). -/
theorem C8_extracted_scores_bounded :
    (∀ data ty detailed scores,
      extract_scores_stats data ty detailed = some scores →
      ∀ kv ∈ scores, scoreInRange kv.2) ∧
    (∀ data ty detailed scores,
      extract_scores_violin data ty detailed = some scores →
      ∀ kv ∈ scores, scoreInRange kv.2) := by
  constructor
  · intro data ty detailed scores hex
    rw [extract_scores_stats] at hex
    split at hex
    · cases hex
      intro kv hkv
      simp at hkv
    · exact mapFold_bounded hex
  · intro data ty detailed scores hex
    rw [extract_scores_violin] at hex
    split at hex
    · cases hex
      intro kv hkv
      simp at hkv
    · exact mapFold_bounded hex

/-- A minimal aristoteles payload: a single logos score of 5. -/
def aristotelesSamplePayload : JValue :=
  .obj [("aristotelian_modes_analysis", .obj [("logos", .obj [("score", .num (.int 5))])])]

/-- A payload whose esthetiek criterion carries a zero score. -/
def zeroScorePayload : JValue :=
  .obj [("domain_a_poetics_of_language",
         .obj [("criterion_a1_imagery", .obj [("score", .num (.int 0))])]),
        ("domain_b_dramaturgy_of_structure", .obj [])]

/-- C8, counterexample: the claim says scores equal to 0 are excluded at
extraction time, but the esthetiek detailed criterion loop gates on
`value.get('score') is not None`, so a zero criterion score IS appended. -/
theorem C8_counterexample :
    extract_scores_stats zeroScorePayload "esthetiek" true =
      some [("esthetiek_Imagery", .num (.int 0))] ∧
    jNumVal (.num (.int 0)) = some 0 := by
  constructor
  · rfl
  · simp [jNumVal]

/-- C8, witness: the range theorem applied to an extraction that records a
logos score of 5. -/
theorem C8_witness :
    extract_scores_stats aristotelesSamplePayload "aristoteles" false =
      some [("aristoteles_Logos", .num (.int 5))] ∧
    ∀ kv ∈ [(("aristoteles_Logos" : String), JValue.num (.int 5))], scoreInRange kv.2 := by
  have hex : extract_scores_stats aristotelesSamplePayload "aristoteles" false =
      some [("aristoteles_Logos", .num (.int 5))] := by rfl
  exact ⟨hex, C8_extracted_scores_bounded.1 _ _ _ _ hex⟩

/-! ### Shape conditions: the payloads on which the extractors are total -/

/-- Every dict-position access along the path hits an object when present:
walking the keys through objects, an absent key is fine, and the final value
— like every intermediate one — must be an object when it exists. -/
def pathAbsentOrObj : JValue → List String → Bool
  | v, [] => v.isObjB
  | v, k :: rest =>
    match v with
    | .obj fs =>
        match lookupField fs k with
        | none => true
        | some w => pathAbsentOrObj w rest
    | _ => true

/-- The total value of `v.get(k, d)` on a dict. -/
def objGetD (v : JValue) (k : String) (d : JValue) : JValue :=
  match v with
  | .obj fs => (lookupField fs k).getD d
  | _ => d

theorem pyGetD_of_obj {v : JValue} (k : String) (d : JValue) (h : v.isObjB = true) :
    pyGetD v k d = some (objGetD v k d) := by
  cases v
  case obj fs => rfl
  all_goals simp [JValue.isObjB] at h

theorem pathAbsentOrObj_nil (v : JValue) : pathAbsentOrObj v [] = v.isObjB := rfl

theorem pathAbsentOrObj_emptyObj (p : List String) :
    pathAbsentOrObj jEmptyObj p = true := by
  cases p with
  | nil => rfl
  | cons k rest => rfl

theorem pathStep {v : JValue} {k : String} {rest : List String}
    (hobj : v.isObjB = true) (h : pathAbsentOrObj v (k :: rest) = true) :
    pathAbsentOrObj (objGetD v k jEmptyObj) rest = true := by
  cases v
  case obj fs =>
    rw [objGetD]
    cases hl : lookupField fs k with
    | none => exact pathAbsentOrObj_emptyObj rest
    | some w =>
      simp only [pathAbsentOrObj, hl] at h
      simpa using h
  all_goals simp [JValue.isObjB] at hobj

/-- The total counterpart of the `gated2` idiom on well-shaped input: the
gate passes iff the looked-up score is truthy, and then yields that score. -/
def gated2Total (c : JValue) (k1 k2 : String) : Option JValue :=
  let sc := objGetD (objGetD c k1 jEmptyObj) k2 .null
  if pyTruthy sc then some sc else none

theorem optBind_some {α β : Type} (a : α) (f : α → Option β) :
    (do let x ← some a; f x : Option β) = f a := rfl

theorem lookupField_getD_not_null {fs : List (String × JValue)} {k : String}
    (h : ¬ (lookupField fs k).getD .null = .null) :
    lookupField fs k = some ((lookupField fs k).getD .null) := by
  cases hl : lookupField fs k with
  | none => rw [hl] at h; exact absurd rfl h
  | some w => rfl

theorem gated2_eq_total {c : JValue} {k1 k2 : String}
    (hc : c.isObjB = true) (h1 : pathAbsentOrObj c [k1] = true) :
    gated2 c k1 k2 = some (gated2Total c k1 k2) := by
  have hsub : (objGetD c k1 jEmptyObj).isObjB = true := by
    have := pathStep hc h1
    rwa [pathAbsentOrObj_nil] at this
  obtain ⟨fs, rfl⟩ : ∃ fs, c = .obj fs := by
    cases c
    case obj fs => exact ⟨fs, rfl⟩
    all_goals simp [JValue.isObjB] at hc
  rw [gated2, gated2Total]
  rw [pyGetD_of_obj _ _ hc, optBind_some, pyGetD_of_obj _ _ hsub, optBind_some]
  by_cases ht : pyTruthy (objGetD (objGetD (JValue.obj fs) k1 jEmptyObj) k2 .null) = true
  · rw [if_pos ht, if_pos ht]
    have hscnn : ¬ objGetD (objGetD (JValue.obj fs) k1 jEmptyObj) k2 .null = .null := by
      intro hnull
      rw [hnull] at ht
      simp [pyTruthy] at ht
    obtain ⟨gs, hw⟩ : ∃ gs, objGetD (JValue.obj fs) k1 jEmptyObj = .obj gs := by
      cases hsv : objGetD (JValue.obj fs) k1 jEmptyObj
      case obj gs => exact ⟨gs, rfl⟩
      all_goals rw [hsv] at hsub <;> simp [JValue.isObjB] at hsub
    have hlk1 : lookupField fs k1 = some (JValue.obj gs) := by
      rw [objGetD] at hw
      cases hl : lookupField fs k1 with
      | none =>
          exfalso
          apply hscnn
          simp [objGetD, hl, jEmptyObj, lookupField]
      | some w => rw [hl] at hw; simpa using hw
    rw [hw] at hscnn ⊢
    have hsc2 : lookupField gs k2 = some ((lookupField gs k2).getD .null) := by
      apply lookupField_getD_not_null
      simpa [objGetD] using hscnn
    show (do
        let s1 ← pyIndex (JValue.obj fs) k1
        let v ← pyIndex s1 k2
        pure (some v) : Option (Option JValue)) = _
    rw [show pyIndex (JValue.obj fs) k1 = some (JValue.obj gs) from hlk1, optBind_some]
    rw [show pyIndex (JValue.obj gs) k2 = some ((lookupField gs k2).getD .null) from hsc2,
      optBind_some]
    simp [objGetD]
  · rw [if_neg ht, if_neg ht]
    rfl

theorem runGates_total {gs : List (String × Option (Option JValue))}
    (h : ∀ p ∈ gs, (p.2).isSome = true) : (runGates gs).isSome = true := by
  rw [runGates]
  have key : (gs.mapM
      (fun (p : String × Option (Option JValue)) => p.2.map (optGate p.1))).isSome = true := by
    induction gs with
    | nil => rfl
    | cons p rest ih =>
      have hp : (p.2).isSome = true := h p (List.mem_cons_self _ _)
      obtain ⟨g, hg⟩ := Option.isSome_iff_exists.mp hp
      rw [List.mapM_cons]
      have hrest := ih (fun q hq => h q (List.mem_cons_of_mem _ hq))
      obtain ⟨l, hl⟩ := Option.isSome_iff_exists.mp hrest
      rw [hg, hl]
      rfl
  obtain ⟨l, hl⟩ := Option.isSome_iff_exists.mp key
  rw [hl]
  rfl

/-- The total counterpart of the `gated1` idiom on a dict. -/
def gated1Total (c : JValue) (k : String) : Option JValue :=
  let sc := objGetD c k .null
  if pyTruthy sc then some sc else none

theorem gated1_eq_total {c : JValue} {k : String} (hc : c.isObjB = true) :
    gated1 c k = some (gated1Total c k) := by
  obtain ⟨fs, rfl⟩ : ∃ fs, c = .obj fs := by
    cases c
    case obj fs => exact ⟨fs, rfl⟩
    all_goals simp [JValue.isObjB] at hc
  rw [gated1, gated1Total, pyGetD_of_obj _ _ hc, optBind_some]
  by_cases ht : pyTruthy (objGetD (JValue.obj fs) k .null) = true
  · rw [if_pos ht, if_pos ht]
    have hscnn : ¬ objGetD (JValue.obj fs) k .null = .null := by
      intro hnull
      rw [hnull] at ht
      simp [pyTruthy] at ht
    have hsc : lookupField fs k = some ((lookupField fs k).getD .null) :=
      lookupField_getD_not_null (by simpa [objGetD] using hscnn)
    show (do
        let v ← pyIndex (JValue.obj fs) k
        pure (some v) : Option (Option JValue)) = _
    rw [show pyIndex (JValue.obj fs) k = some ((lookupField fs k).getD .null) from hsc,
      optBind_some]
    simp [objGetD]
  · rw [if_neg ht, if_neg ht]
    rfl

theorem aristotelesScoreGates_total {data : JValue} (detailed : Bool)
    (hd : data.isObjB = true)
    (h1 : pathAbsentOrObj data ["aristotelian_modes_analysis"] = true)
    (h2 : pathAbsentOrObj data ["aristotelian_modes_analysis", "logos"] = true)
    (h3 : pathAbsentOrObj data ["aristotelian_modes_analysis", "pathos"] = true)
    (h4 : pathAbsentOrObj data ["aristotelian_modes_analysis", "ethos"] = true)
    (h5 : pathAbsentOrObj data ["overall_picture"] = true)
    (h6 : pathAbsentOrObj data ["rhetorical_balance_analysis"] = true) :
    (aristotelesScoreGates data detailed).isSome = true := by
  have hmodes : (objGetD data "aristotelian_modes_analysis" jEmptyObj).isObjB = true := by
    have := pathStep hd h1
    rwa [pathAbsentOrObj_nil] at this
  rw [aristotelesScoreGates, pyGetD_of_obj _ _ hd, optBind_some]
  have hrg : (runGates
      [("Logos", gated2 (objGetD data "aristotelian_modes_analysis" jEmptyObj) "logos" "score"),
       ("Pathos", gated2 (objGetD data "aristotelian_modes_analysis" jEmptyObj) "pathos" "score"),
       ("Ethos", gated2 (objGetD data "aristotelian_modes_analysis" jEmptyObj) "ethos" "score"),
       ("Overall", gated2 data "overall_picture" "overall_rhetorical_score")]).isSome = true := by
    apply runGates_total
    intro p hp
    fin_cases hp
    · rw [gated2_eq_total hmodes (pathStep hd h2)]; rfl
    · rw [gated2_eq_total hmodes (pathStep hd h3)]; rfl
    · rw [gated2_eq_total hmodes (pathStep hd h4)]; rfl
    · rw [gated2_eq_total hd h5]; rfl
  obtain ⟨main, hmain⟩ := Option.isSome_iff_exists.mp hrg
  cases detailed
  · simp only [hmain, optBind_some, Bool.false_eq_true, if_false, Option.pure_def,
      Option.some_bind, Option.isSome_some]
  · have hbal : (runGates
        [("Balance Score", gated2 data "rhetorical_balance_analysis" "balance_score")]).isSome = true := by
      apply runGates_total
      intro p hp
      fin_cases hp
      rw [gated2_eq_total hd h6]; rfl
    obtain ⟨b, hb⟩ := Option.isSome_iff_exists.mp hbal
    simp only [hmain, hb, optBind_some, if_true, Option.pure_def,
      Option.some_bind, Option.isSome_some]

theorem dekkerScoreGates_total {data : JValue}
    (hd : data.isObjB = true)
    (h1 : pathAbsentOrObj data ["analysis_per_criterion"] = true) :
    (dekkerScoreGates data).isSome = true := by
  have hcrit : (objGetD data "analysis_per_criterion" jEmptyObj).isObjB = true := by
    have := pathStep hd h1
    rwa [pathAbsentOrObj_nil] at this
  rw [dekkerScoreGates, pyGetD_of_obj _ _ hd, optBind_some]
  obtain ⟨gs, hw⟩ : ∃ gs, objGetD data "analysis_per_criterion" jEmptyObj = .obj gs := by
    cases hsv : objGetD data "analysis_per_criterion" jEmptyObj
    case obj gs => exact ⟨gs, rfl⟩
    all_goals rw [hsv] at hcrit <;> simp [JValue.isObjB] at hcrit
  rw [hw]
  rfl

theorem dekkerScoreGatesViolin_total {data : JValue}
    (hd : data.isObjB = true)
    (h1 : pathAbsentOrObj data ["analysis_per_criterion"] = true) :
    (dekkerScoreGatesViolin data).isSome = true := by
  have hcrit : (objGetD data "analysis_per_criterion" jEmptyObj).isObjB = true := by
    have := pathStep hd h1
    rwa [pathAbsentOrObj_nil] at this
  rw [dekkerScoreGatesViolin, pyGetD_of_obj _ _ hd, optBind_some]
  obtain ⟨gs, hw⟩ : ∃ gs, objGetD data "analysis_per_criterion" jEmptyObj = .obj gs := by
    cases hsv : objGetD data "analysis_per_criterion" jEmptyObj
    case obj gs => exact ⟨gs, rfl⟩
    all_goals rw [hsv] at hcrit <;> simp [JValue.isObjB] at hcrit
  rw [hw]
  rfl

theorem kolbDetailedGates_total {data : JValue}
    (hd : data.isObjB = true)
    (hs0 : pathAbsentOrObj data ["learning_styles_analysis"] = true)
    (hs1 : pathAbsentOrObj data ["learning_styles_analysis", "dreamer"] = true)
    (hs2 : pathAbsentOrObj data ["learning_styles_analysis", "thinker"] = true)
    (hs3 : pathAbsentOrObj data ["learning_styles_analysis", "doer"] = true)
    (hs4 : pathAbsentOrObj data ["learning_styles_analysis", "decider"] = true)
    (hs5 : pathAbsentOrObj data ["learning_styles_analysis", "assimilating_style"] = true)
    (hs6 : pathAbsentOrObj data ["learning_styles_analysis", "converging_style"] = true)
    (hs7 : pathAbsentOrObj data ["learning_styles_analysis", "accommodating_style"] = true)
    (hs8 : pathAbsentOrObj data ["learning_styles_analysis", "diverging_style"] = true)
    (hi0 : pathAbsentOrObj data ["integrality_and_cycle"] = true)
    (hi1 : pathAbsentOrObj data ["integrality_and_cycle", "cycle_completeness"] = true)
    (hi2 : pathAbsentOrObj data ["integrality_and_cycle", "balance_between_phases"] = true)
    (hi3 : pathAbsentOrObj data ["integrality_and_cycle", "holistic_learning"] = true) :
    (kolbDetailedGates data).isSome = true := by
  have hstyles : (objGetD data "learning_styles_analysis" jEmptyObj).isObjB = true := by
    have := pathStep hd hs0
    rwa [pathAbsentOrObj_nil] at this
  have hinteg : (objGetD data "integrality_and_cycle" jEmptyObj).isObjB = true := by
    have := pathStep hd hi0
    rwa [pathAbsentOrObj_nil] at this
  rw [kolbDetailedGates, pyGetD_of_obj _ _ hd, optBind_some]
  have hrg1 : (runGates
      [("Dreamer", gated2 (objGetD data "learning_styles_analysis" jEmptyObj) "dreamer" "score"),
       ("Thinker", gated2 (objGetD data "learning_styles_analysis" jEmptyObj) "thinker" "score"),
       ("Doer", gated2 (objGetD data "learning_styles_analysis" jEmptyObj) "doer" "score"),
       ("Decider", gated2 (objGetD data "learning_styles_analysis" jEmptyObj) "decider" "score"),
       ("Assimilating", gated2 (objGetD data "learning_styles_analysis" jEmptyObj) "assimilating_style" "score"),
       ("Converging", gated2 (objGetD data "learning_styles_analysis" jEmptyObj) "converging_style" "score"),
       ("Accommodating", gated2 (objGetD data "learning_styles_analysis" jEmptyObj) "accommodating_style" "score"),
       ("Diverging", gated2 (objGetD data "learning_styles_analysis" jEmptyObj) "diverging_style" "score")]).isSome = true := by
    apply runGates_total
    intro p hp
    fin_cases hp
    · rw [gated2_eq_total hstyles (pathStep hd hs1)]; rfl
    · rw [gated2_eq_total hstyles (pathStep hd hs2)]; rfl
    · rw [gated2_eq_total hstyles (pathStep hd hs3)]; rfl
    · rw [gated2_eq_total hstyles (pathStep hd hs4)]; rfl
    · rw [gated2_eq_total hstyles (pathStep hd hs5)]; rfl
    · rw [gated2_eq_total hstyles (pathStep hd hs6)]; rfl
    · rw [gated2_eq_total hstyles (pathStep hd hs7)]; rfl
    · rw [gated2_eq_total hstyles (pathStep hd hs8)]; rfl
  obtain ⟨sg, hsg⟩ := Option.isSome_iff_exists.mp hrg1
  rw [hsg, optBind_some, pyGetD_of_obj _ _ hd, optBind_some]
  have hrg2 : (runGates
      [("Cycle Completeness", gated2 (objGetD data "integrality_and_cycle" jEmptyObj) "cycle_completeness" "score"),
       ("Balance Between Phases", gated2 (objGetD data "integrality_and_cycle" jEmptyObj) "balance_between_phases" "score"),
       ("Holistic Learning", gated2 (objGetD data "integrality_and_cycle" jEmptyObj) "holistic_learning" "score")]).isSome = true := by
    apply runGates_total
    intro p hp
    fin_cases hp
    · rw [gated2_eq_total hinteg (pathStep hd hi1)]; rfl
    · rw [gated2_eq_total hinteg (pathStep hd hi2)]; rfl
    · rw [gated2_eq_total hinteg (pathStep hd hi3)]; rfl
  obtain ⟨ig, hig⟩ := Option.isSome_iff_exists.mp hrg2
  rw [hig, optBind_some]
  rfl

theorem kolbScoreGates_total {data : JValue} (detailed : Bool)
    (hd : data.isObjB = true)
    (hp0 : pathAbsentOrObj data ["kolb_phases_analysis"] = true)
    (hp1 : pathAbsentOrObj data ["kolb_phases_analysis", "phase_1_concrete_experience"] = true)
    (hp2 : pathAbsentOrObj data ["kolb_phases_analysis", "phase_2_reflective_observation"] = true)
    (hp3 : pathAbsentOrObj data ["kolb_phases_analysis", "phase_3_abstract_conceptualization"] = true)
    (hp4 : pathAbsentOrObj data ["kolb_phases_analysis", "phase_4_active_experimentation"] = true)
    (hs0 : pathAbsentOrObj data ["learning_styles_analysis"] = true)
    (hs1 : pathAbsentOrObj data ["learning_styles_analysis", "dreamer"] = true)
    (hs2 : pathAbsentOrObj data ["learning_styles_analysis", "thinker"] = true)
    (hs3 : pathAbsentOrObj data ["learning_styles_analysis", "doer"] = true)
    (hs4 : pathAbsentOrObj data ["learning_styles_analysis", "decider"] = true)
    (hs5 : pathAbsentOrObj data ["learning_styles_analysis", "assimilating_style"] = true)
    (hs6 : pathAbsentOrObj data ["learning_styles_analysis", "converging_style"] = true)
    (hs7 : pathAbsentOrObj data ["learning_styles_analysis", "accommodating_style"] = true)
    (hs8 : pathAbsentOrObj data ["learning_styles_analysis", "diverging_style"] = true)
    (hi0 : pathAbsentOrObj data ["integrality_and_cycle"] = true)
    (hi1 : pathAbsentOrObj data ["integrality_and_cycle", "cycle_completeness"] = true)
    (hi2 : pathAbsentOrObj data ["integrality_and_cycle", "balance_between_phases"] = true)
    (hi3 : pathAbsentOrObj data ["integrality_and_cycle", "holistic_learning"] = true)
    (ho : pathAbsentOrObj data ["overall_picture"] = true) :
    (kolbScoreGates data detailed).isSome = true := by
  have hphases : (objGetD data "kolb_phases_analysis" jEmptyObj).isObjB = true := by
    have := pathStep hd hp0
    rwa [pathAbsentOrObj_nil] at this
  rw [kolbScoreGates, pyGetD_of_obj _ _ hd, optBind_some]
  have hrg : (runGates
      [("Concrete Experience", gated2 (objGetD data "kolb_phases_analysis" jEmptyObj) "phase_1_concrete_experience" "score"),
       ("Reflective Observation", gated2 (objGetD data "kolb_phases_analysis" jEmptyObj) "phase_2_reflective_observation" "score"),
       ("Abstract Conceptualization", gated2 (objGetD data "kolb_phases_analysis" jEmptyObj) "phase_3_abstract_conceptualization" "score"),
       ("Active Experimentation", gated2 (objGetD data "kolb_phases_analysis" jEmptyObj) "phase_4_active_experimentation" "score")]).isSome = true := by
    apply runGates_total
    intro p hp
    fin_cases hp
    · rw [gated2_eq_total hphases (pathStep hd hp1)]; rfl
    · rw [gated2_eq_total hphases (pathStep hd hp2)]; rfl
    · rw [gated2_eq_total hphases (pathStep hd hp3)]; rfl
    · rw [gated2_eq_total hphases (pathStep hd hp4)]; rfl
  obtain ⟨main, hmain⟩ := Option.isSome_iff_exists.mp hrg
  have hov : (runGates
      [("Overall", gated2 data "overall_picture" "overall_kolb_score")]).isSome = true := by
    apply runGates_total
    intro p hp
    fin_cases hp
    rw [gated2_eq_total hd ho]; rfl
  obtain ⟨og, hog⟩ := Option.isSome_iff_exists.mp hov
  cases detailed
  · simp only [hmain, hog, optBind_some, Bool.false_eq_true, if_false, Option.pure_def,
      Option.some_bind, Option.isSome_some]
  · have hdet := kolbDetailedGates_total hd hs0 hs1 hs2 hs3 hs4 hs5 hs6 hs7 hs8 hi0 hi1 hi2 hi3
    obtain ⟨dg, hdg⟩ := Option.isSome_iff_exists.mp hdet
    simp only [hmain, hdg, hog, optBind_some, if_true, Option.pure_def,
      Option.some_bind, Option.isSome_some]

theorem schulzScoreGates_total {data : JValue}
    (hd : data.isObjB = true)
    (h0 : pathAbsentOrObj data ["schulz_von_thun_analysis"] = true)
    (h1 : pathAbsentOrObj data ["schulz_von_thun_analysis", "factual_content_blue"] = true)
    (h2 : pathAbsentOrObj data ["schulz_von_thun_analysis", "self_revelation_green"] = true)
    (h3 : pathAbsentOrObj data ["schulz_von_thun_analysis", "relational_aspect_yellow"] = true)
    (h4 : pathAbsentOrObj data ["schulz_von_thun_analysis", "appeal_aspect_red"] = true)
    (ho : pathAbsentOrObj data ["overall_picture"] = true) :
    (schulzScoreGates data).isSome = true := by
  have han : (objGetD data "schulz_von_thun_analysis" jEmptyObj).isObjB = true := by
    have := pathStep hd h0
    rwa [pathAbsentOrObj_nil] at this
  rw [schulzScoreGates, pyGetD_of_obj _ _ hd, optBind_some]
  apply runGates_total
  intro p hp
  fin_cases hp
  · rw [gated2_eq_total han (pathStep hd h1)]; rfl
  · rw [gated2_eq_total han (pathStep hd h2)]; rfl
  · rw [gated2_eq_total han (pathStep hd h3)]; rfl
  · rw [gated2_eq_total han (pathStep hd h4)]; rfl
  · rw [gated2_eq_total hd ho]; rfl

theorem esthetiekDetailedGates_total {data : JValue}
    (hd : data.isObjB = true)
    (ha : pathAbsentOrObj data ["domain_a_poetics_of_language"] = true)
    (hb : pathAbsentOrObj data ["domain_b_dramaturgy_of_structure"] = true)
    (hk : pathAbsentOrObj data ["kitsch_diagnosis"] = true)
    (hsp : pathAbsentOrObj data ["space_for_grace_analysis"] = true) :
    (esthetiekDetailedGates data).isSome = true := by
  have hda : (objGetD data "domain_a_poetics_of_language" jEmptyObj).isObjB = true := by
    have := pathStep hd ha
    rwa [pathAbsentOrObj_nil] at this
  have hdb : (objGetD data "domain_b_dramaturgy_of_structure" jEmptyObj).isObjB = true := by
    have := pathStep hd hb
    rwa [pathAbsentOrObj_nil] at this
  rw [esthetiekDetailedGates, pyGetD_of_obj _ _ hd, optBind_some]
  obtain ⟨ga, hwa⟩ : ∃ gs, objGetD data "domain_a_poetics_of_language" jEmptyObj = .obj gs := by
    cases hsv : objGetD data "domain_a_poetics_of_language" jEmptyObj
    case obj gs => exact ⟨gs, rfl⟩
    all_goals rw [hsv] at hda <;> simp [JValue.isObjB] at hda
  rw [hwa]
  rw [show pyItems (JValue.obj ga) = some ga from rfl, optBind_some,
    pyGetD_of_obj _ _ hd, optBind_some]
  obtain ⟨gb, hwb⟩ : ∃ gs, objGetD data "domain_b_dramaturgy_of_structure" jEmptyObj = .obj gs := by
    cases hsv : objGetD data "domain_b_dramaturgy_of_structure" jEmptyObj
    case obj gs => exact ⟨gs, rfl⟩
    all_goals rw [hsv] at hdb <;> simp [JValue.isObjB] at hdb
  rw [hwb]
  rw [show pyItems (JValue.obj gb) = some gb from rfl, optBind_some]
  have hrg : (runGates
      [("Anti-Kitsch", gated2 data "kitsch_diagnosis" "anti_kitsch_score"),
       ("Space for Grace", gated2 data "space_for_grace_analysis" "space_score")]).isSome = true := by
    apply runGates_total
    intro p hp
    fin_cases hp
    · rw [gated2_eq_total hd hk]; rfl
    · rw [gated2_eq_total hd hsp]; rfl
  obtain ⟨tg, htg⟩ := Option.isSome_iff_exists.mp hrg
  rw [htg, optBind_some]
  rfl

theorem esthetiekScoreGates_total {data : JValue} (detailed : Bool)
    (hd : data.isObjB = true)
    (ha : pathAbsentOrObj data ["domain_a_poetics_of_language"] = true)
    (hb : pathAbsentOrObj data ["domain_b_dramaturgy_of_structure"] = true)
    (hk : pathAbsentOrObj data ["kitsch_diagnosis"] = true)
    (hsp : pathAbsentOrObj data ["space_for_grace_analysis"] = true)
    (ho : pathAbsentOrObj data ["overall_aesthetics"] = true) :
    (esthetiekScoreGates data detailed).isSome = true := by
  rw [esthetiekScoreGates]
  have hov : (runGates
      [("Overall", gated2 data "overall_aesthetics" "overall_aesthetic_score")]).isSome = true := by
    apply runGates_total
    intro p hp
    fin_cases hp
    rw [gated2_eq_total hd ho]; rfl
  obtain ⟨og, hog⟩ := Option.isSome_iff_exists.mp hov
  cases detailed
  · have hsum : (runGates
        [("Poetics", gated2 data "domain_a_poetics_of_language" "average_score_language"),
         ("Dramaturgy", gated2 data "domain_b_dramaturgy_of_structure" "average_score_structure")]).isSome = true := by
      apply runGates_total
      intro p hp
      fin_cases hp
      · rw [gated2_eq_total hd ha]; rfl
      · rw [gated2_eq_total hd hb]; rfl
    obtain ⟨mg, hmge⟩ := Option.isSome_iff_exists.mp hsum
    simp only [hmge, hog, optBind_some, Bool.false_eq_true, if_false, Option.pure_def,
      Option.some_bind, Option.isSome_some]
  · have hdet := esthetiekDetailedGates_total hd ha hb hk hsp
    obtain ⟨mg, hmge⟩ := Option.isSome_iff_exists.mp hdet
    simp only [hmge, hog, optBind_some, if_true, Option.pure_def,
      Option.some_bind, Option.isSome_some]

theorem transactionalEgoGates_total {data : JValue}
    (hd : data.isObjB = true)
    (he : pathAbsentOrObj data ["ego_positions_scan"] = true)
    (hpar : pathAbsentOrObj data ["ego_positions_scan", "parent"] = true)
    (hch : pathAbsentOrObj data ["ego_positions_scan", "child"] = true)
    (had : pathAbsentOrObj data ["ego_positions_scan", "adult"] = true)
    (hp1 : pathAbsentOrObj data ["ego_positions_scan", "parent", "freedom_from_critical_parent_CP"] = true)
    (hp2 : pathAbsentOrObj data ["ego_positions_scan", "parent", "healthy_care_NP"] = true)
    (hc1 : pathAbsentOrObj data ["ego_positions_scan", "child", "freedom_from_adapted_child_AC"] = true)
    (hc2 : pathAbsentOrObj data ["ego_positions_scan", "child", "free_child_FC"] = true) :
    (transactionalEgoGates data).isSome = true := by
  have hego : (objGetD data "ego_positions_scan" jEmptyObj).isObjB = true := by
    have := pathStep hd he
    rwa [pathAbsentOrObj_nil] at this
  have hparent : (objGetD (objGetD data "ego_positions_scan" jEmptyObj) "parent" jEmptyObj).isObjB = true := by
    have := pathStep hego (pathStep hd hpar)
    rwa [pathAbsentOrObj_nil] at this
  have hchild : (objGetD (objGetD data "ego_positions_scan" jEmptyObj) "child" jEmptyObj).isObjB = true := by
    have := pathStep hego (pathStep hd hch)
    rwa [pathAbsentOrObj_nil] at this
  have hadult : (objGetD (objGetD data "ego_positions_scan" jEmptyObj) "adult" jEmptyObj).isObjB = true := by
    have := pathStep hego (pathStep hd had)
    rwa [pathAbsentOrObj_nil] at this
  rw [transactionalEgoGates, pyGetD_of_obj _ _ hd, optBind_some,
    pyGetD_of_obj _ _ hego, optBind_some, pyGetD_of_obj _ _ hego, optBind_some,
    pyGetD_of_obj _ _ hego, optBind_some]
  apply runGates_total
  intro p hp
  fin_cases hp
  · rw [gated2_eq_total hparent (pathStep hego (pathStep hd hp1))]; rfl
  · rw [gated2_eq_total hparent (pathStep hego (pathStep hd hp2))]; rfl
  · rw [gated1_eq_total hadult]; rfl
  · rw [gated2_eq_total hchild (pathStep hego (pathStep hd hc1))]; rfl
  · rw [gated2_eq_total hchild (pathStep hego (pathStep hd hc2))]; rfl

theorem transactionalScoreGates_total {data : JValue}
    (hd : data.isObjB = true)
    (he : pathAbsentOrObj data ["ego_positions_scan"] = true)
    (hpar : pathAbsentOrObj data ["ego_positions_scan", "parent"] = true)
    (hch : pathAbsentOrObj data ["ego_positions_scan", "child"] = true)
    (had : pathAbsentOrObj data ["ego_positions_scan", "adult"] = true)
    (hp1 : pathAbsentOrObj data ["ego_positions_scan", "parent", "freedom_from_critical_parent_CP"] = true)
    (hp2 : pathAbsentOrObj data ["ego_positions_scan", "parent", "healthy_care_NP"] = true)
    (hc1 : pathAbsentOrObj data ["ego_positions_scan", "child", "freedom_from_adapted_child_AC"] = true)
    (hc2 : pathAbsentOrObj data ["ego_positions_scan", "child", "free_child_FC"] = true)
    (htr : pathAbsentOrObj data ["transaction_analysis"] = true)
    (hcon : pathAbsentOrObj data ["conclusion_and_recommendation"] = true) :
    (transactionalScoreGates data).isSome = true := by
  have htrans : (objGetD data "transaction_analysis" jEmptyObj).isObjB = true := by
    have := pathStep hd htr
    rwa [pathAbsentOrObj_nil] at this
  have hconc : (objGetD data "conclusion_and_recommendation" jEmptyObj).isObjB = true := by
    have := pathStep hd hcon
    rwa [pathAbsentOrObj_nil] at this
  have hmain := transactionalEgoGates_total hd he hpar hch had hp1 hp2 hc1 hc2
  obtain ⟨mg, hmge⟩ := Option.isSome_iff_exists.mp hmain
  rw [transactionalScoreGates, hmge, optBind_some, pyGetD_of_obj _ _ hd, optBind_some]
  have hg6 : (runGates
      [("Communicative Purity",
        gated1 (objGetD data "transaction_analysis" jEmptyObj) "communicative_purity_score")]).isSome = true := by
    apply runGates_total
    intro p hp
    fin_cases hp
    rw [gated1_eq_total htrans]; rfl
  obtain ⟨g6, hg6e⟩ := Option.isSome_iff_exists.mp hg6
  rw [hg6e, optBind_some, pyGetD_of_obj _ _ hd, optBind_some]
  have hg7 : (runGates
      [("Overall",
        gated1 (objGetD data "conclusion_and_recommendation" jEmptyObj) "psychological_health_score")]).isSome = true := by
    apply runGates_total
    intro p hp
    fin_cases hp
    rw [gated1_eq_total hconc]; rfl
  obtain ⟨g7, hg7e⟩ := Option.isSome_iff_exists.mp hg7
  rw [hg7e, optBind_some]
  rfl

/-- The dict-position paths accessed by extract_scores in
precompute_statistics.py, per analysis type: when every listed path is
absent-or-an-object, the extraction cannot raise. -/
def statsScorePaths (ty : String) : List (List String) :=
  if ty = "aristoteles" then
    [["aristotelian_modes_analysis"], ["aristotelian_modes_analysis", "logos"],
     ["aristotelian_modes_analysis", "pathos"], ["aristotelian_modes_analysis", "ethos"],
     ["overall_picture"], ["rhetorical_balance_analysis"]]
  else if ty = "dekker" then [["analysis_per_criterion"]]
  else if ty = "kolb" then
    [["kolb_phases_analysis"],
     ["kolb_phases_analysis", "phase_1_concrete_experience"],
     ["kolb_phases_analysis", "phase_2_reflective_observation"],
     ["kolb_phases_analysis", "phase_3_abstract_conceptualization"],
     ["kolb_phases_analysis", "phase_4_active_experimentation"],
     ["learning_styles_analysis"],
     ["learning_styles_analysis", "dreamer"], ["learning_styles_analysis", "thinker"],
     ["learning_styles_analysis", "doer"], ["learning_styles_analysis", "decider"],
     ["learning_styles_analysis", "assimilating_style"],
     ["learning_styles_analysis", "converging_style"],
     ["learning_styles_analysis", "accommodating_style"],
     ["learning_styles_analysis", "diverging_style"],
     ["integrality_and_cycle"],
     ["integrality_and_cycle", "cycle_completeness"],
     ["integrality_and_cycle", "balance_between_phases"],
     ["integrality_and_cycle", "holistic_learning"],
     ["overall_picture"]]
  else if ty = "schulz_von_thun" then
    [["schulz_von_thun_analysis"],
     ["schulz_von_thun_analysis", "factual_content_blue"],
     ["schulz_von_thun_analysis", "self_revelation_green"],
     ["schulz_von_thun_analysis", "relational_aspect_yellow"],
     ["schulz_von_thun_analysis", "appeal_aspect_red"],
     ["overall_picture"]]
  else if ty = "esthetiek" then
    [["domain_a_poetics_of_language"], ["domain_b_dramaturgy_of_structure"],
     ["kitsch_diagnosis"], ["space_for_grace_analysis"], ["overall_aesthetics"]]
  else []

/-- The paths for violin_data_precompute.py's extract_scores: the same plus
the transactional branch. -/
def violinScorePaths (ty : String) : List (List String) :=
  if ty = "transactional" then
    [["ego_positions_scan"], ["ego_positions_scan", "parent"],
     ["ego_positions_scan", "child"], ["ego_positions_scan", "adult"],
     ["ego_positions_scan", "parent", "freedom_from_critical_parent_CP"],
     ["ego_positions_scan", "parent", "healthy_care_NP"],
     ["ego_positions_scan", "child", "freedom_from_adapted_child_AC"],
     ["ego_positions_scan", "child", "free_child_FC"],
     ["transaction_analysis"], ["conclusion_and_recommendation"]]
  else statsScorePaths ty

theorem scoreGatesStats_total (data : JValue) (ty : String) (detailed : Bool)
    (hobj : data.isObjB = true)
    (hp : (statsScorePaths ty).all (pathAbsentOrObj data) = true) :
    (scoreGatesStats data ty detailed).isSome = true := by
  rw [scoreGatesStats]
  rw [statsScorePaths] at hp
  by_cases h1 : ty = "aristoteles"
  · rw [if_pos h1]
    rw [if_pos h1] at hp
    simp only [List.all_cons, List.all_nil, Bool.and_true, Bool.and_eq_true] at hp
    obtain ⟨p1, p2, p3, p4, p5, p6⟩ := hp
    exact aristotelesScoreGates_total detailed hobj p1 p2 p3 p4 p5 p6
  rw [if_neg h1]
  rw [if_neg h1] at hp
  by_cases h2 : ty = "dekker"
  · rw [if_pos h2]
    rw [if_pos h2] at hp
    simp only [List.all_cons, List.all_nil, Bool.and_true] at hp
    exact dekkerScoreGates_total hobj hp
  rw [if_neg h2]
  rw [if_neg h2] at hp
  by_cases h3 : ty = "kolb"
  · rw [if_pos h3]
    rw [if_pos h3] at hp
    simp only [List.all_cons, List.all_nil, Bool.and_true, Bool.and_eq_true] at hp
    obtain ⟨q1, q2, q3, q4, q5, q6, q7, q8, q9, q10, q11, q12, q13, q14, q15, q16,
      q17, q18, q19⟩ := hp
    exact kolbScoreGates_total detailed hobj q1 q2 q3 q4 q5 q6 q7 q8 q9 q10 q11 q12
      q13 q14 q15 q16 q17 q18 q19
  rw [if_neg h3]
  rw [if_neg h3] at hp
  by_cases h4 : ty = "schulz_von_thun"
  · rw [if_pos h4]
    rw [if_pos h4] at hp
    simp only [List.all_cons, List.all_nil, Bool.and_true, Bool.and_eq_true] at hp
    obtain ⟨q1, q2, q3, q4, q5, q6⟩ := hp
    exact schulzScoreGates_total hobj q1 q2 q3 q4 q5 q6
  rw [if_neg h4]
  rw [if_neg h4] at hp
  by_cases h5 : ty = "esthetiek"
  · rw [if_pos h5]
    rw [if_pos h5] at hp
    simp only [List.all_cons, List.all_nil, Bool.and_true, Bool.and_eq_true] at hp
    obtain ⟨q1, q2, q3, q4, q5⟩ := hp
    exact esthetiekScoreGates_total detailed hobj q1 q2 q3 q4 q5
  rw [if_neg h5]
  rfl

theorem scoreGatesViolin_total (data : JValue) (ty : String) (detailed : Bool)
    (hobj : data.isObjB = true)
    (hp : (violinScorePaths ty).all (pathAbsentOrObj data) = true) :
    (scoreGatesViolin data ty detailed).isSome = true := by
  rw [scoreGatesViolin]
  rw [violinScorePaths] at hp
  by_cases ht : ty = "transactional"
  · rw [if_pos ht] at hp
    have h1 : ¬ ty = "aristoteles" := by rw [ht]; decide
    have h2 : ¬ ty = "dekker" := by rw [ht]; decide
    have h3 : ¬ ty = "kolb" := by rw [ht]; decide
    have h4 : ¬ ty = "schulz_von_thun" := by rw [ht]; decide
    have h5 : ¬ ty = "esthetiek" := by rw [ht]; decide
    rw [if_neg h1, if_neg h2, if_neg h3, if_neg h4, if_neg h5, if_pos ht]
    simp only [List.all_cons, List.all_nil, Bool.and_true, Bool.and_eq_true] at hp
    obtain ⟨q1, q2, q3, q4, q5, q6, q7, q8, q9, q10⟩ := hp
    exact transactionalScoreGates_total hobj q1 q2 q3 q4 q5 q6 q7 q8 q9 q10
  · rw [if_neg ht] at hp
    rw [statsScorePaths] at hp
    by_cases h1 : ty = "aristoteles"
    · rw [if_pos h1]
      rw [if_pos h1] at hp
      simp only [List.all_cons, List.all_nil, Bool.and_true, Bool.and_eq_true] at hp
      obtain ⟨p1, p2, p3, p4, p5, p6⟩ := hp
      exact aristotelesScoreGates_total detailed hobj p1 p2 p3 p4 p5 p6
    rw [if_neg h1]
    rw [if_neg h1] at hp
    by_cases h2 : ty = "dekker"
    · rw [if_pos h2]
      rw [if_pos h2] at hp
      simp only [List.all_cons, List.all_nil, Bool.and_true] at hp
      exact dekkerScoreGatesViolin_total hobj hp
    rw [if_neg h2]
    rw [if_neg h2] at hp
    by_cases h3 : ty = "kolb"
    · rw [if_pos h3]
      rw [if_pos h3] at hp
      simp only [List.all_cons, List.all_nil, Bool.and_true, Bool.and_eq_true] at hp
      obtain ⟨q1, q2, q3, q4, q5, q6, q7, q8, q9, q10, q11, q12, q13, q14, q15, q16,
        q17, q18, q19⟩ := hp
      exact kolbScoreGates_total detailed hobj q1 q2 q3 q4 q5 q6 q7 q8 q9 q10 q11 q12
        q13 q14 q15 q16 q17 q18 q19
    rw [if_neg h3]
    rw [if_neg h3] at hp
    by_cases h4 : ty = "schulz_von_thun"
    · rw [if_pos h4]
      rw [if_pos h4] at hp
      simp only [List.all_cons, List.all_nil, Bool.and_true, Bool.and_eq_true] at hp
      obtain ⟨q1, q2, q3, q4, q5, q6⟩ := hp
      exact schulzScoreGates_total hobj q1 q2 q3 q4 q5 q6
    rw [if_neg h4]
    rw [if_neg h4] at hp
    by_cases h5 : ty = "esthetiek"
    · rw [if_pos h5]
      rw [if_pos h5] at hp
      simp only [List.all_cons, List.all_nil, Bool.and_true, Bool.and_eq_true] at hp
      obtain ⟨q1, q2, q3, q4, q5⟩ := hp
      exact esthetiekScoreGates_total detailed hobj q1 q2 q3 q4 q5
    rw [if_neg h5, if_neg ht]
    rfl

theorem extract_scores_stats_total (data : JValue) (ty : String) (detailed : Bool)
    (hp : (statsScorePaths ty).all (pathAbsentOrObj data) = true) :
    (extract_scores_stats data ty detailed).isSome = true := by
  rw [extract_scores_stats]
  by_cases hobj : data.isObjB = true
  · rw [hobj]
    simp only [Bool.not_true, Bool.false_eq_true, if_false]
    obtain ⟨g, hg⟩ := Option.isSome_iff_exists.mp (scoreGatesStats_total data ty detailed hobj hp)
    rw [hg]
    rfl
  · rw [Bool.not_eq_true] at hobj
    rw [hobj]
    rfl

theorem extract_scores_violin_total (data : JValue) (ty : String) (detailed : Bool)
    (hp : (violinScorePaths ty).all (pathAbsentOrObj data) = true) :
    (extract_scores_violin data ty detailed).isSome = true := by
  rw [extract_scores_violin]
  by_cases hobj : data.isObjB = true
  · rw [hobj]
    simp only [Bool.not_true, Bool.false_eq_true, if_false]
    obtain ⟨g, hg⟩ := Option.isSome_iff_exists.mp (scoreGatesViolin_total data ty detailed hobj hp)
    rw [hg]
    rfl
  · rw [Bool.not_eq_true] at hobj
    rw [hobj]
    rfl

/-! ## The converter's extract_analysis_data (02__json_to_tsv_converter.py
lines 126-644)

The function builds a flat result dict.  Each branch is a sequence of
"parts"; a part reads one container with `data.get(key, \x7b\x7d)` and then
produces result entries from it.  Entry production is uniform — either the
raw looked-up value or `serialize_value` of it — so we describe a part by a
list of entry specifications and interpret them, keeping every do-block
small. -/

/-- Digit-string value, `int("...")` on a run of ASCII digits. -/
def digitsVal (ds : List Char) : ℕ :=
  ds.foldl (fun a c => a * 10 + (c.toNat - 48)) 0

/-- Apply a decimal exponent to a mantissa. -/
def applyExp (m : ℚ) (neg : Bool) (e : ℕ) : ℚ :=
  if neg then m / 10 ^ e else m * 10 ^ e

/-- The digit run of an exponent: at least one digit, digits only. -/
def parseExpDigits (cs : List Char) (m : ℚ) (neg : Bool) : Option ℚ :=
  if cs.isEmpty then none
  else if cs.all Char.isDigit then some (applyExp m neg (digitsVal cs)) else none

/-- The characters after the `e`/`E` of a float literal. -/
def parseExpTail (cs : List Char) (m : ℚ) : Option ℚ :=
  match cs with
  | '-' :: r => parseExpDigits r m true
  | '+' :: r => parseExpDigits r m false
  | _ => parseExpDigits cs m false

/-- An optional exponent part; anything else trailing makes the literal
invalid. -/
def parseExpPart (cs : List Char) (m : ℚ) : Option ℚ :=
  match cs with
  | [] => some m
  | 'e' :: r => parseExpTail r m
  | 'E' :: r => parseExpTail r m
  | _ => none

/-- An unsigned float literal: digits, an optional fraction (at least one
digit on one side of the dot), an optional exponent. -/
def parseUnsignedFloat (cs : List Char) : Option ℚ :=
  let ip := cs.takeWhile Char.isDigit
  let r1 := cs.dropWhile Char.isDigit
  match r1 with
  | '.' :: r2 =>
      let fp := r2.takeWhile Char.isDigit
      let r3 := r2.dropWhile Char.isDigit
      if ip.isEmpty && fp.isEmpty then none
      else parseExpPart r3 ((digitsVal ip : ℚ) + (digitsVal fp : ℚ) / 10 ^ fp.length)
  | _ => if ip.isEmpty then none else parseExpPart r1 (digitsVal ip)

/-- Leading/trailing spaces are accepted by `float(...)`. -/
def stripSpacesL (cs : List Char) : List Char :=
  ((cs.dropWhile (· == ' ')).reverse.dropWhile (· == ' ')).reverse

/-- A signed float literal. -/
def pyFloatChars (cs : List Char) : Option ℚ :=
  match cs with
  | '+' :: r => parseUnsignedFloat r
  | '-' :: r => (parseUnsignedFloat r).map Neg.neg
  | _ => parseUnsignedFloat cs

/-- Python `float(v)` on a JSON-decoded value: numbers and bools convert,
strings parse as decimal float literals (signs, fraction, exponent;
Python's extra spellings — `inf`, `nan`, underscores, non-space whitespace —
do not arise in these payloads and are treated as failures), everything
else raises (ValueError/TypeError → none). -/
def pyFloat (v : JValue) : Option ℚ :=
  match v with
  | .num (.int i) => some ((i : ℚ))
  | .num (.float q) => some q
  | .bool b => some (if b then 1 else 0)
  | .str s => pyFloatChars (stripSpacesL s.data)
  | _ => none

/-- Equality of a decoded value with a Python string literal (only a str
compares equal to a str). -/
def strEq (v : JValue) (s : String) : Bool :=
  match v with
  | .str t => t == s
  | _ => false

/-- Python `k in v`: key membership for dicts, element membership for
lists, substring for strings, TypeError (none) for the scalars. -/
def pyContains (v : JValue) (k : String) : Option Bool :=
  match v with
  | .obj fs => some (fs.any (fun kv => kv.1 == k))
  | .arr xs => some (xs.any (fun x => strEq x k))
  | .str s => some (pyInStr k s)
  | _ => none

/-- One result entry of an extract_analysis_data part: the raw looked-up
value (`result[ok] = sub.get(sk, d)`), the serialized looked-up value
(`result[ok] = serialize_value(sub.get(sk, d))`), or a value already
computed. -/
inductive EntSpec where
  | raw (outKey srcKey : String) (d : JValue)
  | ser (outKey srcKey : String) (d : JValue)
  | const (outKey : String) (v : JValue)

/-- The computation of one entry against its container (raises when the
container is not a dict). -/
def entComp (sub : JValue) : EntSpec → Option (String × JValue)
  | .raw ok sk d => (pyGetD sub sk d).map (fun v => (ok, v))
  | .ser ok sk d => (pyGetD sub sk d).map (fun v => (ok, JValue.str (serialize_value v)))
  | .const ok v => some (ok, v)

/-- Run a part's entry list in source order against its container. -/
def runEnts (sub : JValue) (es : List EntSpec) : Option (List (String × JValue)) :=
  es.mapM (entComp sub)

/-- The total value of one entry on a dict container. -/
def entVal (sub : JValue) : EntSpec → String × JValue
  | .raw ok sk d => (ok, objGetD sub sk d)
  | .ser ok sk d => (ok, JValue.str (serialize_value (objGetD sub sk d)))
  | .const ok v => (ok, v)

theorem runEnts_eq (es : List EntSpec) {sub : JValue} (h : sub.isObjB = true) :
    runEnts sub es = some (es.map (entVal sub)) := by
  induction es with
  | nil => rfl
  | cons e rest ih =>
    rw [runEnts, List.mapM_cons]
    have he : entComp sub e = some (entVal sub e) := by
      cases e with
      | raw ok sk d => rw [entComp, pyGetD_of_obj _ _ h]; rfl
      | ser ok sk d => rw [entComp, pyGetD_of_obj _ _ h]; rfl
      | const ok v => rfl
    rw [runEnts] at ih
    rw [he, optBind_some, ih, optBind_some]
    rfl

/-- Concatenate the results of a branch's parts in source order; the branch
raises iff some part does. -/
def joinParts (ps : List (Option (List (String × JValue)))) :
    Option (List (String × JValue)) :=
  (ps.mapM id).map List.flatten

theorem joinParts_total {ps : List (Option (List (String × JValue)))}
    (h : ∀ p ∈ ps, p.isSome = true) : (joinParts ps).isSome = true := by
  rw [joinParts]
  have key : (ps.mapM id).isSome = true := by
    induction ps with
    | nil => rfl
    | cons p rest ih =>
      obtain ⟨v, hv⟩ := Option.isSome_iff_exists.mp (h p (List.mem_cons_self _ _))
      obtain ⟨l, hl⟩ :=
        Option.isSome_iff_exists.mp (ih (fun q hq => h q (List.mem_cons_of_mem _ hq)))
      rw [List.mapM_cons]
      rw [show (id p : Option (List (String × JValue))) = some v from hv, optBind_some, hl,
        optBind_some]
      rfl
  obtain ⟨l, hl⟩ := Option.isSome_iff_exists.mp key
  rw [hl]
  rfl

/-- `sub = parent.get(k, \x7b\x7d)`, then the entries against sub. -/
def subPart (parent : JValue) (k : String) (es : List EntSpec) :
    Option (List (String × JValue)) := do
  let sub ← pyGetD parent k jEmptyObj
  runEnts sub es

/-- Two nested `.get(_, \x7b\x7d)` steps, then the entries. -/
def subPart2 (parent : JValue) (k1 k2 : String) (es : List EntSpec) :
    Option (List (String × JValue)) := do
  let s1 ← pyGetD parent k1 jEmptyObj
  let s2 ← pyGetD s1 k2 jEmptyObj
  runEnts s2 es

/-- The idiom `if k in container: sub = container[k]; entries`. -/
def memberGroup (container : JValue) (k : String) (es : List EntSpec) :
    Option (List (String × JValue)) := do
  let c ← pyContains container k
  if c then do
    let sub ← pyIndex container k
    runEnts sub es
  else pure []

/-- A container fetched with `.get(k1, \x7b\x7d)` and scanned with several
membership-guarded groups. -/
def memberPart (data : JValue) (k1 : String) (groups : List (String × List EntSpec)) :
    Option (List (String × JValue)) := do
  let cont ← pyGetD data k1 jEmptyObj
  joinParts (groups.map (fun g => memberGroup cont g.1 g.2))

/-- A container fetched with `.get(k1, \x7b\x7d)` whose sub-containers are
each fetched with `.get(g, \x7b\x7d)` (no membership guard). -/
def nestedParts (data : JValue) (k1 : String) (groups : List (String × List EntSpec)) :
    Option (List (String × JValue)) := do
  let cont ← pyGetD data k1 jEmptyObj
  joinParts (groups.map (fun g => subPart cont g.1 g.2))

/-- Same, one level deeper. -/
def nestedParts2 (data : JValue) (k1 k2 : String)
    (groups : List (String × List EntSpec)) : Option (List (String × JValue)) := do
  let cont ← pyGetD data k1 jEmptyObj
  let cont2 ← pyGetD cont k2 jEmptyObj
  joinParts (groups.map (fun g => subPart cont2 g.1 g.2))

/-- The metadata block (lines 133-136): `if 'metadata' in data:` then
`data['metadata'].items()` with each value serialized. -/
def metadataPart (data : JValue) : Option (List (String × JValue)) := do
  let c ← pyContains data "metadata"
  if c then do
    let md ← pyIndex data "metadata"
    let fs ← pyItems md
    pure (fs.map (fun kv => ("metadata." ++ kv.1, JValue.str (serialize_value kv.2))))
  else pure []

theorem isObjB_exists {v : JValue} (h : v.isObjB = true) :
    ∃ fs, v = .obj fs := by
  cases v
  case obj fs => exact ⟨fs, rfl⟩
  all_goals simp [JValue.isObjB] at h

theorem isObjB_objGetD {parent : JValue} {k : String} (hp : parent.isObjB = true)
    (h : pathAbsentOrObj parent [k] = true) :
    (objGetD parent k jEmptyObj).isObjB = true := by
  have h2 := pathStep hp h
  rwa [pathAbsentOrObj_nil] at h2

theorem subPart_total {parent : JValue} {k : String} (es : List EntSpec)
    (hp : parent.isObjB = true) (h : pathAbsentOrObj parent [k] = true) :
    (subPart parent k es).isSome = true := by
  rw [subPart, pyGetD_of_obj _ _ hp, optBind_some, runEnts_eq es (isObjB_objGetD hp h)]
  rfl

theorem subPart2_total {parent : JValue} {k1 k2 : String} (es : List EntSpec)
    (hp : parent.isObjB = true) (h1 : pathAbsentOrObj parent [k1] = true)
    (h12 : pathAbsentOrObj parent [k1, k2] = true) :
    (subPart2 parent k1 k2 es).isSome = true := by
  have hs1 : (objGetD parent k1 jEmptyObj).isObjB = true := isObjB_objGetD hp h1
  have h2 : pathAbsentOrObj (objGetD parent k1 jEmptyObj) [k2] = true := pathStep hp h12
  rw [subPart2, pyGetD_of_obj _ _ hp, optBind_some, pyGetD_of_obj _ _ hs1, optBind_some,
    runEnts_eq es (isObjB_objGetD hs1 h2)]
  rfl

theorem lookupField_isSome_of_any {fs : List (String × JValue)} {k : String}
    (h : fs.any (fun kv => kv.1 == k) = true) : (lookupField fs k).isSome = true := by
  induction fs with
  | nil => simp at h
  | cons e rest ih =>
    obtain ⟨a, b⟩ := e
    rw [lookupField]
    by_cases he : a = k
    · rw [if_pos he]; rfl
    · rw [if_neg he]
      apply ih
      simp only [List.any_cons, Bool.or_eq_true] at h
      rcases h with h | h
      · exact absurd (by simpa using h) he
      · exact h

theorem memberGroup_total {container : JValue} {k : String} (es : List EntSpec)
    (hc : container.isObjB = true) (h : pathAbsentOrObj container [k] = true) :
    (memberGroup container k es).isSome = true := by
  obtain ⟨fs, rfl⟩ := isObjB_exists hc
  rw [memberGroup]
  show (Option.bind (pyContains (JValue.obj fs) k) _).isSome = true
  rw [show pyContains (JValue.obj fs) k = some (fs.any (fun kv => kv.1 == k)) from rfl,
    Option.some_bind]
  by_cases ha : fs.any (fun kv => kv.1 == k) = true
  · rw [ha, if_pos rfl]
    obtain ⟨md, hmd⟩ := Option.isSome_iff_exists.mp (lookupField_isSome_of_any ha)
    show (Option.bind (lookupField fs k) _).isSome = true
    rw [hmd, Option.some_bind]
    have hmo : md.isObjB = true := by
      have hp := h
      rw [show pathAbsentOrObj (JValue.obj fs) [k] =
        (match lookupField fs k with
         | none => true
         | some w => pathAbsentOrObj w []) from rfl, hmd] at hp
      exact hp
    rw [runEnts_eq es hmo]
    rfl
  · rw [Bool.not_eq_true] at ha
    rw [ha]
    rfl

theorem memberPart_total {data : JValue} {k1 : String}
    {groups : List (String × List EntSpec)}
    (hd : data.isObjB = true) (h1 : pathAbsentOrObj data [k1] = true)
    (hg : ∀ g ∈ groups, pathAbsentOrObj data [k1, g.1] = true) :
    (memberPart data k1 groups).isSome = true := by
  rw [memberPart, pyGetD_of_obj _ _ hd, optBind_some]
  apply joinParts_total
  intro p hpm
  simp only [List.mem_map] at hpm
  obtain ⟨g, hgm, rfl⟩ := hpm
  exact memberGroup_total g.2 (isObjB_objGetD hd h1) (pathStep hd (hg g hgm))

theorem nestedParts_total {data : JValue} {k1 : String}
    {groups : List (String × List EntSpec)}
    (hd : data.isObjB = true) (h1 : pathAbsentOrObj data [k1] = true)
    (hg : ∀ g ∈ groups, pathAbsentOrObj data [k1, g.1] = true) :
    (nestedParts data k1 groups).isSome = true := by
  rw [nestedParts, pyGetD_of_obj _ _ hd, optBind_some]
  apply joinParts_total
  intro p hpm
  simp only [List.mem_map] at hpm
  obtain ⟨g, hgm, rfl⟩ := hpm
  exact subPart_total g.2 (isObjB_objGetD hd h1) (pathStep hd (hg g hgm))

theorem nestedParts2_total {data : JValue} {k1 k2 : String}
    {groups : List (String × List EntSpec)}
    (hd : data.isObjB = true) (h1 : pathAbsentOrObj data [k1] = true)
    (h12 : pathAbsentOrObj data [k1, k2] = true)
    (hg : ∀ g ∈ groups, pathAbsentOrObj data [k1, k2, g.1] = true) :
    (nestedParts2 data k1 k2 groups).isSome = true := by
  have hs1 : (objGetD data k1 jEmptyObj).isObjB = true := isObjB_objGetD hd h1
  rw [nestedParts2, pyGetD_of_obj _ _ hd, optBind_some, pyGetD_of_obj _ _ hs1, optBind_some]
  apply joinParts_total
  intro p hpm
  simp only [List.mem_map] at hpm
  obtain ⟨g, hgm, rfl⟩ := hpm
  exact subPart_total g.2 (isObjB_objGetD hs1 (pathStep hd h12))
    (pathStep hs1 (pathStep hd (hg g hgm)))

theorem metadataPart_total {data : JValue} (hd : data.isObjB = true)
    (h : pathAbsentOrObj data ["metadata"] = true) :
    (metadataPart data).isSome = true := by
  obtain ⟨fs, rfl⟩ := isObjB_exists hd
  rw [metadataPart]
  show (Option.bind (pyContains (JValue.obj fs) "metadata") _).isSome = true
  rw [show pyContains (JValue.obj fs) "metadata" =
    some (fs.any (fun kv => kv.1 == "metadata")) from rfl, Option.some_bind]
  by_cases ha : fs.any (fun kv => kv.1 == "metadata") = true
  · rw [ha, if_pos rfl]
    obtain ⟨md, hmd⟩ := Option.isSome_iff_exists.mp (lookupField_isSome_of_any ha)
    show (Option.bind (lookupField fs "metadata") _).isSome = true
    rw [hmd, Option.some_bind]
    have hmo : md.isObjB = true := by
      have hp := h
      rw [show pathAbsentOrObj (JValue.obj fs) ["metadata"] =
        (match lookupField fs "metadata" with
         | none => true
         | some w => pathAbsentOrObj w []) from rfl, hmd] at hp
      exact hp
    obtain ⟨mfs, rfl⟩ := isObjB_exists hmo
    rfl
  · rw [Bool.not_eq_true] at ha
    rw [ha]
    rfl

/-- The per-mode entries of the aristoteles branch (lines 142-154); pathos
and ethos carry one extra field each. -/
def aModeEnts (mode : String) : List EntSpec :=
  [.raw ("aristoteles." ++ mode ++ ".score") "score" (.str ""),
   .ser ("aristoteles." ++ mode ++ ".analysis") "analysis" (.str ""),
   .ser ("aristoteles." ++ mode ++ ".quotes") "quotes" (.arr []),
   .ser ("aristoteles." ++ mode ++ ".strengths") "strengths" (.arr []),
   .ser ("aristoteles." ++ mode ++ ".improvement_points") "improvement_points" (.arr []),
   .ser ("aristoteles." ++ mode ++ ".specific_diagnosis") "specific_diagnosis" (.str "")]
  ++ (if mode = "pathos" then
        [.ser "aristoteles.pathos.emotional_tone" "emotional_tone" (.str "")] else [])
  ++ (if mode = "ethos" then
        [.ser "aristoteles.ethos.authenticity" "authenticity" (.str "")] else [])

/-- Lines 157-163. -/
def aBalanceEnts : List EntSpec :=
  [.ser "aristoteles.balance.dominant_mode" "dominant_mode" (.str ""),
   .ser "aristoteles.balance.suppressed_mode" "suppressed_mode" (.str ""),
   .raw "aristoteles.balance.balance_score" "balance_score" (.str ""),
   .ser "aristoteles.balance.analysis" "analysis" (.str ""),
   .ser "aristoteles.balance.consequences_of_imbalance" "consequences_of_imbalance" (.arr []),
   .ser "aristoteles.balance.recommendation_for_balance" "recommendation_for_balance" (.str "")]

/-- Lines 166-170. -/
def aOrthoEnts (key : String) : List EntSpec :=
  [.raw ("aristoteles." ++ key ++ ".score") "score" (.str ""),
   .ser ("aristoteles." ++ key ++ ".analysis") "analysis" (.str "")]

/-- Lines 173-181. -/
def aOverallEnts : List EntSpec :=
  [.raw "aristoteles.overall.overall_rhetorical_score" "overall_rhetorical_score" (.str ""),
   .ser "aristoteles.overall.summary" "summary" (.str ""),
   .ser "aristoteles.overall.strengths_top_3" "strengths_top_3" (.arr []),
   .ser "aristoteles.overall.improvement_points_top_3" "improvement_points_top_3" (.arr []),
   .ser "aristoteles.overall.primary_rhetorical_style" "primary_rhetorical_style" (.str ""),
   .ser "aristoteles.overall.audience_analysis" "audience_analysis" (.str ""),
   .ser "aristoteles.overall.recommendations_for_next_sermon" "recommendations_for_next_sermon"
     (.arr []),
   .ser "aristoteles.overall.conclusion" "conclusion" (.str "")]

/-- The aristoteles branch (lines 139-181) as its parts in source order. -/
def aristotelesConvParts (data : JValue) : List (Option (List (String × JValue))) :=
  [memberPart data "aristotelian_modes_analysis"
     [("logos", aModeEnts "logos"), ("pathos", aModeEnts "pathos"),
      ("ethos", aModeEnts "ethos")],
   subPart data "rhetorical_balance_analysis" aBalanceEnts,
   memberPart data "orthodoxy_orthopathy_orthopraxy"
     [("orthodoxy_logos", aOrthoEnts "orthodoxy_logos"),
      ("orthopathy_pathos", aOrthoEnts "orthopathy_pathos"),
      ("orthopraxy_ethos", aOrthoEnts "orthopraxy_ethos")],
   subPart data "overall_picture" aOverallEnts]

/-- Normalization of a dekker criterion key (line 190). -/
def dekkerNorm (ck : String) : String :=
  pyReplaceStr (pyReplaceStr ck "criterion_" "") "concrete_concrete" "concrete"

/-- `v == '' or v is None` (line 197's and 207's test). -/
def isEmptyOrNone (v : JValue) : Bool :=
  match v with
  | .str s => s == ""
  | .null => true
  | _ => false

/-- One dekker criterion (lines 187-201): dict values only; yields the four
result entries and the float()-parsed score (if any) for the average. -/
def dekkerCrit (kv : String × JValue) : List (String × JValue) × List ℚ :=
  match kv.2 with
  | .obj fs =>
      let nk := dekkerNorm kv.1
      let score := objGetD (.obj fs) "score_1_to_10" (.str "")
      ([("dekker." ++ nk ++ ".score", score),
        ("dekker." ++ nk ++ ".findings",
          .str (serialize_value (objGetD (.obj fs) "findings" (.str "")))),
        ("dekker." ++ nk ++ ".quotes",
          .str (serialize_value (objGetD (.obj fs) "quotes" (.arr [])))),
        ("dekker." ++ nk ++ ".improvement_point",
          .str (serialize_value (objGetD (.obj fs) "improvement_point" (.str ""))))],
       if isEmptyOrNone score then [] else (pyFloat score).elim [] (fun q => [q]))
  | _ => ([], [])

/-- Lines 210-212 plus the average entry of line 209. -/
def dekkerOverallEnts (avg : JValue) : List EntSpec :=
  [.const "dekker.overall.average_score" avg,
   .ser "dekker.overall.strengths" "strengths" (.arr []),
   .ser "dekker.overall.weaknesses" "weaknesses" (.arr []),
   .ser "dekker.overall.general_recommendation" "general_recommendation" (.str "")]

/-- The dekker branch (lines 183-212): per-criterion entries, then the
overall block in which average_score falls back to the mean of the
float()-parseable criterion scores when absent/empty/None. -/
def dekkerConvPart (data : JValue) : Option (List (String × JValue)) := do
  let criteria ← pyGetD data "analysis_per_criterion" jEmptyObj
  let fs ← pyItems criteria
  let overall ← pyGetD data "overall_dekker_analysis" jEmptyObj
  let avg0 ← pyGetD overall "average_score" (.str "")
  let scores := (fs.map (fun kv => (dekkerCrit kv).2)).flatten
  let avg := if isEmptyOrNone avg0 && !scores.isEmpty then
      JValue.num (.float (scores.sum / (scores.length : ℚ))) else avg0
  let tl ← runEnts overall (dekkerOverallEnts avg)
  pure ((fs.map (fun kv => (dekkerCrit kv).1)).flatten ++ tl)

/-- Lines 227-232. -/
def kPhaseEnts (pn : String) : List EntSpec :=
  [.raw ("kolb." ++ pn ++ ".score") "score" (.str ""),
   .ser ("kolb." ++ pn ++ ".analysis") "analysis" (.str ""),
   .ser ("kolb." ++ pn ++ ".quotes") "quotes" (.arr []),
   .ser ("kolb." ++ pn ++ ".strengths") "strengths" (.arr []),
   .ser ("kolb." ++ pn ++ ".improvement_points") "improvement_points" (.arr []),
   .ser ("kolb." ++ pn ++ ".homiletical_manifestations") "homiletical_manifestations" (.str "")]

/-- Lines 239-240. -/
def kStyleEnts (style : String) : List EntSpec :=
  [.raw ("kolb.learning_style." ++ style ++ ".score") "score" (.str ""),
   .ser ("kolb.learning_style." ++ style ++ ".analysis") "analysis" (.str "")]

/-- Lines 247-248. -/
def kIntegEnts (key : String) : List EntSpec :=
  [.raw ("kolb.integrality." ++ key ++ ".score") "score" (.str ""),
   .ser ("kolb.integrality." ++ key ++ ".analysis") "analysis" (.str "")]

/-- Lines 252-255. -/
def kOverallEnts : List EntSpec :=
  [.raw "kolb.overall.overall_kolb_score" "overall_kolb_score" (.str ""),
   .ser "kolb.overall.summary" "summary" (.str ""),
   .ser "kolb.overall.strengths_top_3" "strengths_top_3" (.arr []),
   .ser "kolb.overall.improvement_points_top_3" "improvement_points_top_3" (.arr [])]

/-- The kolb branch (lines 214-255). -/
def kolbConvParts (data : JValue) : List (Option (List (String × JValue))) :=
  [memberPart data "kolb_phases_analysis"
     [("phase_1_concrete_experience", kPhaseEnts "concrete_experience"),
      ("phase_2_reflective_observation", kPhaseEnts "reflective_observation"),
      ("phase_3_abstract_conceptualization", kPhaseEnts "abstract_conceptualization"),
      ("phase_4_active_experimentation", kPhaseEnts "active_experimentation")],
   memberPart data "learning_styles_analysis"
     [("dreamer", kStyleEnts "dreamer"), ("thinker", kStyleEnts "thinker"),
      ("doer", kStyleEnts "doer"), ("decider", kStyleEnts "decider")],
   memberPart data "integrality_and_cycle"
     [("cycle_completeness", kIntegEnts "cycle_completeness"),
      ("balance_between_phases", kIntegEnts "balance_between_phases"),
      ("holistic_learning", kIntegEnts "holistic_learning")],
   subPart data "overall_picture" kOverallEnts]

/-- Lines 270-274. -/
def sAspectEnts (an : String) : List EntSpec :=
  [.raw ("schulz." ++ an ++ ".score") "score" (.str ""),
   .ser ("schulz." ++ an ++ ".analysis") "analysis" (.str ""),
   .ser ("schulz." ++ an ++ ".quotes") "quotes" (.arr []),
   .ser ("schulz." ++ an ++ ".strengths") "strengths" (.arr []),
   .ser ("schulz." ++ an ++ ".improvement_points") "improvement_points" (.arr [])]

/-- Lines 278-281. -/
def sCongruenceEnts : List EntSpec :=
  [.ser "schulz.congruence.congruence_judgment" "congruence_judgment" (.str ""),
   .ser "schulz.congruence.dominant_side" "dominant_side" (.str ""),
   .ser "schulz.congruence.disruptions" "disruptions" (.str ""),
   .ser "schulz.congruence.healing_disruption" "healing_disruption" (.str "")]

/-- Lines 285-288. -/
def sOverallEnts : List EntSpec :=
  [.raw "schulz.overall.overall_communication_score" "overall_communication_score" (.str ""),
   .ser "schulz.overall.summary" "summary" (.str ""),
   .ser "schulz.overall.strengths_top_3" "strengths_top_3" (.arr []),
   .ser "schulz.overall.improvement_points_top_3" "improvement_points_top_3" (.arr [])]

/-- The schulz_von_thun branch (lines 257-288). -/
def schulzConvParts (data : JValue) : List (Option (List (String × JValue))) :=
  [memberPart data "schulz_von_thun_analysis"
     [("factual_content_blue", sAspectEnts "factual_content"),
      ("self_revelation_green", sAspectEnts "self_revelation"),
      ("relational_aspect_yellow", sAspectEnts "relational_aspect"),
      ("appeal_aspect_red", sAspectEnts "appeal_aspect")],
   subPart data "congruence_and_disruptions" sCongruenceEnts,
   subPart data "overall_picture" sOverallEnts]

/-- One `criterion_*` item of an esthetiek domain (lines 294-300): dict
values only, key prefix stripped. -/
def esthCritEnts (pfx : String) (kv : String × JValue) : List (String × JValue) :=
  if pyStartsWith kv.1 "criterion_" then
    match kv.2 with
    | .obj fs =>
        let cn := pyReplaceStr kv.1 "criterion_" ""
        [(pfx ++ cn ++ ".score", objGetD (.obj fs) "score" (.str "")),
         (pfx ++ cn ++ ".analysis",
           .str (serialize_value (objGetD (.obj fs) "analysis" (.str "")))),
         (pfx ++ cn ++ ".quotes",
           .str (serialize_value (objGetD (.obj fs) "quotes" (.arr []))))]
    | _ => []
  else []

/-- An esthetiek domain block (lines 292-311): the average-score entry and
the criterion scan over the domain's items. -/
def esthDomainPart (data : JValue) (k1 avgKey avgOutKey pfx : String) :
    Option (List (String × JValue)) := do
  let dom ← pyGetD data k1 jEmptyObj
  let avg ← pyGetD dom avgKey (.str "")
  let fs ← pyItems dom
  pure ((avgOutKey, avg) :: (fs.map (esthCritEnts pfx)).flatten)

/-- Lines 314-317. -/
def eKitschEnts : List EntSpec :=
  [.raw "aesthetics.kitsch.anti_kitsch_score" "anti_kitsch_score" (.str ""),
   .ser "aesthetics.kitsch.analysis" "analysis" (.str ""),
   .ser "aesthetics.kitsch.quotes" "quotes" (.arr [])]

/-- Lines 320-323. -/
def eSpaceEnts : List EntSpec :=
  [.raw "aesthetics.space_for_grace.space_score" "space_score" (.str ""),
   .ser "aesthetics.space_for_grace.analysis" "analysis" (.str ""),
   .ser "aesthetics.space_for_grace.quotes" "quotes" (.arr [])]

/-- Lines 326-330. -/
def eOverallEnts : List EntSpec :=
  [.raw "aesthetics.overall.overall_aesthetic_score" "overall_aesthetic_score" (.str ""),
   .ser "aesthetics.overall.summary" "summary" (.str ""),
   .ser "aesthetics.overall.strengths_top_3" "strengths_top_3" (.arr []),
   .ser "aesthetics.overall.improvement_points_top_3" "improvement_points_top_3" (.arr [])]

/-- The esthetiek branch (lines 290-330). -/
def esthetiekConvParts (data : JValue) : List (Option (List (String × JValue))) :=
  [esthDomainPart data "domain_a_poetics_of_language" "average_score_language"
     "aesthetics.poetics.average_score" "aesthetics.poetics.",
   esthDomainPart data "domain_b_dramaturgy_of_structure" "average_score_structure"
     "aesthetics.dramaturgy.average_score" "aesthetics.dramaturgy.",
   subPart data "kitsch_diagnosis" eKitschEnts,
   subPart data "space_for_grace_analysis" eSpaceEnts,
   subPart data "overall_aesthetics" eOverallEnts]

/-- Lines 342-344 / 358-360 with the key_clean renaming of lines 340/356. -/
def tKeyEnts (side kc : String) : List EntSpec :=
  [.raw ("transactional." ++ side ++ "." ++ kc ++ ".score") "score" (.str ""),
   .ser ("transactional." ++ side ++ "." ++ kc ++ ".analysis") "analysis" (.str ""),
   .ser ("transactional." ++ side ++ "." ++ kc ++ ".quotes") "quotes" (.arr [])]

/-- Lines 348-350. -/
def tAdultEnts : List EntSpec :=
  [.raw "transactional.adult.score" "score" (.str ""),
   .ser "transactional.adult.analysis" "analysis" (.str ""),
   .ser "transactional.adult.quotes" "quotes" (.arr [])]

/-- Lines 364-367. -/
def tTransEnts : List EntSpec :=
  [.raw "transactional.transaction.communicative_purity_score" "communicative_purity_score"
     (.str ""),
   .ser "transactional.transaction.analysis" "analysis" (.str ""),
   .ser "transactional.transaction.primary_transaction_style" "primary_transaction_style"
     (.str ""),
   .ser "transactional.transaction.ulterior_motives" "ulterior_motives" (.str "")]

/-- Lines 371-372. -/
def tGamesEnts : List EntSpec :=
  [.ser "transactional.games.detected_games" "detected_games" (.arr []),
   .ser "transactional.games.absence_of_games_analysis" "absence_of_games_analysis" (.str "")]

/-- Lines 377-379. -/
def tDramaRolesEnts : List EntSpec :=
  [.ser "transactional.drama.preacher_rescuer" "rescuer" (.str ""),
   .ser "transactional.drama.preacher_persecutor" "persecutor" (.str ""),
   .ser "transactional.drama.preacher_victim" "victim" (.str "")]

/-- Lines 380-381. -/
def tDramaTailEnts : List EntSpec :=
  [.ser "transactional.drama.congregation_position" "congregation_position" (.str ""),
   .ser "transactional.drama.escape_possibilities" "escape_possibilities" (.str "")]

/-- Lines 385-388. -/
def tConclusionEnts : List EntSpec :=
  [.raw "transactional.overall.psychological_health_score" "psychological_health_score"
     (.str ""),
   .ser "transactional.overall.summary" "summary" (.str ""),
   .ser "transactional.overall.strengths_top_3" "strengths_top_3" (.arr []),
   .ser "transactional.overall.improvement_points_top_3" "improvement_points_top_3" (.arr [])]

/-- The ego-positions scan (lines 334-360): parent and child via membership
guards, adult unconditionally. -/
def transactionalEgoPart (data : JValue) : Option (List (String × JValue)) := do
  let ego ← pyGetD data "ego_positions_scan" jEmptyObj
  joinParts
    [memberPart ego "parent"
       [("freedom_from_critical_parent_CP", tKeyEnts "parent" "freedom_CP"),
        ("healthy_care_NP", tKeyEnts "parent" "nurturing_NP")],
     subPart ego "adult" tAdultEnts,
     memberPart ego "child"
       [("freedom_from_adapted_child_AC", tKeyEnts "child" "freedom_AC"),
        ("free_child_FC", tKeyEnts "child" "free_FC")]]

/-- The drama-triangle part (lines 375-381): the preacher_roles entries run
only under an isinstance-dict guard, then the two unconditional entries. -/
def dramaPart (data : JValue) : Option (List (String × JValue)) := do
  let drama ← pyGetD data "drama_triangle_analysis" jEmptyObj
  let pr ← pyGetD drama "preacher_roles" .null
  let head ← (match pr with
    | .obj fs => runEnts (.obj fs) tDramaRolesEnts
    | _ => pure [])
  let tl ← runEnts drama tDramaTailEnts
  pure (head ++ tl)

/-- The transactional branch (lines 332-388). -/
def transactionalConvParts (data : JValue) : List (Option (List (String × JValue))) :=
  [transactionalEgoPart data,
   subPart data "transaction_analysis" tTransEnts,
   subPart data "games_analysis" tGamesEnts,
   dramaPart data,
   subPart data "conclusion_and_recommendation" tConclusionEnts]

/-- Lines 393-394. -/
def mPrimaireEnts : List EntSpec :=
  [.ser "metaphor.dominante_domeinen" "dominante_domeinen" (.arr []),
   .ser "metaphor.metafoor_inventaris" "metafoor_inventaris" (.arr [])]

/-- Lines 409-411. -/
def mCoherentieTailEnts : List EntSpec :=
  [.ser "metaphor.coherentie.verklaring" "coherentie_verklaring" (.str ""),
   .ser "metaphor.coherentie.incoherentie_punten" "incoherentie_punten" (.arr []),
   .ser "metaphor.coherentie.succesvolle_blending" "succesvolle_blending" (.arr [])]

/-- Lines 412-413. -/
def mDiagEnts : List EntSpec :=
  [.ser "metaphor.sterktes" "sterktes" (.arr []),
   .ser "metaphor.risicos" "risicos" (.arr [])]

/-- Lines 417-420. -/
def mTextWorldEnts : List EntSpec :=
  [.ser "metaphor.text_world.primaire_wereld" "primaire_wereld" (.str ""),
   .ser "metaphor.text_world.sub_worlds" "sub_worlds" (.arr []),
   .ser "metaphor.text_world.effectiviteit" "world_building_effectiviteit" (.str ""),
   .ser "metaphor.text_world.deictic_shifts" "deictic_shifts" (.arr [])]

/-- Lines 424-426. -/
def mSchemaEnts : List EntSpec :=
  [.ser "metaphor.schema.versterkte_schemas" "versterkte_schemas" (.arr []),
   .ser "metaphor.schema.verstoorde_schemas" "verstoorde_schemas" (.arr []),
   .ser "metaphor.schema.liturgische_aansluiting" "liturgische_schema_aansluiting" (.str "")]

/-- Lines 430-436. -/
def mAanbevEnts : List EntSpec :=
  [.ser "metaphor.audit_samenvatting" "metafoor_audit_samenvatting" (.str ""),
   .ser "metaphor.revitalisatie_suggesties" "revitalisatie_suggesties" (.arr []),
   .ser "metaphor.coherentie_verbeteringen" "coherentie_verbeteringen" (.arr []),
   .ser "metaphor.entailment_checks" "entailment_checks" (.arr []),
   .ser "metaphor.alternatieve_domeinen" "alternatieve_domeinen" (.arr []),
   .ser "metaphor.overall.beoordeling" "overall_beoordeling" (.str ""),
   .ser "metaphor.overall.slotopmerking" "slotopmerking" (.str "")]

/-- Lines 440-442. -/
def mCompEnts : List EntSpec :=
  [.ser "metaphor.vergelijk.esthetiek" "verschil_met_esthetiek" (.str ""),
   .ser "metaphor.vergelijk.kolb" "verschil_met_kolb" (.str ""),
   .ser "metaphor.vergelijk.unieke_inzichten" "unieke_inzichten_CMT" (.str "")]

/-- Lines 446-448. -/
def mAppendicesEnts : List EntSpec :=
  [.ser "metaphor.volledige_metafoor_lijst" "volledige_metafoor_lijst" (.arr []),
   .ser "metaphor.woord_frequentie" "woord_frequentie_analyse" jEmptyObj,
   .ser "metaphor.notities" "notities" (.str "")]

/-- True when a value can be a dict key (lists and dicts are unhashable). -/
def hashableB (v : JValue) : Bool :=
  match v with
  | .arr _ => false
  | .obj _ => false
  | _ => true

/-- `coherentie_mapping.get(overall_coherentie, '')` of lines 401-408:
TypeError (none) on an unhashable key, the mapped score for the four known
strings, `''` otherwise. -/
def coherentieMapping (v : JValue) : Option JValue :=
  match v with
  | .arr _ => none
  | .obj _ => none
  | .str s =>
      some (if s = "HIGHLY_COHERENT" then .num (.int 10)
        else if s = "MOSTLY_COHERENT" then .num (.int 7)
        else if s = "MIXED" then .num (.int 4)
        else if s = "INCOHERENT" then .num (.int 1)
        else .str "")
  | _ => some (.str "")

/-- The coherence block of the metaphor branch (lines 397-411). -/
def metaphorCoherentiePart (data : JValue) : Option (List (String × JValue)) := do
  let diag ← pyGetD data "diagnostische_evaluatie" jEmptyObj
  let coherentie ← pyGetD diag "coherentie_analyse" jEmptyObj
  let oc ← pyGetD coherentie "overall_coherentie" (.str "")
  let score ← coherentieMapping oc
  let tl ← runEnts coherentie mCoherentieTailEnts
  pure (("metaphor.coherentie.overall", .str (serialize_value oc)) ::
        ("metaphor.coherentie.score", score) :: tl)

/-- The metaphor branch (lines 390-448). -/
def metaphorConvParts (data : JValue) : List (Option (List (String × JValue))) :=
  [subPart data "primaire_analyse" mPrimaireEnts,
   metaphorCoherentiePart data,
   subPart data "diagnostische_evaluatie" mDiagEnts,
   subPart2 data "diagnostische_evaluatie" "text_world_analyse" mTextWorldEnts,
   subPart2 data "diagnostische_evaluatie" "schema_analyse" mSchemaEnts,
   subPart data "aanbevelingen" mAanbevEnts,
   subPart data "comparatieve_analyse" mCompEnts,
   subPart data "appendices" mAppendicesEnts]

/-- Lines 454-456. -/
def saLocutieEnts : List EntSpec :=
  [.ser "speech_act.locutie.beschrijving" "beschrijving" (.str ""),
   .ser "speech_act.locutie.exegetische_kwaliteit" "exegetische_kwaliteit" (.str ""),
   .raw "speech_act.locutie.omvang_procent" "omvang_procent" (.str "")]

/-- Lines 459-462. -/
def saIllocutieEnts : List EntSpec :=
  [.ser "speech_act.illocutie.beschrijving" "beschrijving" (.str ""),
   .ser "speech_act.illocutie.primaire_kracht" "primaire_kracht" (.str ""),
   .raw "speech_act.illocutie.helderheid_score" "helderheid_score" (.str ""),
   .ser "speech_act.illocutie.voorbeelden" "voorbeelden" (.arr [])]

/-- Lines 465-467. -/
def saPerlocutieEnts : List EntSpec :=
  [.ser "speech_act.perlocutie.beoogd_effect" "beoogd_effect" (.str ""),
   .ser "speech_act.perlocutie.pneumatologisch_bewustzijn" "pneumatologisch_bewustzijn"
     (.str ""),
   .ser "speech_act.perlocutie.werkwoorden" "perlocutionaire_werkwoorden" (.arr [])]

/-- Lines 473-476. -/
def saWerkwoordEnts (cat : String) : List EntSpec :=
  [.raw ("speech_act.werkwoord." ++ cat ++ ".frequentie") "frequentie" (.str ""),
   .raw ("speech_act.werkwoord." ++ cat ++ ".procent") "procent" (.str ""),
   .ser ("speech_act.werkwoord." ++ cat ++ ".voorbeelden") "voorbeelden" (.arr []),
   .ser ("speech_act.werkwoord." ++ cat ++ ".dominante_werkwoorden") "dominante_werkwoorden"
     (.arr [])]

/-- Lines 480-482. -/
def saConstPerfEnts : List EntSpec :=
  [.ser "speech_act.const_perf.classificatie" "primaire_classificatie" (.str ""),
   .raw "speech_act.const_perf.constatief_percentage" "constatief_percentage" (.str ""),
   .raw "speech_act.const_perf.performatief_percentage" "performatief_percentage" (.str "")]

/-- Lines 485-486. -/
def saSurplusEnts : List EntSpec :=
  [.ser "speech_act.const_perf.surplus_aanwezig" "aanwezig" (.str ""),
   .ser "speech_act.const_perf.surplus_ernst" "ernst" (.str "")]

/-- Lines 489-490. -/
def saDeficitEnts : List EntSpec :=
  [.ser "speech_act.const_perf.deficit_aanwezig" "aanwezig" (.str ""),
   .ser "speech_act.const_perf.deficit_ernst" "ernst" (.str "")]

/-- Lines 493-495. -/
def saToezeggingEnts : List EntSpec :=
  [.ser "speech_act.toezegging.aanwezig" "toezegging_aanwezig" (.str ""),
   .raw "speech_act.toezegging.aantal" "aantal_toezeggen" (.str ""),
   .ser "speech_act.toezegging.kwaliteit" "kwaliteit_toezeggen" (.str "")]

/-- Line 499. -/
def saAdresEnts : List EntSpec :=
  [.raw "speech_act.adressering.effectiviteit" "adressering_effectiviteit" (.str "")]

/-- Line 503. -/
def saPersoonEnts (p : String) : List EntSpec :=
  [.raw ("speech_act.adressering." ++ p ++ ".frequentie") "frequentie" (.str "")]

/-- Line 507. -/
def saSacrEnts : List EntSpec :=
  [.ser "speech_act.sacramenteel.patroon" "patroon_identificatie" (.str "")]

/-- Line 509. -/
def saFoutEnts : List EntSpec :=
  [.ser "speech_act.sacramenteel.foutief_aanwezig" "aanwezig" (.str "")]

/-- Lines 511-512. -/
def saSacrPatrEnts : List EntSpec :=
  [.ser "speech_act.sacramenteel.sacramenteel_aanwezig" "aanwezig" (.str ""),
   .ser "speech_act.sacramenteel.sacramenteel_kwaliteit" "kwaliteit" (.str "")]

/-- Lines 516-521. -/
def saDiagEnts : List EntSpec :=
  [.ser "speech_act.diagnose.primaire" "primaire_diagnose" (.str ""),
   .ser "speech_act.diagnose.toelichting" "diagnose_toelichting" (.str ""),
   .ser "speech_act.diagnose.sterke_punten" "sterke_punten" (.arr []),
   .ser "speech_act.diagnose.zwakke_punten" "zwakke_punten" (.arr []),
   .raw "speech_act.diagnose.gebeuren_score" "gebeuren_score" (.str ""),
   .raw "speech_act.diagnose.sacramentele_kracht" "sacramentele_kracht" (.str "")]

/-- Lines 526-527. -/
def saOpenbEnts : List EntSpec :=
  [.ser "speech_act.theologie.god_als_spreker" "god_als_spreker" (.str ""),
   .ser "speech_act.theologie.prediker_mandataris" "prediker_als_mandataris" (.str "")]

/-- Line 529. -/
def saPneumEnts : List EntSpec :=
  [.ser "speech_act.theologie.geest_rol" "geest_rol_erkend" (.str "")]

/-- Line 531. -/
def saSacrTheolEnts : List EntSpec :=
  [.ser "speech_act.theologie.preek_als_genademiddel" "preek_als_genademiddel" (.str "")]

/-- Line 535. -/
def saAanbevEnts : List EntSpec :=
  [.ser "speech_act.aanbeveling.audit_samenvatting" "werkwoord_audit_samenvatting" (.str "")]

/-- Line 537. -/
def saPerfIntEnts : List EntSpec :=
  [.ser "speech_act.aanbeveling.perf_intensivering_nodig" "nodig" (.str "")]

/-- Lines 538-539. -/
def saAanbevTailEnts : List EntSpec :=
  [.ser "speech_act.aanbeveling.overall_beoordeling" "overall_beoordeling" (.str ""),
   .ser "speech_act.aanbeveling.slotopmerking" "slotopmerking" (.str "")]

/-- The speech_act branch (lines 450-539). -/
def speechActConvParts (data : JValue) : List (Option (List (String × JValue))) :=
  [subPart2 data "drievoudige_structuur_analyse" "locutie" saLocutieEnts,
   subPart2 data "drievoudige_structuur_analyse" "illocutie" saIllocutieEnts,
   subPart2 data "drievoudige_structuur_analyse" "perlocutie" saPerlocutieEnts,
   nestedParts data "werkwoord_analyse"
     [("assertieven", saWerkwoordEnts "assertieven"),
      ("directieven", saWerkwoordEnts "directieven"),
      ("expressieven", saWerkwoordEnts "expressieven"),
      ("commissieven", saWerkwoordEnts "commissieven"),
      ("declaratieven", saWerkwoordEnts "declaratieven")],
   subPart data "constatief_performatief_diagnose" saConstPerfEnts,
   subPart2 data "constatief_performatief_diagnose" "constatief_surplus_analyse" saSurplusEnts,
   subPart2 data "constatief_performatief_diagnose" "performatief_deficit_analyse"
     saDeficitEnts,
   subPart2 data "constatief_performatief_diagnose" "toezegging_check" saToezeggingEnts,
   subPart data "adressering_analyse" saAdresEnts,
   nestedParts2 data "adressering_analyse" "persoonsvorm_distributie"
     [("eerste_persoon", saPersoonEnts "eerste_persoon"),
      ("tweede_persoon", saPersoonEnts "tweede_persoon"),
      ("derde_persoon", saPersoonEnts "derde_persoon")],
   subPart data "sacramenteel_patroon_analyse" saSacrEnts,
   subPart2 data "sacramenteel_patroon_analyse" "foutief_patroon" saFoutEnts,
   subPart2 data "sacramenteel_patroon_analyse" "sacramenteel_patroon" saSacrPatrEnts,
   subPart data "diagnostische_evaluatie" saDiagEnts,
   nestedParts data "theologische_diepte_analyse"
     [("openbaringsleer", saOpenbEnts), ("pneumatologie", saPneumEnts),
      ("sacramentstheologie", saSacrTheolEnts)],
   subPart data "aanbevelingen" saAanbevEnts,
   subPart2 data "aanbevelingen" "performatieve_intensivering" saPerfIntEnts,
   subPart data "aanbevelingen" saAanbevTailEnts]

/-- Line 545. -/
def nPrimairEnts : List EntSpec :=
  [.ser "narrative.primair.beschrijving" "beschrijving" (.str "")]

/-- Lines 549-550. -/
def nSubjectEnts : List EntSpec :=
  [.ser "narrative.subject.identificatie" "identificatie" (.str ""),
   .raw "narrative.subject.frequentie_score" "frequentie_score" (.str "")]

/-- Lines 554-555. -/
def nObjectEnts : List EntSpec :=
  [.ser "narrative.object.identificatie" "identificatie" (.str ""),
   .ser "narrative.object.aard" "aard_van_object" (.str "")]

/-- Lines 559-560. -/
def nZenderEnts : List EntSpec :=
  [.ser "narrative.zender.identificatie" "identificatie" (.str ""),
   .ser "narrative.zender.rol" "rol_interpretatie" (.str "")]

/-- Lines 564-565. -/
def nOntvangerEnts : List EntSpec :=
  [.ser "narrative.ontvanger.identificatie" "identificatie" (.str ""),
   .ser "narrative.ontvanger.positie_hoorder" "positie_hoorder" (.str "")]

/-- Lines 569-571. -/
def nHelperEnts : List EntSpec :=
  [.ser "narrative.helper.identificatie" "identificatie" (.str ""),
   .ser "narrative.helper.rol_god" "rol_van_god" (.str ""),
   .ser "narrative.helper.rol_geest" "rol_van_geest" (.str "")]

/-- Lines 575-576. -/
def nTegenstEnts : List EntSpec :=
  [.ser "narrative.tegenstander.identificatie" "identificatie" (.str ""),
   .ser "narrative.tegenstander.ernst" "ernst_tegenstander" (.str "")]

/-- Lines 580-582. -/
def nSecundairEnts : List EntSpec :=
  [.ser "narrative.secundair.aanwezig" "aanwezig" (.str ""),
   .ser "narrative.secundair.beschrijving" "beschrijving" (.str ""),
   .ser "narrative.secundair.verhouding" "verhouding_tot_primair" (.str "")]

/-- Lines 587-588. -/
def nSubjectCheckEnts : List EntSpec :=
  [.ser "narrative.grammaticaal.ratio" "ratio" (.str ""),
   .raw "narrative.grammaticaal.rutledge_score" "rutledge_score" (.str "")]

/-- Lines 592-593. -/
def nModalEnts : List EntSpec :=
  [.ser "narrative.modal.dominante_modaliteit" "dominante_modaliteit" (.str ""),
   .ser "narrative.modal.interpretatie" "modale_interpretatie" (.str "")]

/-- Lines 598-599. -/
def nPrimTegEnts : List EntSpec :=
  [.ser "narrative.semiotisch.s1" "s1" (.str ""),
   .ser "narrative.semiotisch.s2" "s2" (.str "")]

/-- Lines 600-601. -/
def nSemiotEnts : List EntSpec :=
  [.ser "narrative.semiotisch.beweging" "beweging_in_preek" (.str ""),
   .ser "narrative.semiotisch.resolutie" "theologische_resolutie" (.str "")]

/-- Lines 605-608. -/
def nDiagEnts : List EntSpec :=
  [.ser "narrative.diagnose.classificatie" "primaire_classificatie" (.str ""),
   .ser "narrative.diagnose.toelichting" "classificatie_toelichting" (.str ""),
   .ser "narrative.diagnose.indicatoren_moralisme" "indicatoren_moralisme" (.arr []),
   .ser "narrative.diagnose.indicatoren_genade" "indicatoren_genade" (.arr [])]

/-- Lines 611-612. -/
def nExemplEnts : List EntSpec :=
  [.ser "narrative.exemplarisme.aanwezig" "aanwezig" (.str ""),
   .ser "narrative.exemplarisme.figuren" "bijbelse_figuren_als_model" (.arr [])]

/-- Lines 615-616. -/
def nIdentEnts : List EntSpec :=
  [.ser "narrative.identificatie.met" "hoorder_identificeert_met" (.str ""),
   .ser "narrative.identificatie.effect" "effect_op_hoorder" (.str "")]

/-- Line 619. -/
def nCoherEnts : List EntSpec :=
  [.raw "narrative.coherentie.score" "coherentie_score" (.str "")]

/-- Lines 624-625. -/
def nSoterEnts : List EntSpec :=
  [.ser "narrative.theologie.soteriologie_model" "primaire_model" (.str ""),
   .ser "narrative.theologie.menselijke_rol" "menselijke_rol_in_redding" (.str "")]

/-- Line 628. -/
def nPneumEnts : List EntSpec :=
  [.ser "narrative.theologie.geest_rol" "rol_heilige_geest" (.str "")]

/-- Line 631. -/
def nHamartEnts : List EntSpec :=
  [.ser "narrative.theologie.zonde_aard" "aard_van_zonde" (.str "")]

/-- Line 634. -/
def nEschatEnts : List EntSpec :=
  [.ser "narrative.theologie.hoop_structuur" "hoop_structuur" (.str "")]

/-- Line 638. -/
def nAanbevEnts : List EntSpec :=
  [.ser "narrative.aanbeveling.audit_samenvatting" "actantiele_audit_samenvatting" (.str "")]

/-- Line 640. -/
def nHerposEnts : List EntSpec :=
  [.ser "narrative.aanbeveling.herpositionering_nodig" "nodig" (.str "")]

/-- Lines 641-642. -/
def nAanbevTailEnts : List EntSpec :=
  [.ser "narrative.aanbeveling.overall_beoordeling" "overall_beoordeling" (.str ""),
   .ser "narrative.aanbeveling.slotopmerking" "slotopmerking" (.str "")]

/-- The narrative branch (lines 541-642). -/
def narrativeConvParts (data : JValue) : List (Option (List (String × JValue))) :=
  [subPart2 data "actantiele_analyse" "primair_narratief_programma" nPrimairEnts,
   nestedParts2 data "actantiele_analyse" "primair_narratief_programma"
     [("subject", nSubjectEnts), ("object", nObjectEnts), ("zender", nZenderEnts),
      ("ontvanger", nOntvangerEnts), ("helper", nHelperEnts),
      ("tegenstander", nTegenstEnts)],
   subPart2 data "actantiele_analyse" "secundair_narratief_programma" nSecundairEnts,
   subPart2 data "grammaticale_analyse" "subject_check" nSubjectCheckEnts,
   subPart2 data "grammaticale_analyse" "modale_analyse" nModalEnts,
   subPart2 data "semiotisch_vierkant_analyse" "primaire_tegenstelling" nPrimTegEnts,
   subPart data "semiotisch_vierkant_analyse" nSemiotEnts,
   subPart data "diagnostische_evaluatie" nDiagEnts,
   subPart2 data "diagnostische_evaluatie" "exemplarisme_check" nExemplEnts,
   subPart2 data "diagnostische_evaluatie" "identificatie_patroon" nIdentEnts,
   subPart2 data "diagnostische_evaluatie" "narratieve_coherentie" nCoherEnts,
   nestedParts data "theologische_diepte_analyse"
     [("soteriologie", nSoterEnts), ("pneumatologie", nPneumEnts),
      ("hamartologie", nHamartEnts), ("eschatologie", nEschatEnts)],
   subPart data "aanbevelingen" nAanbevEnts,
   subPart2 data "aanbevelingen" "subject_herpositionering" nHerposEnts,
   subPart data "aanbevelingen" nAanbevTailEnts]

/-- The branch dispatch of extract_analysis_data (lines 139-642), as the
list of the branch's parts in source order; an unknown analysis type
contributes nothing. -/
def convParts (data : JValue) (ty : String) : List (Option (List (String × JValue))) :=
  if ty = "aristoteles" then aristotelesConvParts data
  else if ty = "dekker" then [dekkerConvPart data]
  else if ty = "kolb" then kolbConvParts data
  else if ty = "schulz_von_thun" then schulzConvParts data
  else if ty = "esthetiek" then esthetiekConvParts data
  else if ty = "transactional" then transactionalConvParts data
  else if ty = "metaphor" then metaphorConvParts data
  else if ty = "speech_act" then speechActConvParts data
  else if ty = "narrative" then narrativeConvParts data
  else []

/-- Build the result dict from the entry assignments in program order
(Python dict semantics: an overwrite keeps the key's original position). -/
def buildResult (ents : List (String × JValue)) : List (String × JValue) :=
  ents.foldl (fun r kv => setKey r kv.1 kv.2) []

/-- extract_analysis_data (02__json_to_tsv_converter.py lines 126-644): the
metadata block, then the branch of the analysis type; none models a raised
exception. -/
def extract_analysis_data (data : JValue) (ty : String) :
    Option (List (String × JValue)) :=
  (joinParts (metadataPart data :: convParts data ty)).map buildResult

/-! ### Shape conditions under which extract_analysis_data cannot raise -/

/-- The dict positions the aristoteles branch reads through. -/
def aristotelesConvPaths : List (List String) :=
  [["aristotelian_modes_analysis"], ["aristotelian_modes_analysis", "logos"],
   ["aristotelian_modes_analysis", "pathos"], ["aristotelian_modes_analysis", "ethos"],
   ["rhetorical_balance_analysis"], ["orthodoxy_orthopathy_orthopraxy"],
   ["orthodoxy_orthopathy_orthopraxy", "orthodoxy_logos"],
   ["orthodoxy_orthopathy_orthopraxy", "orthopathy_pathos"],
   ["orthodoxy_orthopathy_orthopraxy", "orthopraxy_ethos"],
   ["overall_picture"]]

theorem aristotelesConvParts_total {data : JValue} (hd : data.isObjB = true)
    (hp : aristotelesConvPaths.all (pathAbsentOrObj data) = true) :
    ∀ p ∈ aristotelesConvParts data, p.isSome = true := by
  rw [aristotelesConvPaths] at hp
  simp only [List.all_cons, List.all_nil, Bool.and_true, Bool.and_eq_true] at hp
  obtain ⟨h1, hL, hP, hE, h2, h3, hO1, hO2, hO3, h4⟩ := hp
  intro p hpm
  rw [aristotelesConvParts] at hpm
  fin_cases hpm
  · exact memberPart_total hd h1 (by
      intro g hg
      fin_cases hg
      · exact hL
      · exact hP
      · exact hE)
  · exact subPart_total _ hd h2
  · exact memberPart_total hd h3 (by
      intro g hg
      fin_cases hg
      · exact hO1
      · exact hO2
      · exact hO3)
  · exact subPart_total _ hd h4

/-- The dict positions the dekker branch reads through. -/
def dekkerConvPaths : List (List String) :=
  [["analysis_per_criterion"], ["overall_dekker_analysis"]]

theorem dekkerConvPart_total {data : JValue} (hd : data.isObjB = true)
    (h1 : pathAbsentOrObj data ["analysis_per_criterion"] = true)
    (h2 : pathAbsentOrObj data ["overall_dekker_analysis"] = true) :
    (dekkerConvPart data).isSome = true := by
  obtain ⟨cfs, hcfs⟩ := isObjB_exists (isObjB_objGetD hd h1)
  obtain ⟨ofs, hofs⟩ := isObjB_exists (isObjB_objGetD hd h2)
  have hpc : pyGetD data "analysis_per_criterion" jEmptyObj = some (JValue.obj cfs) := by
    rw [pyGetD_of_obj _ _ hd, hcfs]
  have hpo : pyGetD data "overall_dekker_analysis" jEmptyObj = some (JValue.obj ofs) := by
    rw [pyGetD_of_obj _ _ hd, hofs]
  have hre : ∀ avg, runEnts (JValue.obj ofs) (dekkerOverallEnts avg) =
      some ((dekkerOverallEnts avg).map (entVal (JValue.obj ofs))) :=
    fun avg => runEnts_eq _ rfl
  have hit : pyItems (JValue.obj cfs) = some cfs := rfl
  have hav : pyGetD (JValue.obj ofs) "average_score" (.str "") =
      some ((lookupField ofs "average_score").getD (.str "")) := rfl
  rw [dekkerConvPart]
  simp only [hpc, hpo, optBind_some, hit, hav, hre, Option.some_bind,
    Option.pure_def, Option.isSome_some]

/-- The dict positions the kolb branch reads through. -/
def kolbConvPaths : List (List String) :=
  [["kolb_phases_analysis"],
   ["kolb_phases_analysis", "phase_1_concrete_experience"],
   ["kolb_phases_analysis", "phase_2_reflective_observation"],
   ["kolb_phases_analysis", "phase_3_abstract_conceptualization"],
   ["kolb_phases_analysis", "phase_4_active_experimentation"],
   ["learning_styles_analysis"],
   ["learning_styles_analysis", "dreamer"], ["learning_styles_analysis", "thinker"],
   ["learning_styles_analysis", "doer"], ["learning_styles_analysis", "decider"],
   ["integrality_and_cycle"],
   ["integrality_and_cycle", "cycle_completeness"],
   ["integrality_and_cycle", "balance_between_phases"],
   ["integrality_and_cycle", "holistic_learning"],
   ["overall_picture"]]

theorem kolbConvParts_total {data : JValue} (hd : data.isObjB = true)
    (hp : kolbConvPaths.all (pathAbsentOrObj data) = true) :
    ∀ p ∈ kolbConvParts data, p.isSome = true := by
  rw [kolbConvPaths] at hp
  simp only [List.all_cons, List.all_nil, Bool.and_true, Bool.and_eq_true] at hp
  obtain ⟨h1, hf1, hf2, hf3, hf4, h2, hs1, hs2, hs3, hs4, h3, hi1, hi2, hi3, h4⟩ := hp
  intro p hpm
  rw [kolbConvParts] at hpm
  fin_cases hpm
  · exact memberPart_total hd h1 (by
      intro g hg
      fin_cases hg
      · exact hf1
      · exact hf2
      · exact hf3
      · exact hf4)
  · exact memberPart_total hd h2 (by
      intro g hg
      fin_cases hg
      · exact hs1
      · exact hs2
      · exact hs3
      · exact hs4)
  · exact memberPart_total hd h3 (by
      intro g hg
      fin_cases hg
      · exact hi1
      · exact hi2
      · exact hi3)
  · exact subPart_total _ hd h4

/-- The dict positions the schulz_von_thun branch reads through. -/
def schulzConvPaths : List (List String) :=
  [["schulz_von_thun_analysis"],
   ["schulz_von_thun_analysis", "factual_content_blue"],
   ["schulz_von_thun_analysis", "self_revelation_green"],
   ["schulz_von_thun_analysis", "relational_aspect_yellow"],
   ["schulz_von_thun_analysis", "appeal_aspect_red"],
   ["congruence_and_disruptions"], ["overall_picture"]]

theorem schulzConvParts_total {data : JValue} (hd : data.isObjB = true)
    (hp : schulzConvPaths.all (pathAbsentOrObj data) = true) :
    ∀ p ∈ schulzConvParts data, p.isSome = true := by
  rw [schulzConvPaths] at hp
  simp only [List.all_cons, List.all_nil, Bool.and_true, Bool.and_eq_true] at hp
  obtain ⟨h1, ha1, ha2, ha3, ha4, h2, h3⟩ := hp
  intro p hpm
  rw [schulzConvParts] at hpm
  fin_cases hpm
  · exact memberPart_total hd h1 (by
      intro g hg
      fin_cases hg
      · exact ha1
      · exact ha2
      · exact ha3
      · exact ha4)
  · exact subPart_total _ hd h2
  · exact subPart_total _ hd h3

/-- The dict positions the esthetiek branch reads through (criterion values
are isinstance-guarded, so only the five domain containers matter). -/
def esthetiekConvPaths : List (List String) :=
  [["domain_a_poetics_of_language"], ["domain_b_dramaturgy_of_structure"],
   ["kitsch_diagnosis"], ["space_for_grace_analysis"], ["overall_aesthetics"]]

theorem esthDomainPart_total {data : JValue} (k1 avgKey avgOutKey pfx : String)
    (hd : data.isObjB = true) (h : pathAbsentOrObj data [k1] = true) :
    (esthDomainPart data k1 avgKey avgOutKey pfx).isSome = true := by
  obtain ⟨dfs, hdfs⟩ := isObjB_exists (isObjB_objGetD hd h)
  have hpd : pyGetD data k1 jEmptyObj = some (JValue.obj dfs) := by
    rw [pyGetD_of_obj _ _ hd, hdfs]
  have hav : pyGetD (JValue.obj dfs) avgKey (.str "") =
      some ((lookupField dfs avgKey).getD (.str "")) := rfl
  have hit : pyItems (JValue.obj dfs) = some dfs := rfl
  rw [esthDomainPart]
  simp only [hpd, optBind_some, hav, hit, Option.some_bind, Option.pure_def,
    Option.isSome_some]

theorem esthetiekConvParts_total {data : JValue} (hd : data.isObjB = true)
    (hp : esthetiekConvPaths.all (pathAbsentOrObj data) = true) :
    ∀ p ∈ esthetiekConvParts data, p.isSome = true := by
  rw [esthetiekConvPaths] at hp
  simp only [List.all_cons, List.all_nil, Bool.and_true, Bool.and_eq_true] at hp
  obtain ⟨h1, h2, h3, h4, h5⟩ := hp
  intro p hpm
  rw [esthetiekConvParts] at hpm
  fin_cases hpm
  · exact esthDomainPart_total _ _ _ _ hd h1
  · exact esthDomainPart_total _ _ _ _ hd h2
  · exact subPart_total _ hd h3
  · exact subPart_total _ hd h4
  · exact subPart_total _ hd h5

/-- The dict positions the transactional branch reads through. -/
def transactionalConvPaths : List (List String) :=
  [["ego_positions_scan"], ["ego_positions_scan", "parent"],
   ["ego_positions_scan", "parent", "freedom_from_critical_parent_CP"],
   ["ego_positions_scan", "parent", "healthy_care_NP"],
   ["ego_positions_scan", "adult"], ["ego_positions_scan", "child"],
   ["ego_positions_scan", "child", "freedom_from_adapted_child_AC"],
   ["ego_positions_scan", "child", "free_child_FC"],
   ["transaction_analysis"], ["games_analysis"], ["drama_triangle_analysis"],
   ["conclusion_and_recommendation"]]

theorem transactionalEgoPart_total {data : JValue} (hd : data.isObjB = true)
    (h1 : pathAbsentOrObj data ["ego_positions_scan"] = true)
    (hpar : pathAbsentOrObj data ["ego_positions_scan", "parent"] = true)
    (hp1 : pathAbsentOrObj data
      ["ego_positions_scan", "parent", "freedom_from_critical_parent_CP"] = true)
    (hp2 : pathAbsentOrObj data ["ego_positions_scan", "parent", "healthy_care_NP"] = true)
    (had : pathAbsentOrObj data ["ego_positions_scan", "adult"] = true)
    (hch : pathAbsentOrObj data ["ego_positions_scan", "child"] = true)
    (hc1 : pathAbsentOrObj data
      ["ego_positions_scan", "child", "freedom_from_adapted_child_AC"] = true)
    (hc2 : pathAbsentOrObj data ["ego_positions_scan", "child", "free_child_FC"] = true) :
    (transactionalEgoPart data).isSome = true := by
  have hego := isObjB_objGetD hd h1
  rw [transactionalEgoPart, pyGetD_of_obj _ _ hd, optBind_some]
  apply joinParts_total
  intro p hpm
  fin_cases hpm
  · exact memberPart_total hego (pathStep hd hpar) (by
      intro g hg
      fin_cases hg
      · exact pathStep hd hp1
      · exact pathStep hd hp2)
  · exact subPart_total _ hego (pathStep hd had)
  · exact memberPart_total hego (pathStep hd hch) (by
      intro g hg
      fin_cases hg
      · exact pathStep hd hc1
      · exact pathStep hd hc2)

theorem dramaPart_total {data : JValue} (hd : data.isObjB = true)
    (h : pathAbsentOrObj data ["drama_triangle_analysis"] = true) :
    (dramaPart data).isSome = true := by
  obtain ⟨dfs, hdfs⟩ := isObjB_exists (isObjB_objGetD hd h)
  have hpd : pyGetD data "drama_triangle_analysis" jEmptyObj = some (JValue.obj dfs) := by
    rw [pyGetD_of_obj _ _ hd, hdfs]
  have htl : runEnts (JValue.obj dfs) tDramaTailEnts =
      some (tDramaTailEnts.map (entVal (JValue.obj dfs))) := runEnts_eq _ rfl
  have hpr0 : pyGetD (JValue.obj dfs) "preacher_roles" JValue.null =
      some ((lookupField dfs "preacher_roles").getD JValue.null) := rfl
  rw [dramaPart]
  simp only [hpd, optBind_some, hpr0, htl]
  cases hpr : (lookupField dfs "preacher_roles").getD JValue.null
  case obj prfs =>
    simp only [runEnts_eq tDramaRolesEnts (show (JValue.obj prfs).isObjB = true from rfl),
      optBind_some, Option.some_bind, Option.pure_def, Option.isSome_some]
  all_goals
    simp only [optBind_some, Option.some_bind, Option.pure_def, Option.isSome_some]

theorem transactionalConvParts_total {data : JValue} (hd : data.isObjB = true)
    (hp : transactionalConvPaths.all (pathAbsentOrObj data) = true) :
    ∀ p ∈ transactionalConvParts data, p.isSome = true := by
  rw [transactionalConvPaths] at hp
  simp only [List.all_cons, List.all_nil, Bool.and_true, Bool.and_eq_true] at hp
  obtain ⟨h1, hpar, hp1, hp2, had, hch, hc1, hc2, h2, h3, h4, h5⟩ := hp
  intro p hpm
  rw [transactionalConvParts] at hpm
  fin_cases hpm
  · exact transactionalEgoPart_total hd h1 hpar hp1 hp2 had hch hc1 hc2
  · exact subPart_total _ hd h2
  · exact subPart_total _ hd h3
  · exact dramaPart_total hd h4
  · exact subPart_total _ hd h5

/-- The dict positions the metaphor branch reads through. -/
def metaphorConvPaths : List (List String) :=
  [["primaire_analyse"], ["diagnostische_evaluatie"],
   ["diagnostische_evaluatie", "coherentie_analyse"],
   ["diagnostische_evaluatie", "text_world_analyse"],
   ["diagnostische_evaluatie", "schema_analyse"],
   ["aanbevelingen"], ["comparatieve_analyse"], ["appendices"]]

theorem coherentieMapping_isSome {v : JValue} (h : hashableB v = true) :
    (coherentieMapping v).isSome = true := by
  cases v
  case arr xs => simp [hashableB] at h
  case obj fs => simp [hashableB] at h
  all_goals rfl

theorem metaphorCoherentiePart_total {data : JValue} (hd : data.isObjB = true)
    (h1 : pathAbsentOrObj data ["diagnostische_evaluatie"] = true)
    (h2 : pathAbsentOrObj data ["diagnostische_evaluatie", "coherentie_analyse"] = true)
    (hh : hashableB (objGetD (objGetD (objGetD data "diagnostische_evaluatie" jEmptyObj)
      "coherentie_analyse" jEmptyObj) "overall_coherentie" (.str "")) = true) :
    (metaphorCoherentiePart data).isSome = true := by
  have hdiag := isObjB_objGetD hd h1
  have hcoh := isObjB_objGetD hdiag (pathStep hd h2)
  obtain ⟨sc, hsc⟩ := Option.isSome_iff_exists.mp (coherentieMapping_isSome hh)
  have htl := runEnts_eq mCoherentieTailEnts hcoh
  rw [metaphorCoherentiePart]
  simp only [pyGetD_of_obj _ _ hd, optBind_some, pyGetD_of_obj _ _ hdiag,
    pyGetD_of_obj _ _ hcoh, hsc, htl, Option.some_bind, Option.pure_def, Option.isSome_some]

theorem metaphorConvParts_total {data : JValue} (hd : data.isObjB = true)
    (hp : metaphorConvPaths.all (pathAbsentOrObj data) = true)
    (hh : hashableB (objGetD (objGetD (objGetD data "diagnostische_evaluatie" jEmptyObj)
      "coherentie_analyse" jEmptyObj) "overall_coherentie" (.str "")) = true) :
    ∀ p ∈ metaphorConvParts data, p.isSome = true := by
  rw [metaphorConvPaths] at hp
  simp only [List.all_cons, List.all_nil, Bool.and_true, Bool.and_eq_true] at hp
  obtain ⟨h1, h2, h3, h4, h5, h6, h7, h8⟩ := hp
  intro p hpm
  rw [metaphorConvParts] at hpm
  fin_cases hpm
  · exact subPart_total _ hd h1
  · exact metaphorCoherentiePart_total hd h2 h3 hh
  · exact subPart_total _ hd h2
  · exact subPart2_total _ hd h2 h4
  · exact subPart2_total _ hd h2 h5
  · exact subPart_total _ hd h6
  · exact subPart_total _ hd h7
  · exact subPart_total _ hd h8

/-- The dict positions the speech_act branch reads through. -/
def speechActConvPaths : List (List String) :=
  [["drievoudige_structuur_analyse"],
   ["drievoudige_structuur_analyse", "locutie"],
   ["drievoudige_structuur_analyse", "illocutie"],
   ["drievoudige_structuur_analyse", "perlocutie"],
   ["werkwoord_analyse"],
   ["werkwoord_analyse", "assertieven"], ["werkwoord_analyse", "directieven"],
   ["werkwoord_analyse", "expressieven"], ["werkwoord_analyse", "commissieven"],
   ["werkwoord_analyse", "declaratieven"],
   ["constatief_performatief_diagnose"],
   ["constatief_performatief_diagnose", "constatief_surplus_analyse"],
   ["constatief_performatief_diagnose", "performatief_deficit_analyse"],
   ["constatief_performatief_diagnose", "toezegging_check"],
   ["adressering_analyse"],
   ["adressering_analyse", "persoonsvorm_distributie"],
   ["adressering_analyse", "persoonsvorm_distributie", "eerste_persoon"],
   ["adressering_analyse", "persoonsvorm_distributie", "tweede_persoon"],
   ["adressering_analyse", "persoonsvorm_distributie", "derde_persoon"],
   ["sacramenteel_patroon_analyse"],
   ["sacramenteel_patroon_analyse", "foutief_patroon"],
   ["sacramenteel_patroon_analyse", "sacramenteel_patroon"],
   ["diagnostische_evaluatie"],
   ["theologische_diepte_analyse"],
   ["theologische_diepte_analyse", "openbaringsleer"],
   ["theologische_diepte_analyse", "pneumatologie"],
   ["theologische_diepte_analyse", "sacramentstheologie"],
   ["aanbevelingen"], ["aanbevelingen", "performatieve_intensivering"]]

theorem speechActConvParts_total {data : JValue} (hd : data.isObjB = true)
    (hp : speechActConvPaths.all (pathAbsentOrObj data) = true) :
    ∀ p ∈ speechActConvParts data, p.isSome = true := by
  rw [speechActConvPaths] at hp
  simp only [List.all_cons, List.all_nil, Bool.and_true, Bool.and_eq_true] at hp
  obtain ⟨q1, q2, q3, q4, q5, q6, q7, q8, q9, q10, q11, q12, q13, q14, q15, q16, q17,
    q18, q19, q20, q21, q22, q23, q24, q25, q26, q27, q28, q29⟩ := hp
  intro p hpm
  rw [speechActConvParts] at hpm
  fin_cases hpm
  · exact subPart2_total _ hd q1 q2
  · exact subPart2_total _ hd q1 q3
  · exact subPart2_total _ hd q1 q4
  · exact nestedParts_total hd q5 (by
      intro g hg
      fin_cases hg
      · exact q6
      · exact q7
      · exact q8
      · exact q9
      · exact q10)
  · exact subPart_total _ hd q11
  · exact subPart2_total _ hd q11 q12
  · exact subPart2_total _ hd q11 q13
  · exact subPart2_total _ hd q11 q14
  · exact subPart_total _ hd q15
  · exact nestedParts2_total hd q15 q16 (by
      intro g hg
      fin_cases hg
      · exact q17
      · exact q18
      · exact q19)
  · exact subPart_total _ hd q20
  · exact subPart2_total _ hd q20 q21
  · exact subPart2_total _ hd q20 q22
  · exact subPart_total _ hd q23
  · exact nestedParts_total hd q24 (by
      intro g hg
      fin_cases hg
      · exact q25
      · exact q26
      · exact q27)
  · exact subPart_total _ hd q28
  · exact subPart2_total _ hd q28 q29
  · exact subPart_total _ hd q28

/-- The dict positions the narrative branch reads through. -/
def narrativeConvPaths : List (List String) :=
  [["actantiele_analyse"],
   ["actantiele_analyse", "primair_narratief_programma"],
   ["actantiele_analyse", "primair_narratief_programma", "subject"],
   ["actantiele_analyse", "primair_narratief_programma", "object"],
   ["actantiele_analyse", "primair_narratief_programma", "zender"],
   ["actantiele_analyse", "primair_narratief_programma", "ontvanger"],
   ["actantiele_analyse", "primair_narratief_programma", "helper"],
   ["actantiele_analyse", "primair_narratief_programma", "tegenstander"],
   ["actantiele_analyse", "secundair_narratief_programma"],
   ["grammaticale_analyse"],
   ["grammaticale_analyse", "subject_check"],
   ["grammaticale_analyse", "modale_analyse"],
   ["semiotisch_vierkant_analyse"],
   ["semiotisch_vierkant_analyse", "primaire_tegenstelling"],
   ["diagnostische_evaluatie"],
   ["diagnostische_evaluatie", "exemplarisme_check"],
   ["diagnostische_evaluatie", "identificatie_patroon"],
   ["diagnostische_evaluatie", "narratieve_coherentie"],
   ["theologische_diepte_analyse"],
   ["theologische_diepte_analyse", "soteriologie"],
   ["theologische_diepte_analyse", "pneumatologie"],
   ["theologische_diepte_analyse", "hamartologie"],
   ["theologische_diepte_analyse", "eschatologie"],
   ["aanbevelingen"], ["aanbevelingen", "subject_herpositionering"]]

theorem narrativeConvParts_total {data : JValue} (hd : data.isObjB = true)
    (hp : narrativeConvPaths.all (pathAbsentOrObj data) = true) :
    ∀ p ∈ narrativeConvParts data, p.isSome = true := by
  rw [narrativeConvPaths] at hp
  simp only [List.all_cons, List.all_nil, Bool.and_true, Bool.and_eq_true] at hp
  obtain ⟨q1, q2, q3, q4, q5, q6, q7, q8, q9, q10, q11, q12, q13, q14, q15, q16, q17,
    q18, q19, q20, q21, q22, q23, q24, q25⟩ := hp
  intro p hpm
  rw [narrativeConvParts] at hpm
  fin_cases hpm
  · exact subPart2_total _ hd q1 q2
  · exact nestedParts2_total hd q1 q2 (by
      intro g hg
      fin_cases hg
      · exact q3
      · exact q4
      · exact q5
      · exact q6
      · exact q7
      · exact q8)
  · exact subPart2_total _ hd q1 q9
  · exact subPart2_total _ hd q10 q11
  · exact subPart2_total _ hd q10 q12
  · exact subPart2_total _ hd q13 q14
  · exact subPart_total _ hd q13
  · exact subPart_total _ hd q15
  · exact subPart2_total _ hd q15 q16
  · exact subPart2_total _ hd q15 q17
  · exact subPart2_total _ hd q15 q18
  · exact nestedParts_total hd q19 (by
      intro g hg
      fin_cases hg
      · exact q20
      · exact q21
      · exact q22
      · exact q23)
  · exact subPart_total _ hd q24
  · exact subPart2_total _ hd q24 q25
  · exact subPart_total _ hd q24

/-- The dict positions extract_analysis_data reads through for a given
analysis type: the metadata block plus the branch's positions. -/
def convPaths (ty : String) : List (List String) :=
  ["metadata"] ::
  (if ty = "aristoteles" then aristotelesConvPaths
   else if ty = "dekker" then dekkerConvPaths
   else if ty = "kolb" then kolbConvPaths
   else if ty = "schulz_von_thun" then schulzConvPaths
   else if ty = "esthetiek" then esthetiekConvPaths
   else if ty = "transactional" then transactionalConvPaths
   else if ty = "metaphor" then metaphorConvPaths
   else if ty = "speech_act" then speechActConvPaths
   else if ty = "narrative" then narrativeConvPaths
   else [])

/-- The one crash mode not expressible as a dict-shape condition: the
metaphor branch uses `coherentie_mapping.get(overall_coherentie, '')`,
which raises TypeError when that field holds an unhashable value (a list
or a dict). -/
def convExtraOk (data : JValue) (ty : String) : Bool :=
  if ty = "metaphor" then
    hashableB (objGetD (objGetD (objGetD data "diagnostische_evaluatie" jEmptyObj)
      "coherentie_analyse" jEmptyObj) "overall_coherentie" (.str ""))
  else true

theorem extract_analysis_data_total (data : JValue) (ty : String)
    (hd : data.isObjB = true)
    (hp : (convPaths ty).all (pathAbsentOrObj data) = true)
    (hx : convExtraOk data ty = true) :
    (extract_analysis_data data ty).isSome = true := by
  rw [extract_analysis_data]
  rw [convPaths] at hp
  simp only [List.all_cons, Bool.and_eq_true] at hp
  obtain ⟨hmeta, hp⟩ := hp
  have hjp : (joinParts (metadataPart data :: convParts data ty)).isSome = true := by
    apply joinParts_total
    intro p hpm
    simp only [List.mem_cons] at hpm
    rcases hpm with rfl | hpm
    · exact metadataPart_total hd hmeta
    rw [convParts] at hpm
    by_cases h1 : ty = "aristoteles"
    · rw [if_pos h1] at hpm hp
      exact aristotelesConvParts_total hd hp p hpm
    rw [if_neg h1] at hpm hp
    by_cases h2 : ty = "dekker"
    · rw [if_pos h2] at hpm hp
      simp only [List.all_cons, List.all_nil, Bool.and_true, Bool.and_eq_true,
        dekkerConvPaths] at hp
      simp only [List.mem_singleton] at hpm
      rw [hpm]
      exact dekkerConvPart_total hd hp.1 hp.2
    rw [if_neg h2] at hpm hp
    by_cases h3 : ty = "kolb"
    · rw [if_pos h3] at hpm hp
      exact kolbConvParts_total hd hp p hpm
    rw [if_neg h3] at hpm hp
    by_cases h4 : ty = "schulz_von_thun"
    · rw [if_pos h4] at hpm hp
      exact schulzConvParts_total hd hp p hpm
    rw [if_neg h4] at hpm hp
    by_cases h5 : ty = "esthetiek"
    · rw [if_pos h5] at hpm hp
      exact esthetiekConvParts_total hd hp p hpm
    rw [if_neg h5] at hpm hp
    by_cases h6 : ty = "transactional"
    · rw [if_pos h6] at hpm hp
      exact transactionalConvParts_total hd hp p hpm
    rw [if_neg h6] at hpm hp
    by_cases h7 : ty = "metaphor"
    · rw [if_pos h7] at hpm hp
      rw [convExtraOk, if_pos h7] at hx
      exact metaphorConvParts_total hd hp hx p hpm
    rw [if_neg h7] at hpm hp
    by_cases h8 : ty = "speech_act"
    · rw [if_pos h8] at hpm hp
      exact speechActConvParts_total hd hp p hpm
    rw [if_neg h8] at hpm hp
    by_cases h9 : ty = "narrative"
    · rw [if_pos h9] at hpm hp
      exact narrativeConvParts_total hd hp p hpm
    rw [if_neg h9] at hpm
    simp at hpm
  obtain ⟨l, hl⟩ := Option.isSome_iff_exists.mp hjp
  rw [hl]
  rfl

/-- C1 counterexample: extraction does propagate exceptions on well-formed
but type-confused input.  A payload whose `metadata` field is a number makes
extract_analysis_data raise AttributeError at `data['metadata'].items()`,
and a payload whose `aristotelian_modes_analysis` field is a number makes
both scripts' extract_scores raise at `modes.get('logos', \x7b\x7d)`. -/
theorem C1_counterexample :
    extract_analysis_data (.obj [("metadata", .num (.int 5))]) "aristoteles" = none ∧
    extract_scores_stats (.obj [("aristotelian_modes_analysis", .num (.int 5))])
      "aristoteles" false = none ∧
    extract_scores_violin (.obj [("aristotelian_modes_analysis", .num (.int 5))])
      "aristoteles" false = none :=
  ⟨rfl, rfl, rfl⟩

/-- C1 (amended): the extraction functions cannot raise on a payload whose
accessed positions are each absent or a dict — extract_scores of
precompute_statistics.py and violin_data_precompute.py under their
branches' positions, and extract_analysis_data of the converter under its
branch's positions plus hashability of the metaphor coherence field.
Unrestricted totality (the original claim) is false: see the
counterexample. -/
theorem C1_extraction_total_under_shape (data : JValue) (ty : String) (detailed : Bool)
    (hd : data.isObjB = true)
    (hs : (statsScorePaths ty).all (pathAbsentOrObj data) = true)
    (hv : (violinScorePaths ty).all (pathAbsentOrObj data) = true)
    (hc : (convPaths ty).all (pathAbsentOrObj data) = true)
    (hx : convExtraOk data ty = true) :
    (extract_scores_stats data ty detailed).isSome = true ∧
    (extract_scores_violin data ty detailed).isSome = true ∧
    (extract_analysis_data data ty).isSome = true :=
  ⟨extract_scores_stats_total data ty detailed hs,
   extract_scores_violin_total data ty detailed hv,
   extract_analysis_data_total data ty hd hc hx⟩

/-- A well-shaped aristoteles payload for the totality witness. -/
def c1WitnessPayload : JValue :=
  .obj [("aristotelian_modes_analysis",
          .obj [("logos", .obj [("score", .num (.int 7))])]),
        ("overall_picture", .obj [("overall_rhetorical_score", .num (.int 8))])]

theorem C1_witness :
    (extract_scores_stats c1WitnessPayload "aristoteles" false).isSome = true ∧
    (extract_scores_violin c1WitnessPayload "aristoteles" false).isSome = true ∧
    (extract_analysis_data c1WitnessPayload "aristoteles").isSome = true :=
  C1_extraction_total_under_shape c1WitnessPayload "aristoteles" false rfl
    (by decide) (by decide) (by decide) rfl

/-! ### Dict lookup through buildResult, for reading single output columns -/

theorem lookupField_append (xs ys : List (String × JValue)) (k : String) :
    lookupField (xs ++ ys) k =
      match lookupField xs k with
      | some v => some v
      | none => lookupField ys k := by
  induction xs with
  | nil => rfl
  | cons e rest ih =>
    obtain ⟨a, b⟩ := e
    rw [List.cons_append, lookupField, lookupField]
    by_cases ha : a = k
    · rw [if_pos ha, if_pos ha]
    · rw [if_neg ha, if_neg ha, ih]

theorem lookup_none_of_not_any {fs : List (String × JValue)} {k : String}
    (h : fs.any (fun kv => kv.1 == k) = false) : lookupField fs k = none := by
  induction fs with
  | nil => rfl
  | cons e rest ih =>
    obtain ⟨a, b⟩ := e
    simp only [List.any_cons, Bool.or_eq_false_iff] at h
    rw [lookupField, if_neg (by simpa using h.1)]
    exact ih h.2

theorem lookup_mapSet_self (fs : List (String × JValue)) (k : String) (v : JValue)
    (ha : fs.any (fun kv => kv.1 == k) = true) :
    lookupField (fs.map (fun kv => if kv.1 == k then (kv.1, v) else kv)) k = some v := by
  induction fs with
  | nil => simp at ha
  | cons e rest ih =>
    obtain ⟨a, b⟩ := e
    simp only [List.any_cons, Bool.or_eq_true] at ha
    by_cases hak : a = k
    · subst hak
      rw [List.map_cons, if_pos (show ((a, b).1 == a) = true by simp), lookupField,
        if_pos rfl]
    · rw [List.map_cons, if_neg (show ¬ ((a, b).1 == k) = true by simp [hak]),
        lookupField, if_neg hak]
      refine ih ?_
      rcases ha with h | h
      · exact absurd (by simpa using h) hak
      · exact h

theorem lookup_mapSet_other (fs : List (String × JValue)) (k : String) (v : JValue)
    (k' : String) (hne : k' ≠ k) :
    lookupField (fs.map (fun kv => if kv.1 == k then (kv.1, v) else kv)) k' =
      lookupField fs k' := by
  induction fs with
  | nil => rfl
  | cons e rest ih =>
    obtain ⟨a, b⟩ := e
    by_cases hak : a = k
    · subst hak
      have hak' : ¬ a = k' := fun hh => hne hh.symm
      rw [List.map_cons, if_pos (show ((a, b).1 == a) = true by simp), lookupField,
        lookupField, if_neg hak', if_neg hak']
      exact ih
    · by_cases hak' : a = k'
      · rw [List.map_cons, if_neg (show ¬ ((a, b).1 == k) = true by simp [hak]),
          lookupField, lookupField, if_pos hak', if_pos hak']
      · rw [List.map_cons, if_neg (show ¬ ((a, b).1 == k) = true by simp [hak]),
          lookupField, lookupField, if_neg hak', if_neg hak']
        exact ih

theorem setKey_lookup_self (fs : List (String × JValue)) (k : String) (v : JValue) :
    lookupField (setKey fs k v) k = some v := by
  rw [setKey]
  by_cases ha : fs.any (fun kv => kv.1 == k) = true
  · rw [if_pos ha]
    exact lookup_mapSet_self fs k v ha
  · rw [if_neg ha, lookupField_append,
      lookup_none_of_not_any (by rwa [Bool.not_eq_true] at ha), lookupField, if_pos rfl]

theorem setKey_lookup_other (fs : List (String × JValue)) (k : String) (v : JValue)
    (k' : String) (hne : k' ≠ k) :
    lookupField (setKey fs k v) k' = lookupField fs k' := by
  rw [setKey]
  by_cases ha : fs.any (fun kv => kv.1 == k) = true
  · rw [if_pos ha]
    exact lookup_mapSet_other fs k v k' hne
  · rw [if_neg ha, lookupField_append]
    cases h : lookupField fs k' with
    | some w => rfl
    | none =>
      rw [lookupField, if_neg (fun hh => hne hh.symm)]
      rfl

/-- Looking a key up in the built dict finds the value of its last
assignment (Python overwrite semantics). -/
theorem buildResult_go (ents : List (String × JValue)) (acc : List (String × JValue))
    (k : String) :
    lookupField (ents.foldl (fun r kv => setKey r kv.1 kv.2) acc) k =
      match lookupField ents.reverse k with
      | some v => some v
      | none => lookupField acc k := by
  induction ents generalizing acc with
  | nil => rfl
  | cons e rest ih =>
    rw [List.foldl_cons, ih, List.reverse_cons, lookupField_append]
    cases h : lookupField rest.reverse k with
    | some v => rfl
    | none =>
      obtain ⟨a, b⟩ := e
      by_cases hak : a = k
      · rw [lookupField, if_pos hak]
        subst hak
        rw [setKey_lookup_self]
      · rw [lookupField, if_neg hak, lookupField]
        exact setKey_lookup_other acc a b k (fun hh => hak hh.symm)

theorem buildResult_lookup (ents : List (String × JValue)) (k : String) :
    lookupField (buildResult ents) k = lookupField ents.reverse k := by
  rw [buildResult, buildResult_go]
  cases h : lookupField ents.reverse k with
  | some v => rfl
  | none => rfl

/-- The float()-parseable criterion scores gathered by the dekker branch
(lines 196-201). -/
def dekkerScores (cfs : List (String × JValue)) : List ℚ :=
  (cfs.map (fun kv => (dekkerCrit kv).2)).flatten

/-- The value stored at dekker.overall.average_score (lines 206-209): the
payload's aggregate unless it is absent/empty/None and criterion scores
exist, in which case their arithmetic mean. -/
def dekkerAvg (cfs ofs : List (String × JValue)) : JValue :=
  if isEmptyOrNone ((lookupField ofs "average_score").getD (.str "")) &&
      !(dekkerScores cfs).isEmpty then
    .num (.float ((dekkerScores cfs).sum / ((dekkerScores cfs).length : ℚ)))
  else (lookupField ofs "average_score").getD (.str "")

theorem dekkerConvPart_eq {data : JValue} {cfs ofs : List (String × JValue)}
    (hd : data.isObjB = true)
    (hcfs : objGetD data "analysis_per_criterion" jEmptyObj = JValue.obj cfs)
    (hofs : objGetD data "overall_dekker_analysis" jEmptyObj = JValue.obj ofs) :
    dekkerConvPart data =
      some ((cfs.map (fun kv => (dekkerCrit kv).1)).flatten ++
        (dekkerOverallEnts (dekkerAvg cfs ofs)).map (entVal (JValue.obj ofs))) := by
  have hpc : pyGetD data "analysis_per_criterion" jEmptyObj = some (JValue.obj cfs) := by
    rw [pyGetD_of_obj _ _ hd, hcfs]
  have hpo : pyGetD data "overall_dekker_analysis" jEmptyObj = some (JValue.obj ofs) := by
    rw [pyGetD_of_obj _ _ hd, hofs]
  have hit : pyItems (JValue.obj cfs) = some cfs := rfl
  have hav : pyGetD (JValue.obj ofs) "average_score" (.str "") =
      some ((lookupField ofs "average_score").getD (.str "")) := rfl
  have hre : ∀ avg, runEnts (JValue.obj ofs) (dekkerOverallEnts avg) =
      some ((dekkerOverallEnts avg).map (entVal (JValue.obj ofs))) :=
    fun avg => runEnts_eq _ rfl
  rw [dekkerConvPart]
  simp only [hpc, hpo, optBind_some, hit, hav, hre, Option.some_bind, Option.pure_def]
  rw [dekkerAvg, dekkerScores]

theorem dekkerTl_lookup (avg : JValue) (ofs : List (String × JValue)) :
    lookupField ((dekkerOverallEnts avg).map (entVal (JValue.obj ofs))).reverse
      "dekker.overall.average_score" = some avg := by
  show lookupField
    [("dekker.overall.general_recommendation",
       .str (serialize_value (objGetD (JValue.obj ofs) "general_recommendation" (.str "")))),
     ("dekker.overall.weaknesses",
       .str (serialize_value (objGetD (JValue.obj ofs) "weaknesses" (.arr [])))),
     ("dekker.overall.strengths",
       .str (serialize_value (objGetD (JValue.obj ofs) "strengths" (.arr [])))),
     ("dekker.overall.average_score", avg)] "dekker.overall.average_score" = some avg
  rw [lookupField, if_neg (by decide), lookupField, if_neg (by decide),
    lookupField, if_neg (by decide), lookupField, if_pos rfl]

/-- C9: in extract_analysis_data's dekker branch, the output column
dekker.overall.average_score holds the payload's aggregate average_score
unchanged when that field is present (non-empty, non-None); when it is
absent or empty and one or more per-criterion score_1_to_10 values parse as
floats, it holds their arithmetic mean (dekkerAvg). -/
theorem C9_dekker_average_fallback (data : JValue) (cfs ofs : List (String × JValue))
    (hd : data.isObjB = true)
    (hmeta : pathAbsentOrObj data ["metadata"] = true)
    (hcfs : objGetD data "analysis_per_criterion" jEmptyObj = JValue.obj cfs)
    (hofs : objGetD data "overall_dekker_analysis" jEmptyObj = JValue.obj ofs) :
    ∃ r, extract_analysis_data data "dekker" = some r ∧
      lookupField r "dekker.overall.average_score" = some (dekkerAvg cfs ofs) := by
  obtain ⟨md, hmdv⟩ := Option.isSome_iff_exists.mp (metadataPart_total hd hmeta)
  have hdk := dekkerConvPart_eq hd hcfs hofs
  have hcp : convParts data "dekker" = [dekkerConvPart data] := rfl
  refine ⟨buildResult (md ++ ((cfs.map (fun kv => (dekkerCrit kv).1)).flatten ++
    (dekkerOverallEnts (dekkerAvg cfs ofs)).map (entVal (JValue.obj ofs)))), ?_, ?_⟩
  · rw [extract_analysis_data, hcp, joinParts, List.mapM_cons, List.mapM_cons,
      List.mapM_nil]
    simp only [id, hmdv, hdk, Option.some_bind, Option.pure_def, Option.map_some']
    simp
  · rw [buildResult_lookup, List.reverse_append, lookupField_append,
      List.reverse_append, lookupField_append, dekkerTl_lookup]

/-- A payload exercising the fallback: no aggregate, two numeric criterion
scores 4 and 6. -/
def c9Payload : JValue :=
  .obj [("analysis_per_criterion",
          .obj [("criterion_1", .obj [("score_1_to_10", .num (.int 4))]),
                ("criterion_2", .obj [("score_1_to_10", .num (.int 6))])]),
        ("overall_dekker_analysis", .obj [])]

theorem C9_witness :
    ∃ r, extract_analysis_data c9Payload "dekker" = some r ∧
      lookupField r "dekker.overall.average_score" = some (.num (.float 5)) := by
  obtain ⟨r, hr, hl⟩ := C9_dekker_average_fallback c9Payload
    [("criterion_1", .obj [("score_1_to_10", .num (.int 4))]),
     ("criterion_2", .obj [("score_1_to_10", .num (.int 6))])] [] rfl rfl rfl rfl
  refine ⟨r, hr, ?_⟩
  rw [hl]
  norm_num [dekkerAvg, dekkerScores, dekkerCrit, dekkerNorm, isEmptyOrNone, pyFloat,
    objGetD, lookupField]

/-! ## Output assembly (C7): the statistics document, the violin document,
and the TSV's orderings

`datetime.now().isoformat()` is an effect; it enters the embedding as the
`generatedAt` parameter of the document builders.  Both scripts return
early without writing when no data loads, so the documents below describe
runs with at least the loading step done. -/

/-- One loaded record of the precompute scripts'
`load_all_data` (theologian/sermon/analysis from the filename, data the
decoded payload). -/
structure RawItem where
  theologian : String
  sermon : String
  analysis : String
  data : JValue

/-- Append-or-update in an insertion-ordered dict (Python defaultdict
access order: first occurrence fixes the position). -/
def assocAppend {α : Type} (m : List (String × α)) (k : String) (dflt : α) (f : α → α) :
    List (String × α) :=
  if m.any (fun kv => kv.1 == k) then
    m.map (fun kv => if kv.1 == k then (kv.1, f kv.2) else kv)
  else m ++ [(k, f dflt)]

/-- `scores_by_metric_and_theologian[metric_key][theologian].append(score)`
over one record's extracted scores (add_score guarantees every stored value
is numeric, so the numeric reading never falls back to its default). -/
def collectItemScores (acc : List (String × List (String × List ℚ)))
    (theologian : String) (scores : List (String × JValue)) :
    List (String × List (String × List ℚ)) :=
  scores.foldl (fun a kv =>
    assocAppend a kv.1 []
      (fun tmap => assocAppend tmap theologian [] (fun l => l ++ [(jNumVal kv.2).getD 0])))
    acc

/-- aggregate_scores of precompute_statistics.py lines 207-240: collect in
first-occurrence order, then summarize each theologian's series. -/
def aggregate_scores_stats (items : List RawItem) (detailed : Bool) :
    Option (List (String × List (String × StatSummary))) := do
  let collected ← items.foldlM (fun acc it => do
      let scores ← extract_scores_stats it.data it.analysis detailed
      pure (collectItemScores acc it.theologian scores)) []
  pure (collected.map (fun m =>
    (m.1, m.2.filterMap (fun tv => (calculate_stats tv.2).map (fun s => (tv.1, s))))))

/-- aggregate_scores of violin_data_precompute.py lines 284-317. -/
def aggregate_scores_violin (items : List RawItem) (detailed : Bool) :
    Option (List (String × List (String × ViolinData))) := do
  let collected ← items.foldlM (fun acc it => do
      let scores ← extract_scores_violin it.data it.analysis detailed
      pure (collectItemScores acc it.theologian scores)) []
  pure (collected.map (fun m =>
    (m.1, m.2.filterMap (fun tv => (calculate_violin_data tv.2).map (fun s => (tv.1, s))))))

/-- First-occurrence deduplication (a deterministic stand-in for `set`,
sound because the callers sort the result). -/
def dedupStr (l : List String) : List String :=
  l.foldl (fun a x => if a.any (fun y => y == x) then a else a ++ [x]) []

/-- `sorted(set(item['theologian'] for item in all_data))`. -/
def get_available_theologians (items : List RawItem) : List String :=
  (dedupStr (items.map (·.theologian))).insertionSort (· ≤ ·)

/-- count_sermons_per_theologian of violin_data_precompute.py: per
theologian the number of distinct sermons, keys sorted. -/
def sermonCounts (items : List RawItem) : List (String × ℕ) :=
  ((items.foldl (fun acc it =>
      assocAppend acc it.theologian []
        (fun l => if l.any (fun y => y == it.sermon) then l else l ++ [it.sermon])) []
    ).insertionSort (fun a b => a.1 ≤ b.1)).map (fun kv => (kv.1, kv.2.length))

/-- The statistics document (precompute_statistics.py lines 312-317). -/
structure StatsDoc where
  generated_at : String
  theologians : List String
  summary : List (String × List (String × StatSummary))
  detailed : List (String × List (String × StatSummary))
deriving DecidableEq, Repr

/-- The violin document (violin_data_precompute.py lines 400-407). -/
structure ViolinDoc where
  generated_at : String
  theologians : List String
  sermon_counts : List (String × ℕ)
  summary : List (String × List (String × ViolinData))
  detailed : List (String × List (String × ViolinData))
deriving DecidableEq, Repr

def statisticsDoc (generatedAt : String) (items : List RawItem) : Option StatsDoc := do
  let summary ← aggregate_scores_stats items false
  let detailed ← aggregate_scores_stats items true
  pure ⟨generatedAt, get_available_theologians items, summary, detailed⟩

def violinDoc (generatedAt : String) (items : List RawItem) : Option ViolinDoc := do
  let summary ← aggregate_scores_violin items false
  let detailed ← aggregate_scores_violin items true
  pure ⟨generatedAt, get_available_theologians items, sermonCounts items, summary,
    detailed⟩

/-- Everything in the statistics document except the timestamp. -/
def stripStats (d : StatsDoc) :
    List String × List (String × List (String × StatSummary)) ×
      List (String × List (String × StatSummary)) :=
  (d.theologians, d.summary, d.detailed)

/-- Everything in the violin document except the timestamp. -/
def stripViolin (d : ViolinDoc) :
    List String × List (String × ℕ) × List (String × List (String × ViolinData)) ×
      List (String × List (String × ViolinData)) :=
  (d.theologians, d.sermon_counts, d.summary, d.detailed)

/-- create_tsv's fixed leading columns (lines 715/726). -/
def META_COLUMNS : List String := ["theologian", "sermon_id", "sermon_key"]

/-- Add keys not yet present, keeping encounter order. -/
def dedupAppendKeys (acc : List String) (ks : List String) : List String :=
  ks.foldl (fun a k => if a.any (fun x => x == k) then a else a ++ [k]) acc

/-- The first pass of create_tsv (lines 718-724): every extracted column
name over all sermons' analyses, in encounter order (a deterministic
stand-in for the set, sound because the second pass sorts). -/
def tsvAllColumns (sermons : List ((String × String) × List (String × JValue))) :
    Option (List String) :=
  sermons.foldlM (fun acc s =>
    s.2.foldlM (fun acc2 an => do
        let ex ← extract_analysis_data an.2 an.1
        pure (dedupAppendKeys acc2 (ex.map (·.1)))) acc)
    META_COLUMNS

/-- `data_columns = sorted([col for col in all_columns if col not in
meta_columns])` (line 727). -/
def tsvDataColumns (allCols : List String) : List String :=
  (allCols.filter (fun c => !(META_COLUMNS.any (fun m => m == c)))).insertionSort (· ≤ ·)

/-- `all_columns_ordered = meta_columns + data_columns` (line 728). -/
def tsvColumnsOrdered (allCols : List String) : List String :=
  META_COLUMNS ++ tsvDataColumns allCols

/-- Python tuple order on (theologian, sermon_id). -/
def pairLe (a b : String × String) : Prop :=
  a.1 < b.1 ∨ (a.1 = b.1 ∧ a.2 ≤ b.2)

instance : DecidableRel pairLe := fun a b =>
  inferInstanceAs (Decidable (a.1 < b.1 ∨ (a.1 = b.1 ∧ a.2 ≤ b.2)))

instance : IsTotal (String × String) pairLe :=
  ⟨fun a b => by
    rcases lt_trichotomy a.1 b.1 with h | h | h
    · exact Or.inl (Or.inl h)
    · rcases le_total a.2 b.2 with h2 | h2
      · exact Or.inl (Or.inr ⟨h, h2⟩)
      · exact Or.inr (Or.inr ⟨h.symm, h2⟩)
    · exact Or.inr (Or.inl h)⟩

instance : IsTrans (String × String) pairLe :=
  ⟨fun a b c hab hbc => by
    have hab' : a.1 < b.1 ∨ (a.1 = b.1 ∧ a.2 ≤ b.2) := hab
    have hbc' : b.1 < c.1 ∨ (b.1 = c.1 ∧ b.2 ≤ c.2) := hbc
    rcases hab' with h1 | ⟨h1, h1'⟩
    · rcases hbc' with h2 | ⟨h2, h2'⟩
      · exact Or.inl (h1.trans h2)
      · exact Or.inl (by rw [← h2]; exact h1)
    · rcases hbc' with h2 | ⟨h2, h2'⟩
      · exact Or.inl (by rw [h1]; exact h2)
      · exact Or.inr ⟨h1.trans h2, h1'.trans h2'⟩⟩

instance {β : Type} : DecidableRel
    (fun (x y : (String × String) × β) => pairLe x.1 y.1) := fun x y =>
  inferInstanceAs (Decidable (pairLe x.1 y.1))

instance {β : Type} : IsTotal ((String × String) × β) (fun x y => pairLe x.1 y.1) :=
  ⟨fun a b => total_of pairLe a.1 b.1⟩

instance {β : Type} : IsTrans ((String × String) × β) (fun x y => pairLe x.1 y.1) :=
  ⟨fun _ _ _ h1 h2 => trans_of pairLe h1 h2⟩

/-- `sorted(sermons.items())` of line 740: rows in (theologian, sermon_id)
order. -/
def sortSermons {β : Type} (sermons : List ((String × String) × β)) :
    List ((String × String) × β) :=
  sermons.insertionSort (fun x y => pairLe x.1 y.1)

/-- A one-record input set for the re-run comparison. -/
def c7Items : List RawItem := [⟨"augustine", "01", "aristoteles", .obj []⟩]

/-- C7 counterexample: re-running the pipeline on an unchanged input does
NOT produce byte-identical statistics and violin documents — both embed
`generated_at = datetime.now().isoformat()`, so two runs at different
times yield different documents (and hence different bytes). -/
theorem C7_counterexample :
    statisticsDoc "2026-01-01T00:00:00" c7Items ≠
      statisticsDoc "2026-01-02T00:00:00" c7Items ∧
    violinDoc "2026-01-01T00:00:00" c7Items ≠
      violinDoc "2026-01-02T00:00:00" c7Items := by
  constructor
  · decide
  · decide

/-- C7 (amended): each output is a deterministic function of the input set
plus a run timestamp; the tabular export carries no timestamp and its
orderings are as claimed (data columns sorted lexicographically after the
fixed metadata columns, rows sorted by the (theologian, sermon_id) pair),
while the statistics and violin documents of two runs agree on everything
except the embedded generated_at timestamp.  Byte-identity of outputs 2
and 3 across re-runs (the original claim) is false: see the
counterexample. -/
theorem C7_deterministic_mod_timestamp (t1 t2 : String) (items : List RawItem)
    (allCols : List String) (β : Type) (sermons : List ((String × String) × β)) :
    (statisticsDoc t1 items).map stripStats = (statisticsDoc t2 items).map stripStats ∧
    (violinDoc t1 items).map stripViolin = (violinDoc t2 items).map stripViolin ∧
    List.Sorted (· ≤ ·) (tsvDataColumns allCols) ∧
    tsvColumnsOrdered allCols = META_COLUMNS ++ tsvDataColumns allCols ∧
    List.Sorted (fun x y => pairLe x.1 y.1) (sortSermons sermons) := by
  refine ⟨?_, ?_, ?_, rfl, ?_⟩
  · rw [statisticsDoc, statisticsDoc]
    cases aggregate_scores_stats items false <;>
      cases aggregate_scores_stats items true <;> rfl
  · rw [violinDoc, violinDoc]
    cases aggregate_scores_violin items false <;>
      cases aggregate_scores_violin items true <;> rfl
  · rw [tsvDataColumns]
    exact List.sorted_insertionSort _ _
  · rw [sortSermons]
    exact List.sorted_insertionSort _ _

end HomileticXray
